import Mathlib

/-!
MAX77693 regulator driver: a shallow embedding of `drivers/regulator/max77693-regulator.c`.

* C `int` values are `Int`; where the source computes with them the result is
  reduced to 32 bits by `int32` (the kernel is built with wrapping signed
  arithmetic), `unsigned` and `u8` values are `Nat` reduced explicitly.
* A function that returns 0 after writing its out-parameters is an `Except`:
  `.ok` carries the values written (return value 0), `.error e` is the
  return value `e` with the out-parameters untouched.
* Register I/O goes through a `regmap` value that records every read and
  update in `log`, so "issues no register access" is a statement about `log`.
* The search loop of `max77693_get_voltage_proper_val` takes a fuel argument;
  `none` means that the loop was still running when the fuel ran out.
-/

namespace Max77693

/-! ## Constants -/

/-- Value of the errno `EINVAL` (the driver returns `-EINVAL`). -/
def EINVAL : Int := 22

/-- Value of the errno `ENOMEM`. -/
def ENOMEM : Int := 12

/-- Value of the errno `ENODEV`. -/
def ENODEV : Int := 19

/-- Modelled from the spec: `enum max77693_regulators` lives in
`linux/mfd/max77693.h`, which is not among the sources.  The values are the ones
the spec and the source rely on: the descriptor table `regulators[]` lists
ESAFEOUT1, ESAFEOUT2, CHARGER in this order and is indexed by regulator id, and
the enable mask of ESAFEOUT2 is `0x40 << (rid - MAX77693_ESAFEOUT1) = 0x80`. -/
def MAX77693_ESAFEOUT1 : Int := 0

/-- Modelled from the spec: second enumerator of `enum max77693_regulators`
(header missing), the successor of `MAX77693_ESAFEOUT1`. -/
def MAX77693_ESAFEOUT2 : Int := 1

/-- Modelled from the spec: third enumerator of `enum max77693_regulators`
(header missing). -/
def MAX77693_CHARGER : Int := 2

/-- Modelled from the spec: the enumerator closing `enum max77693_regulators`
(header missing); the size of `saved_states`. -/
def MAX77693_REG_MAX : Int := 3

/-- Modelled from the spec: the charger register addresses are macros of
`linux/mfd/max77693-private.h`, which is not among the sources; the driver uses
three of them and only their identity matters. -/
inductive max77693_reg
  | MAX77693_CHG_REG_SAFEOUT_CTRL
  | MAX77693_CHG_REG_CHG_CNFG_00
  | MAX77693_CHG_REG_CHG_CNFG_09
  deriving DecidableEq, Repr

open max77693_reg

/-- Reduction of an integer to the range of a 32-bit C `int`. -/
def int32 (x : Int) : Int := (x + 2147483648) % 4294967296 - 2147483648

/-! ## Register I/O -/

/-- One access to the register map. -/
inductive io_event
  | read (reg : max77693_reg)
  | update (reg : max77693_reg) (val mask : Nat)
  deriving DecidableEq, Repr

/-- The register map behind `iodev->regmap`: the 8-bit contents of the
registers, the outcome the bus gives to a read or an update of each register
(0 for success, an error code otherwise), and the accesses issued so far. -/
structure regmap where
  content : max77693_reg → Nat
  read_result : max77693_reg → Int
  update_result : max77693_reg → Int
  log : List io_event

/-- Modelled from the spec: `max77693_read_reg` is defined in
`drivers/mfd/max77693.c`, which is not among the sources.  It reads one register:
on success it returns 0 and stores the byte in `*dest`, on failure it returns
the error code and leaves `*dest` as it was.  `dest` is the old value of
`*dest`; the result is the return value, the new `*dest` and the register map. -/
def max77693_read_reg (rm : regmap) (reg : max77693_reg) (dest : Nat) :
    Int × Nat × regmap :=
  let rm1 : regmap := { rm with log := rm.log ++ [io_event.read reg] }
  if rm.read_result reg = 0 then (0, rm.content reg % 256, rm1)
  else (rm.read_result reg, dest, rm1)

/-- Modelled from the spec: `max77693_update_reg` is defined in
`drivers/mfd/max77693.c`, which is not among the sources.  It is a
read-modify-write of one register, `new = (old & ~mask) | (val & mask)` on
bytes; on failure it returns the error code and the register keeps its content. -/
def max77693_update_reg (rm : regmap) (reg : max77693_reg) (val mask : Nat) :
    Int × regmap :=
  let rm1 : regmap := { rm with log := rm.log ++ [io_event.update reg val mask] }
  if rm.update_result reg = 0 then
    (0, { rm1 with
          content := Function.update rm.content reg
            (((rm.content reg % 256) &&& (255 ^^^ (mask % 256))) |||
              ((val % 256) &&& (mask % 256))) })
  else (rm.update_result reg, rm1)

/-! ## Data model -/

/-- The `struct voltage_map_desc` of the driver. -/
structure voltage_map_desc where
  min : Int
  max : Int
  step : Int
  n_bits : Nat
  deriving DecidableEq, Repr

/-- Current map of the charger, in mA. -/
def charger_current_map_desc : voltage_map_desc :=
  { min := 60, max := 2580, step := 20, n_bits := 7 }

/-- Current map of the charger top-off, in mA. -/
def topoff_current_map_desc : voltage_map_desc :=
  { min := 50, max := 200, step := 10, n_bits := 4 }

/-- The table `reg_voltage_map`, indexed by regulator id; `none` is `NULL`. -/
def reg_voltage_map : List (Option voltage_map_desc) :=
  [none, none, some charger_current_map_desc]

/-- The functions a `list_voltage` slot of an ops table can point to. -/
inductive list_voltage_fn
  | max77693_list_voltage_safeout
  deriving DecidableEq, Repr

/-- The other callbacks of the driver, by name. -/
inductive max77693_callback
  | max77693_reg_is_enabled
  | max77693_reg_enable
  | max77693_reg_disable
  | max77693_get_voltage
  | max77693_set_voltage
  | max77693_set_voltage_safeout
  | max77693_reg_enable_suspend
  | max77693_reg_disable_suspend
  deriving DecidableEq, Repr

/-- The slots of `struct regulator_ops` the driver fills; `none` is a slot left
`NULL`. -/
structure regulator_ops where
  list_voltage : Option list_voltage_fn := none
  is_enabled : Option max77693_callback := none
  enable : Option max77693_callback := none
  disable : Option max77693_callback := none
  get_voltage : Option max77693_callback := none
  set_voltage : Option max77693_callback := none
  get_current_limit : Option max77693_callback := none
  set_current_limit : Option max77693_callback := none
  set_suspend_enable : Option max77693_callback := none
  set_suspend_disable : Option max77693_callback := none
  deriving DecidableEq, Repr

/-- The ops table of the two SAFEOUT regulators. -/
def max77693_safeout_ops : regulator_ops :=
  { list_voltage := some list_voltage_fn.max77693_list_voltage_safeout
    is_enabled := some max77693_callback.max77693_reg_is_enabled
    enable := some max77693_callback.max77693_reg_enable
    disable := some max77693_callback.max77693_reg_disable
    get_voltage := some max77693_callback.max77693_get_voltage
    set_voltage := some max77693_callback.max77693_set_voltage_safeout
    set_suspend_enable := some max77693_callback.max77693_reg_enable_suspend
    set_suspend_disable := some max77693_callback.max77693_reg_disable_suspend }

/-- The ops table of the charger. -/
def max77693_charger_ops : regulator_ops :=
  { is_enabled := some max77693_callback.max77693_reg_is_enabled
    enable := some max77693_callback.max77693_reg_enable
    disable := some max77693_callback.max77693_reg_disable
    get_current_limit := some max77693_callback.max77693_get_voltage
    set_current_limit := some max77693_callback.max77693_set_voltage }

/-- The two kinds of regulator of the host framework. -/
inductive regulator_type
  | REGULATOR_VOLTAGE
  | REGULATOR_CURRENT
  deriving DecidableEq, Repr

/-- The fields of `struct regulator_desc` the driver sets. -/
structure regulator_desc where
  name : String
  id : Int
  ops : regulator_ops
  type : regulator_type
  n_voltages : Nat := 0
  deriving DecidableEq, Repr

/-- The descriptor table `regulators[]`. -/
def regulators : List regulator_desc :=
  [ { name := "ESAFEOUT1", id := MAX77693_ESAFEOUT1, ops := max77693_safeout_ops,
      type := regulator_type.REGULATOR_VOLTAGE },
    { name := "ESAFEOUT2", id := MAX77693_ESAFEOUT2, ops := max77693_safeout_ops,
      type := regulator_type.REGULATOR_VOLTAGE },
    { name := "CHARGER", id := MAX77693_CHARGER, ops := max77693_charger_ops,
      type := regulator_type.REGULATOR_CURRENT } ]

/-- A registered regulator device as the callbacks see it: its descriptor. -/
structure regulator_dev where
  desc : regulator_desc
  deriving DecidableEq, Repr

/-- The part of `struct max77693_dev` the driver uses. -/
structure max77693_dev where
  regmap : regmap

/-- The driver data `struct max77693_data`.  An entry of `rdev` is `none` for a
`NULL` pointer and `some h` for the device registered by the call number `h` of
`regulator_register`. -/
structure max77693_data where
  iodev : max77693_dev
  num_regulators : Nat
  rdev : List (Option Nat)
  saved_states : List Nat

/-- The id of a regulator device, `rdev_get_id`. -/
def max77693_get_rid (rdev : regulator_dev) : Int := rdev.desc.id

/-! ## The callbacks -/

/-- The voltage a SAFEOUT selector stands for, `max77693_list_voltage_safeout`. -/
def max77693_list_voltage_safeout (rdev : regulator_dev) (selector : Nat) : Int :=
  let rid := max77693_get_rid rdev
  if rid = MAX77693_ESAFEOUT1 ∨ rid = MAX77693_ESAFEOUT2 then
    match selector with
    | 0 => 4850000
    | 1 => 4900000
    | 2 => 4950000
    | 3 => 3300000
    | _ => -EINVAL
  else -EINVAL

/-- The register, mask and pattern that enable a regulator,
`max77693_get_enable_register`. -/
def max77693_get_enable_register (rdev : regulator_dev) :
    Except Int (max77693_reg × Nat × Nat) :=
  let rid := max77693_get_rid rdev
  if MAX77693_ESAFEOUT1 ≤ rid ∧ rid ≤ MAX77693_ESAFEOUT2 then
    .ok (MAX77693_CHG_REG_SAFEOUT_CTRL,
         0x40 <<< (rid - MAX77693_ESAFEOUT1).toNat,
         0x40 <<< (rid - MAX77693_ESAFEOUT1).toNat)
  else if rid = MAX77693_CHARGER then
    .ok (MAX77693_CHG_REG_CHG_CNFG_00, 0xf, 0x5)
  else .error (-EINVAL)

/-- The register, mask and pattern that disable a regulator,
`max77693_get_disable_register`. -/
def max77693_get_disable_register (rdev : regulator_dev) :
    Except Int (max77693_reg × Nat × Nat) :=
  let rid := max77693_get_rid rdev
  if MAX77693_ESAFEOUT1 ≤ rid ∧ rid ≤ MAX77693_ESAFEOUT2 then
    .ok (MAX77693_CHG_REG_SAFEOUT_CTRL,
         0x40 <<< (rid - MAX77693_ESAFEOUT1).toNat, 0x00)
  else if rid = MAX77693_CHARGER then
    .ok (MAX77693_CHG_REG_CHG_CNFG_00, 0xf, 0x00)
  else .error (-EINVAL)

/-- The callback `max77693_reg_is_enabled`.  The local `val` is not
initialised in the source; it is read only after a successful register read. -/
def max77693_reg_is_enabled (rdev : regulator_dev) (data : max77693_data) :
    Int × max77693_data :=
  match max77693_get_enable_register rdev with
  | .error ret => (ret, data)
  | .ok (reg, mask, pattern) =>
    match max77693_read_reg data.iodev.regmap reg 0 with
    | (ret, val, rm) =>
      let data1 : max77693_data := { data with iodev := { regmap := rm } }
      if ret ≠ 0 then (ret, data1)
      else (if val &&& mask = pattern then 1 else 0, data1)

/-- The callback `max77693_reg_enable`. -/
def max77693_reg_enable (rdev : regulator_dev) (data : max77693_data) :
    Int × max77693_data :=
  match max77693_get_enable_register rdev with
  | .error ret => (ret, data)
  | .ok (reg, mask, pattern) =>
    match max77693_update_reg data.iodev.regmap reg pattern mask with
    | (ret, rm) => (ret, { data with iodev := { regmap := rm } })

/-- The callback `max77693_reg_disable`. -/
def max77693_reg_disable (rdev : regulator_dev) (data : max77693_data) :
    Int × max77693_data :=
  match max77693_get_disable_register rdev with
  | .error ret => (ret, data)
  | .ok (reg, mask, pattern) =>
    match max77693_update_reg data.iodev.regmap reg pattern mask with
    | (ret, rm) => (ret, { data with iodev := { regmap := rm } })

/-- The register, shift and mask of the voltage (or current) field of a
regulator, `max77693_get_voltage_register`. -/
def max77693_get_voltage_register (rdev : regulator_dev) :
    Except Int (max77693_reg × Nat × Nat) :=
  let rid := max77693_get_rid rdev
  if MAX77693_ESAFEOUT1 ≤ rid ∧ rid ≤ MAX77693_ESAFEOUT2 then
    .ok (MAX77693_CHG_REG_SAFEOUT_CTRL,
         if rid = MAX77693_ESAFEOUT2 then 2 else 0, 0x3)
  else if rid = MAX77693_CHARGER then
    .ok (MAX77693_CHG_REG_CHG_CNFG_09, 0, 0x7f)
  else .error (-EINVAL)

/-- The value a selector stands for in the map of the regulator,
`max77693_list_voltage`.  The comparison of `rid` with `ARRAY_SIZE` is
unsigned in the source, which the test `rid < 0` repeats.  The sum is computed
in `unsigned` and stored in an `int`. -/
def max77693_list_voltage (rdev : regulator_dev) (selector : Nat) : Int :=
  let rid := max77693_get_rid rdev
  if (reg_voltage_map.length : Int) ≤ rid ∨ rid < 0 then -EINVAL
  else
    match reg_voltage_map.getD rid.toNat none with
    | none => -EINVAL
    | some desc =>
      let selector :=
        if rid = MAX77693_CHARGER then (if selector ≤ 3 then 0 else selector - 3)
        else selector
      let val := int32 (desc.min + desc.step * (selector : Int))
      if val > desc.max then -EINVAL else int32 (val * 1000)

/-- Call through a `list_voltage` slot. -/
def list_voltage_fn.call : list_voltage_fn → regulator_dev → Nat → Int
  | .max77693_list_voltage_safeout => Max77693.max77693_list_voltage_safeout

/-- The callback `max77693_get_voltage`.  Of the test
`rdev->desc && rdev->desc->ops && rdev->desc->ops->list_voltage` only the last
part can fail here: the descriptor was already read for the id and every
descriptor of the driver has an ops table. -/
def max77693_get_voltage (rdev : regulator_dev) (data : max77693_data) :
    Int × max77693_data :=
  match max77693_get_voltage_register rdev with
  | .error ret => (ret, data)
  | .ok (reg, shift, mask) =>
    match max77693_read_reg data.iodev.regmap reg 0 with
    | (ret, val, rm) =>
      let data1 : max77693_data := { data with iodev := { regmap := rm } }
      if ret ≠ 0 then (ret, data1)
      else
        let val := (val >>> shift) &&& mask
        match rdev.desc.ops.list_voltage with
        | some f => (f.call rdev val, data1)
        | none => (max77693_list_voltage rdev val, data1)

/-- The search loop of `max77693_get_voltage_proper_val`: one unit of fuel
per evaluation of the loop condition. -/
def max77693_get_voltage_proper_val_loop (desc : voltage_map_desc) (min_vol : Int) :
    Nat → Int → Option Int
  | 0, _ => none
  | fuel + 1, val =>
    if int32 (desc.min + int32 (desc.step * val)) < min_vol ∧
        int32 (desc.min + int32 (desc.step * val)) < desc.max then
      max77693_get_voltage_proper_val_loop desc min_vol fuel (int32 (val + 1))
    else some val

/-- The function `max77693_get_voltage_proper_val`: the index of the smallest
table value not below `min_vol`, or `-EINVAL`.  The shift `1 << desc->n_bits`
is in `int`, so its value is reduced to 32 bits (`1 << 31` is `INT_MIN`). -/
def max77693_get_voltage_proper_val (fuel : Nat) (desc : Option voltage_map_desc)
    (min_vol max_vol : Int) : Option Int :=
  match desc with
  | none => some (-EINVAL)
  | some desc =>
    if max_vol < desc.min ∨ min_vol > desc.max then some (-EINVAL)
    else
      match max77693_get_voltage_proper_val_loop desc min_vol fuel 0 with
      | none => none
      | some val =>
        if int32 (desc.min + int32 (desc.step * val)) > max_vol then some (-EINVAL)
        else if val ≥ int32 ((1 <<< desc.n_bits : Nat) : Int) then some (-EINVAL)
        else some val

/-- The callback `max77693_set_voltage` (the charger's `set_current_limit`).
The result of the register read is dropped by the source, and the byte read
(`org`) is not used afterwards. -/
def max77693_set_voltage (fuel : Nat) (rdev : regulator_dev) (data : max77693_data)
    (min_uV max_uV : Int) : Option (Int × max77693_data) :=
  let rid := max77693_get_rid rdev
  let min_vol := Int.tdiv min_uV 1000
  let max_vol := Int.tdiv max_uV 1000
  if rid ≠ MAX77693_CHARGER then some (-EINVAL, data)
  else
    let desc := reg_voltage_map.getD rid.toNat none
    match max77693_get_voltage_proper_val fuel desc min_vol max_vol with
    | none => none
    | some val =>
      if val < 0 then some (val, data)
      else
        let val := if rid = MAX77693_CHARGER then int32 (val + 3) else val
        match max77693_get_voltage_register rdev with
        | .error ret => some (ret, data)
        | .ok (reg, shift, mask) =>
          match max77693_read_reg data.iodev.regmap reg 0 with
          | (_, _, rm) =>
            match max77693_update_reg rm reg (val.toNat <<< shift) (mask <<< shift) with
            | (ret, rm1) => some (ret, { data with iodev := { regmap := rm1 } })

/-- The table `max77693_safeoutvolt`. -/
def max77693_safeoutvolt : List Int := [3300000, 4850000, 4900000, 4950000]

/-- The search loop of `max77693_set_voltage_safeout`: starting at index `i`,
the first index whose table value lies in the range, or the table size. -/
def max77693_set_voltage_safeout_loop (min_uV max_uV : Int) : List Int → Nat → Nat
  | [], i => i
  | v :: rest, i =>
    if min_uV ≤ v ∧ max_uV ≥ v then i
    else max77693_set_voltage_safeout_loop min_uV max_uV rest (i + 1)

/-- The callback `max77693_set_voltage_safeout`.  The third component is
`*selector`: `none` when the function did not write it. -/
def max77693_set_voltage_safeout (rdev : regulator_dev) (data : max77693_data)
    (min_uV max_uV : Int) : Int × max77693_data × Option Nat :=
  let rid := max77693_get_rid rdev
  if rid ≠ MAX77693_ESAFEOUT1 ∧ rid ≠ MAX77693_ESAFEOUT2 then (-EINVAL, data, none)
  else
    let i := max77693_set_voltage_safeout_loop min_uV max_uV max77693_safeoutvolt 0
    if i ≥ max77693_safeoutvolt.length then (-EINVAL, data, none)
    else
      let val : Nat := if i = 0 then 0x3 else i - 1
      match max77693_get_voltage_register rdev with
      | .error ret => (ret, data, none)
      | .ok (reg, shift, mask) =>
        match max77693_update_reg data.iodev.regmap reg (val <<< shift) (mask <<< shift) with
        | (ret, rm) =>
          let data1 : max77693_data := { data with iodev := { regmap := rm } }
          if ret ≠ 0 then (ret, data1, none) else (0, data1, some val)

/-- The callback `max77693_reg_enable_suspend`. -/
def max77693_reg_enable_suspend (_rdev : regulator_dev) (data : max77693_data) :
    Int × max77693_data :=
  (0, data)

/-- The callback `max77693_reg_disable_suspend`.  The register is read into
`saved_states[rid]` and the result of that read is dropped by the source. -/
def max77693_reg_disable_suspend (rdev : regulator_dev) (data : max77693_data) :
    Int × max77693_data :=
  let rid := max77693_get_rid rdev
  match max77693_get_disable_register rdev with
  | .error ret => (ret, data)
  | .ok (reg, mask, pattern) =>
    match max77693_read_reg data.iodev.regmap reg (data.saved_states.getD rid.toNat 0) with
    | (_, saved, rm) =>
      match max77693_update_reg rm reg pattern mask with
      | (ret, rm1) =>
        (ret, { data with iodev := { regmap := rm1 },
                          saved_states := data.saved_states.set rid.toNat saved })

/-! ## Probe and remove -/

/-- Modelled from the spec: `struct max77693_regulator_data` is declared in
`linux/mfd/max77693.h`, which is not among the sources; the probe reads its `id`
(and hands `initdata` on unread). -/
structure max77693_regulator_data where
  id : Int
  deriving DecidableEq, Repr

/-- Modelled from the spec: `struct max77693_platform_data` is declared in
`linux/mfd/max77693.h`, which is not among the sources; the probe reads
`regulator_data` and `num_regulators`, here the list and its length. -/
structure max77693_platform_data where
  regulator_data : List max77693_regulator_data
  deriving DecidableEq, Repr

/-- The number of regulators of the platform data, `pdata->num_regulators`. -/
def max77693_platform_data.num_regulators (pdata : max77693_platform_data) : Nat :=
  pdata.regulator_data.length

/-- What the probe and the remove do to the kernel, in order.
`table_index id` is the evaluation of `regulators[id]`; the descriptor handed
to `regulator_register` is `none` when that index is outside the table. -/
inductive probe_event
  | kzalloc_data
  | kzalloc_rdev (n : Nat)
  | platform_set_drvdata
  | table_index (id : Int)
  | regulator_register (i : Nat) (desc : Option regulator_desc)
  | regulator_unregister (h : Nat)
  | kfree_rdev
  | kfree_data
  deriving DecidableEq, Repr

/-- The answers of the kernel to the probe: whether each of the two `kzalloc`
calls succeeds, and for the call number `i` of `regulator_register` either
`none` (a device is returned) or `some e` (the error pointer `ERR_PTR(e)`, with
`e` an errno value negated, which `IS_ERR` recognises). -/
structure kernel_env where
  kzalloc_data_ok : Bool
  kzalloc_rdev_ok : Bool
  regulator_register_result : Nat → Option Int

/-- The entry `regulators[id]` of a descriptor table, `none` outside of it. -/
def table_lookup (table : List regulator_desc) (id : Int) : Option regulator_desc :=
  if 0 ≤ id then table[id.toNat]? else none

/-- The assignment `regulators[id].n_voltages = n`. -/
def table_set_n_voltages (table : List regulator_desc) (id : Int) (n : Nat) :
    List regulator_desc :=
  match table_lookup table id with
  | some d => table.set id.toNat { d with n_voltages := n }
  | none => table

/-- The state the registration loop of the probe works on: the array
`max77693->rdev`, the descriptor table and the events so far. -/
structure probe_state where
  rdev : List (Option Nat)
  table : List regulator_desc
  log : List probe_event

/-- The registration loop of `max77693_pmic_probe`, from index `i` on, over
the entries of the platform data that are left.  The first component is
`some e` when a registration failed with `e` (the jump to `err_rdev_init`). -/
def max77693_pmic_probe_loop (k : kernel_env) :
    List max77693_regulator_data → Nat → probe_state → Option Int × probe_state
  | [], _, st => (none, st)
  | rd :: rest, i, st =>
    let id := rd.id
    let table :=
      if id = MAX77693_ESAFEOUT1 ∨ id = MAX77693_ESAFEOUT2 then
        table_set_n_voltages st.table id max77693_safeoutvolt.length
      else st.table
    let log := st.log ++
      [probe_event.table_index id, probe_event.regulator_register i (table_lookup table id)]
    match k.regulator_register_result i with
    | some e => (some e, { rdev := st.rdev.set i none, table := table, log := log })
    | none =>
      max77693_pmic_probe_loop k rest (i + 1)
        { rdev := st.rdev.set i (some i), table := table, log := log }

/-- The loop shared by the error path of the probe and by the remove:
`for (i = 0; i < n; i++) if (rdev[i]) regulator_unregister(rdev[i]);`. -/
def unregister_loop (rdev : List (Option Nat)) (n : Nat) : List probe_event :=
  (List.range n).filterMap
    (fun i => (rdev.getD i none).map probe_event.regulator_unregister)

/-- What `max77693_pmic_probe` leaves behind: its return value, the driver
data set with `platform_set_drvdata` (if any), the descriptor table and the
events.  After a failed registration the driver data has been freed and
`drvdata` shows what the dangling pointer pointed to. -/
structure probe_result where
  ret : Int
  drvdata : Option max77693_data
  table : List regulator_desc
  log : List probe_event

/-- The function `max77693_pmic_probe`.  `pdata` is `none` for a `NULL`
platform data pointer; `table` is the content of `regulators[]` on entry. -/
def max77693_pmic_probe (k : kernel_env) (iodev : max77693_dev)
    (pdata : Option max77693_platform_data) (table : List regulator_desc) :
    probe_result :=
  match pdata with
  | none => { ret := -ENODEV, drvdata := none, table := table, log := [] }
  | some pdata =>
    if ¬ k.kzalloc_data_ok then
      { ret := -ENOMEM, drvdata := none, table := table,
        log := [probe_event.kzalloc_data] }
    else if ¬ k.kzalloc_rdev_ok then
      { ret := -ENOMEM, drvdata := none, table := table,
        log := [probe_event.kzalloc_data, probe_event.kzalloc_rdev pdata.num_regulators,
                probe_event.kfree_data] }
    else
      let st0 : probe_state :=
        { rdev := List.replicate pdata.num_regulators none, table := table,
          log := [probe_event.kzalloc_data, probe_event.kzalloc_rdev pdata.num_regulators,
                  probe_event.platform_set_drvdata] }
      match max77693_pmic_probe_loop k pdata.regulator_data 0 st0 with
      | (none, st) =>
        { ret := 0,
          drvdata := some
            { iodev := iodev, num_regulators := pdata.num_regulators, rdev := st.rdev,
              saved_states := List.replicate MAX77693_REG_MAX.toNat 0 },
          table := st.table, log := st.log }
      | (some ret, st) =>
        { ret := ret,
          drvdata := some
            { iodev := iodev, num_regulators := pdata.num_regulators, rdev := st.rdev,
              saved_states := List.replicate MAX77693_REG_MAX.toNat 0 },
          table := st.table,
          log := st.log ++ unregister_loop st.rdev pdata.num_regulators ++
            [probe_event.kfree_rdev, probe_event.kfree_data] }

/-- The function `max77693_pmic_remove`, on the driver data the probe set. -/
def max77693_pmic_remove (max77693 : max77693_data) : Int × List probe_event :=
  (0, unregister_loop max77693.rdev max77693.num_regulators ++
        [probe_event.kfree_rdev, probe_event.kfree_data])

/-- The call numbers of the `regulator_register` calls in a log, in order. -/
def register_calls (log : List probe_event) : List Nat :=
  log.filterMap (fun ev =>
    match ev with
    | probe_event.regulator_register i _ => some i
    | _ => none)

/-- The devices handed to `regulator_unregister` in a log, in order. -/
def unregister_calls (log : List probe_event) : List Nat :=
  log.filterMap (fun ev =>
    match ev with
    | probe_event.regulator_unregister h => some h
    | _ => none)

/-- The `kfree` calls in a log, in order. -/
def kfree_calls (log : List probe_event) : List probe_event :=
  log.filter (fun ev => ev = probe_event.kfree_rdev ∨ ev = probe_event.kfree_data)

/-- The ids with which a log indexes the descriptor table, in order. -/
def table_indices (log : List probe_event) : List Int :=
  log.filterMap (fun ev =>
    match ev with
    | probe_event.table_index id => some id
    | _ => none)

/-! ## Sample inputs -/

/-- A kernel in which both allocations and every registration succeed. -/
def kernel_ok : kernel_env :=
  { kzalloc_data_ok := true, kzalloc_rdev_ok := true,
    regulator_register_result := fun _ => none }

/-- A kernel in which the allocations succeed and the registration call number
`k` fails with `e`, the others succeeding. -/
def kernel_failing_at (k : Nat) (e : Int) : kernel_env :=
  { kzalloc_data_ok := true, kzalloc_rdev_ok := true,
    regulator_register_result := fun i => if i = k then some e else none }

/-- Platform data listing the three regulators in table order. -/
def pdata_all : max77693_platform_data :=
  { regulator_data := [{ id := MAX77693_ESAFEOUT1 }, { id := MAX77693_ESAFEOUT2 },
                       { id := MAX77693_CHARGER }] }

/-- Platform data whose only entry has the id `MAX77693_REG_MAX`. -/
def pdata_stray : max77693_platform_data :=
  { regulator_data := [{ id := MAX77693_REG_MAX }] }

/-- A regulator device carrying the descriptor `d`. -/
def rdev_of (d : regulator_desc) : regulator_dev := { desc := d }

/-- The ESAFEOUT1 device of the descriptor table. -/
def esafeout1_rdev : regulator_dev :=
  rdev_of { name := "ESAFEOUT1", id := MAX77693_ESAFEOUT1, ops := max77693_safeout_ops,
            type := regulator_type.REGULATOR_VOLTAGE }

/-- The CHARGER device of the descriptor table. -/
def charger_rdev : regulator_dev :=
  rdev_of { name := "CHARGER", id := MAX77693_CHARGER, ops := max77693_charger_ops,
            type := regulator_type.REGULATOR_CURRENT }

/-- A device whose id is `MAX77693_REG_MAX`, one past the last regulator. -/
def stray_rdev : regulator_dev :=
  rdev_of { name := "STRAY", id := MAX77693_REG_MAX, ops := max77693_safeout_ops,
            type := regulator_type.REGULATOR_VOLTAGE }

/-- A register map with all registers cleared whose reads answer `r` and
whose updates answer `u`. -/
def regmap_with (r u : Int) : regmap :=
  { content := fun _ => 0, read_result := fun _ => r, update_result := fun _ => u, log := [] }

/-- Driver data over `regmap_with r u`, as the probe sets it up for three
regulators. -/
def data_with (r u : Int) : max77693_data :=
  { iodev := { regmap := regmap_with r u }, num_regulators := 3,
    rdev := [some 0, some 1, some 2], saved_states := [0, 0, 0] }

/-- The number of register reads in a log. -/
def io_reads (log : List io_event) : Nat :=
  log.countP (fun ev =>
    match ev with
    | io_event.read _ => true
    | _ => false)

/-- The number of register updates in a log. -/
def io_updates (log : List io_event) : Nat :=
  log.countP (fun ev =>
    match ev with
    | io_event.update _ _ _ => true
    | _ => false)

/-- The ESAFEOUT2 device of the descriptor table. -/
def esafeout2_rdev : regulator_dev :=
  rdev_of { name := "ESAFEOUT2", id := MAX77693_ESAFEOUT2, ops := max77693_safeout_ops,
            type := regulator_type.REGULATOR_VOLTAGE }

/-- Driver data as `data_with 0 0`, with the byte `c` in every register. -/
def data_content (c : Nat) : max77693_data :=
  { iodev := { regmap := { content := fun _ => c, read_result := fun _ => 0,
                           update_result := fun _ => 0, log := [] } },
    num_regulators := 3, rdev := [some 0, some 1, some 2], saved_states := [0, 0, 0] }

/-- A descriptor at the edge of `int`: the table values 0, 2^30 fit, the next
product `step * 2` does not. -/
def wide_map_desc : voltage_map_desc :=
  { min := 0, max := 2147483647, step := 1073741824, n_bits := 7 }

/-- The descriptors handed to `regulator_register` in a log, in order. -/
def registered_descs (log : List probe_event) : List (Option regulator_desc) :=
  log.filterMap (fun ev =>
    match ev with
    | probe_event.regulator_register _ d => some d
    | _ => none)

/-- A descriptor with the field the probe writes, `n_voltages`, cleared. -/
def regulator_desc.static (d : regulator_desc) : regulator_desc :=
  { d with n_voltages := 0 }

end Max77693

namespace CrystalCove

/-! ## The crystal_cove device (platform_crystal_cove.c) -/

/-- First enumerator of the anonymous enum of interrupt numbers. -/
def PWRSRC_IRQ : Nat := 0

/-- Second enumerator. -/
def THRM_IRQ : Nat := PWRSRC_IRQ + 1

/-- Third enumerator. -/
def BCU_IRQ : Nat := THRM_IRQ + 1

/-- Fourth enumerator. -/
def ADC_IRQ : Nat := BCU_IRQ + 1

/-- Fifth enumerator. -/
def CHGR_IRQ : Nat := ADC_IRQ + 1

/-- Sixth enumerator. -/
def GPIO_IRQ : Nat := CHGR_IRQ + 1

/-- Seventh enumerator. -/
def VHDMIOCP_IRQ : Nat := GPIO_IRQ + 1

/-- Modelled from the spec: the resource flags are macros of `linux/ioport.h`,
which is not among the sources; the file uses `IORESOURCE_IRQ` only. -/
inductive resource_flags
  | IORESOURCE_IRQ
  deriving DecidableEq, Repr

/-- The fields of `struct resource` the file sets (`end_` is the field `end`). -/
structure resource where
  name : String
  start : Nat
  end_ : Nat
  flags : resource_flags
  deriving DecidableEq, Repr

/-- The fields of `struct mfd_cell` the file sets; a `NULL` name is `none` and
a `NULL` resource pointer is the empty list. -/
structure mfd_cell where
  name : Option String
  id : Int
  num_resources : Nat
  resources : List resource
  deriving DecidableEq, Repr

/-- The array `pwrsrc_resources`. -/
def pwrsrc_resources : List resource :=
  [{ name := "PWRSRC", start := PWRSRC_IRQ, end_ := PWRSRC_IRQ,
     flags := resource_flags.IORESOURCE_IRQ }]

/-- The array `adc_resources`. -/
def adc_resources : List resource :=
  [{ name := "ADC", start := ADC_IRQ, end_ := ADC_IRQ,
     flags := resource_flags.IORESOURCE_IRQ }]

/-- The array `crystal_cove_data`; its last entry is the initialiser `{NULL, }`. -/
def crystal_cove_data : List mfd_cell :=
  [{ name := some "crystal_cove_pwrsrc", id := 0,
     num_resources := pwrsrc_resources.length, resources := pwrsrc_resources },
   { name := some "crystal_cove_adc", id := 0,
     num_resources := adc_resources.length, resources := adc_resources },
   { name := none, id := 0, num_resources := 0, resources := [] }]

/-- The fields of `struct i2c_board_info` the file sets. -/
structure i2c_board_info where
  type : String
  addr : Nat
  irq : Nat
  platform_data : List mfd_cell
  deriving DecidableEq, Repr

/-- The device `crystal_cove_device`.  The three summands of its interrupt
number are macros of `asm/intel_vlv2.h`, which is not among the sources, and
are taken as given. -/
def crystal_cove_device (VV_GPIO_IRQBASE VV_NGPIO_SCORE VV_NGPIO_NCORE : Nat) :
    i2c_board_info :=
  { type := "crystal_cove", addr := 0x6e,
    irq := VV_GPIO_IRQBASE + VV_NGPIO_SCORE + VV_NGPIO_NCORE + 0,
    platform_data := crystal_cove_data }

/-- The arguments of one call of `i2c_register_board_info`: the bus number,
the board-info array (here its first entry) and the number of entries. -/
structure board_info_call where
  busnum : Int
  info : i2c_board_info
  len : Nat
  deriving DecidableEq, Repr

/-- The function `crystal_cove_init`.  `i2c_register_board_info` is the kernel
function, given by the value it returns for a call; the result is the return
value of the init function and the calls it made. -/
def crystal_cove_init (VV_GPIO_IRQBASE VV_NGPIO_SCORE VV_NGPIO_NCORE : Nat)
    (i2c_register_board_info : board_info_call → Int) : Int × List board_info_call :=
  let call : board_info_call :=
    { busnum := 7,
      info := crystal_cove_device VV_GPIO_IRQBASE VV_NGPIO_SCORE VV_NGPIO_NCORE,
      len := 1 }
  (i2c_register_board_info call, [call])

end CrystalCove

namespace SpmemDump

/-! ## The SP symbol map and the dump routines (spmem_dump.c) -/

/-- The firmware variables that have a dump routine, in the order in which the
routines are defined in the file. -/
inductive sp_var
  | sp_init_dmem_data
  | xmem_bin_addr
  | sp_vf_downscale_bits
  | sp_per_frame_data
  | sp_group
  | sp_output
  | host_sp_com
  | sp_isp_started
  | sp_sw_state
  | host_sp_queues_initialized
  | sp_sleep_mode
  | isp_uv_internal_width_vecs
  | isp_vf_output_width_vecs
  | isp_vectors_per_line
  | isp_vectors_per_input_line
  | isp_sdis_horiproj_num
  | isp_sdis_vertproj_num
  | isp_sdis_horicoef_vectors
  | isp_sdis_vertcoef_vectors
  | sp_isp_input_stream_format
  | sp_obarea_start_bq
  | sp_obarea_length_bq
  | sp_preview_thread_id
  | sp_capture_thread_id
  deriving DecidableEq, Repr

/-- The variables of `sp_var`, in the order of definition of their routines. -/
def sp_var.all : List sp_var :=
  [sp_var.sp_init_dmem_data,
   sp_var.xmem_bin_addr,
   sp_var.sp_vf_downscale_bits,
   sp_var.sp_per_frame_data,
   sp_var.sp_group,
   sp_var.sp_output,
   sp_var.host_sp_com,
   sp_var.sp_isp_started,
   sp_var.sp_sw_state,
   sp_var.host_sp_queues_initialized,
   sp_var.sp_sleep_mode,
   sp_var.isp_uv_internal_width_vecs,
   sp_var.isp_vf_output_width_vecs,
   sp_var.isp_vectors_per_line,
   sp_var.isp_vectors_per_input_line,
   sp_var.isp_sdis_horiproj_num,
   sp_var.isp_sdis_vertproj_num,
   sp_var.isp_sdis_horicoef_vectors,
   sp_var.isp_sdis_vertcoef_vectors,
   sp_var.sp_isp_input_stream_format,
   sp_var.sp_obarea_start_bq,
   sp_var.sp_obarea_length_bq,
   sp_var.sp_preview_thread_id,
   sp_var.sp_capture_thread_id]

/-- The name of a variable as it stands in the source. -/
def sp_var.name : sp_var → String
  | .sp_init_dmem_data => "sp_init_dmem_data"
  | .xmem_bin_addr => "xmem_bin_addr"
  | .sp_vf_downscale_bits => "sp_vf_downscale_bits"
  | .sp_per_frame_data => "sp_per_frame_data"
  | .sp_group => "sp_group"
  | .sp_output => "sp_output"
  | .host_sp_com => "host_sp_com"
  | .sp_isp_started => "sp_isp_started"
  | .sp_sw_state => "sp_sw_state"
  | .host_sp_queues_initialized => "host_sp_queues_initialized"
  | .sp_sleep_mode => "sp_sleep_mode"
  | .isp_uv_internal_width_vecs => "isp_uv_internal_width_vecs"
  | .isp_vf_output_width_vecs => "isp_vf_output_width_vecs"
  | .isp_vectors_per_line => "isp_vectors_per_line"
  | .isp_vectors_per_input_line => "isp_vectors_per_input_line"
  | .isp_sdis_horiproj_num => "isp_sdis_horiproj_num"
  | .isp_sdis_vertproj_num => "isp_sdis_vertproj_num"
  | .isp_sdis_horicoef_vectors => "isp_sdis_horicoef_vectors"
  | .isp_sdis_vertcoef_vectors => "isp_sdis_vertcoef_vectors"
  | .sp_isp_input_stream_format => "sp_isp_input_stream_format"
  | .sp_obarea_start_bq => "sp_obarea_start_bq"
  | .sp_obarea_length_bq => "sp_obarea_length_bq"
  | .sp_preview_thread_id => "sp_preview_thread_id"
  | .sp_capture_thread_id => "sp_capture_thread_id"

/-- The macros `HIVE_ADDR_<var>` of the symbol map. -/
def HIVE_ADDR : sp_var → Nat
  | .sp_init_dmem_data => 0x2A88
  | .xmem_bin_addr => 0x2AA4
  | .sp_vf_downscale_bits => 0x2DA8
  | .sp_per_frame_data => 0x2AA0
  | .sp_group => 0x2AC8
  | .sp_output => 0x2AB4
  | .host_sp_com => 0x2A34
  | .sp_isp_started => 0x2AA8
  | .sp_sw_state => 0x2A30
  | .host_sp_queues_initialized => 0x2DB4
  | .sp_sleep_mode => 0x2DC0
  | .isp_uv_internal_width_vecs => 0x2D9C
  | .isp_vf_output_width_vecs => 0x2DBC
  | .isp_vectors_per_line => 0x2AC4
  | .isp_vectors_per_input_line => 0x2A2C
  | .isp_sdis_horiproj_num => 0x2DA0
  | .isp_sdis_vertproj_num => 0x2DA4
  | .isp_sdis_horicoef_vectors => 0x2DB8
  | .isp_sdis_vertcoef_vectors => 0x2DAC
  | .sp_isp_input_stream_format => 0x2DB0
  | .sp_obarea_start_bq => 0x2AAC
  | .sp_obarea_length_bq => 0x2AB0
  | .sp_preview_thread_id => 0x504
  | .sp_capture_thread_id => 0x508

/-- The macros `HIVE_SIZE_<var>` of the symbol map. -/
def HIVE_SIZE : sp_var → Nat
  | .sp_init_dmem_data => 24
  | .xmem_bin_addr => 4
  | .sp_vf_downscale_bits => 4
  | .sp_per_frame_data => 4
  | .sp_group => 724
  | .sp_output => 16
  | .host_sp_com => 84
  | .sp_isp_started => 4
  | .sp_sw_state => 4
  | .host_sp_queues_initialized => 4
  | .sp_sleep_mode => 4
  | .isp_uv_internal_width_vecs => 4
  | .isp_vf_output_width_vecs => 4
  | .isp_vectors_per_line => 4
  | .isp_vectors_per_input_line => 4
  | .isp_sdis_horiproj_num => 4
  | .isp_sdis_vertproj_num => 4
  | .isp_sdis_horicoef_vectors => 4
  | .isp_sdis_vertcoef_vectors => 4
  | .sp_isp_input_stream_format => 4
  | .sp_obarea_start_bq => 4
  | .sp_obarea_length_bq => 4
  | .sp_preview_thread_id => 4
  | .sp_capture_thread_id => 4

/-- The host-side types the routines declare their variable with. -/
inductive host_type
  | struct_ia_css_sp_init_dmem_cfg
  | hrt_vaddress
  | unsigned_int
  | struct_sh_css_sp_per_frame_data
  | struct_sh_css_sp_group
  | struct_sh_css_sp_output
  | struct_host_sp_communication
  | volatile_int
  | enum_sh_stream_format
  deriving DecidableEq, Repr

/-- Whether a host type is one of the struct types; their declarations are in
headers that are not among the sources. -/
def host_type.is_struct : host_type → Bool
  | .struct_ia_css_sp_init_dmem_cfg => true
  | .struct_sh_css_sp_per_frame_data => true
  | .struct_sh_css_sp_group => true
  | .struct_sh_css_sp_output => true
  | .struct_host_sp_communication => true
  | _ => false

/-- One step of a dump: the raw copy `sp_dmem_load(SP0_ID, addr, &var, size)`
or one `sh_css_print` line (its label and the value printed with `0x%x`). -/
inductive dump_event
  | sp_dmem_load (addr size : Nat)
  | sh_css_print (label : String) (value : Nat)
  deriving DecidableEq, Repr

/-- What the dump code runs against.  `dmem` is the byte at each address of the
data memory of the SP.  `struct_size` is `sizeof` of each struct type and
`struct_prints` the print lines a struct routine issues after its load, from
the bytes loaded: the struct declarations are in headers that are not among
the sources, so both are taken as given. -/
structure sp_env where
  dmem : Nat → Nat
  struct_size : host_type → Nat
  struct_prints : sp_var → List Nat → List dump_event

/-- Modelled from the spec: `hrt_vaddress` is a typedef of a header that is not
among the sources; the spec has it dumped as a 32-bit value.  The other
scalars are `int`, `unsigned int` and an enum, 4 bytes each on the host. -/
def host_sizeof (env : sp_env) (t : host_type) : Nat :=
  if t.is_struct then env.struct_size t else 4

/-- Modelled from the spec: `sp_address_of(var)` is a macro of a header that is
not among the sources; it gives the address the symbol map records for the
variable. -/
def sp_address_of (v : sp_var) : Nat := HIVE_ADDR v

/-- Modelled from the spec: `sp_dmem_load` is defined outside the sources; it
copies `size` bytes from the data memory of the SP, starting at `addr`. -/
def sp_dmem_load (env : sp_env) (addr size : Nat) : List Nat :=
  (List.range size).map (fun i => env.dmem (addr + i) % 256)

/-- The value of a scalar read from its bytes, least significant byte first. -/
def word_of_bytes : List Nat → Nat
  | [] => 0
  | b :: rest => b + 256 * word_of_bytes rest

/-- The state of a dump run: the events so far, and the variable whose size
assertion failed, after which nothing more is done. -/
structure dump_state where
  log : List dump_event
  failed : Option sp_var
  deriving DecidableEq, Repr

/-- The events of the routine of `v` declared with type `t`, when its
assertion holds: the load of `sizeof(var)` bytes, then the print lines. -/
def dump_events (env : sp_env) (v : sp_var) (t : host_type) : List dump_event :=
  let bytes := sp_dmem_load env (sp_address_of v) (host_sizeof env t)
  dump_event.sp_dmem_load (sp_address_of v) (host_sizeof env t) ::
    (if t.is_struct then env.struct_prints v bytes
     else [dump_event.sh_css_print v.name (word_of_bytes bytes)])

/-- The body shared by all the dump routines, for the variable `v` declared
with type `t`: `assert(sizeof(var) == HIVE_SIZE_var)`, the load, the prints. -/
def dump_var (env : sp_env) (v : sp_var) (t : host_type) (st : dump_state) : dump_state :=
  match st.failed with
  | some _ => st
  | none =>
    if host_sizeof env t = HIVE_SIZE v then
      { st with log := st.log ++ dump_events env v t }
    else { st with failed := some v }

/-- The routine `sh_css_dump_sp_init_dmem_data`. -/
def sh_css_dump_sp_init_dmem_data (env : sp_env) (st : dump_state) : dump_state :=
  dump_var env sp_var.sp_init_dmem_data host_type.struct_ia_css_sp_init_dmem_cfg st

/-- The routine `sh_css_dump_xmem_bin_addr`. -/
def sh_css_dump_xmem_bin_addr (env : sp_env) (st : dump_state) : dump_state :=
  dump_var env sp_var.xmem_bin_addr host_type.hrt_vaddress st

/-- The routine `sh_css_dump_sp_vf_downscale_bits`. -/
def sh_css_dump_sp_vf_downscale_bits (env : sp_env) (st : dump_state) : dump_state :=
  dump_var env sp_var.sp_vf_downscale_bits host_type.unsigned_int st

/-- The routine `sh_css_dump_sp_per_frame_data`. -/
def sh_css_dump_sp_per_frame_data (env : sp_env) (st : dump_state) : dump_state :=
  dump_var env sp_var.sp_per_frame_data host_type.struct_sh_css_sp_per_frame_data st

/-- The routine `sh_css_dump_sp_group`. -/
def sh_css_dump_sp_group (env : sp_env) (st : dump_state) : dump_state :=
  dump_var env sp_var.sp_group host_type.struct_sh_css_sp_group st

/-- The routine `sh_css_dump_sp_output`. -/
def sh_css_dump_sp_output (env : sp_env) (st : dump_state) : dump_state :=
  dump_var env sp_var.sp_output host_type.struct_sh_css_sp_output st

/-- The routine `sh_css_dump_host_sp_com`. -/
def sh_css_dump_host_sp_com (env : sp_env) (st : dump_state) : dump_state :=
  dump_var env sp_var.host_sp_com host_type.struct_host_sp_communication st

/-- The routine `sh_css_dump_sp_isp_started`. -/
def sh_css_dump_sp_isp_started (env : sp_env) (st : dump_state) : dump_state :=
  dump_var env sp_var.sp_isp_started host_type.volatile_int st

/-- The routine `sh_css_dump_sp_sw_state`. -/
def sh_css_dump_sp_sw_state (env : sp_env) (st : dump_state) : dump_state :=
  dump_var env sp_var.sp_sw_state host_type.volatile_int st

/-- The routine `sh_css_dump_host_sp_queues_initialized`. -/
def sh_css_dump_host_sp_queues_initialized (env : sp_env) (st : dump_state) : dump_state :=
  dump_var env sp_var.host_sp_queues_initialized host_type.volatile_int st

/-- The routine `sh_css_dump_sp_sleep_mode`. -/
def sh_css_dump_sp_sleep_mode (env : sp_env) (st : dump_state) : dump_state :=
  dump_var env sp_var.sp_sleep_mode host_type.volatile_int st

/-- The routine `sh_css_dump_isp_uv_internal_width_vecs`. -/
def sh_css_dump_isp_uv_internal_width_vecs (env : sp_env) (st : dump_state) : dump_state :=
  dump_var env sp_var.isp_uv_internal_width_vecs host_type.unsigned_int st

/-- The routine `sh_css_dump_isp_vf_output_width_vecs`. -/
def sh_css_dump_isp_vf_output_width_vecs (env : sp_env) (st : dump_state) : dump_state :=
  dump_var env sp_var.isp_vf_output_width_vecs host_type.unsigned_int st

/-- The routine `sh_css_dump_isp_vectors_per_line`. -/
def sh_css_dump_isp_vectors_per_line (env : sp_env) (st : dump_state) : dump_state :=
  dump_var env sp_var.isp_vectors_per_line host_type.unsigned_int st

/-- The routine `sh_css_dump_isp_vectors_per_input_line`. -/
def sh_css_dump_isp_vectors_per_input_line (env : sp_env) (st : dump_state) : dump_state :=
  dump_var env sp_var.isp_vectors_per_input_line host_type.unsigned_int st

/-- The routine `sh_css_dump_isp_sdis_horiproj_num`. -/
def sh_css_dump_isp_sdis_horiproj_num (env : sp_env) (st : dump_state) : dump_state :=
  dump_var env sp_var.isp_sdis_horiproj_num host_type.unsigned_int st

/-- The routine `sh_css_dump_isp_sdis_vertproj_num`. -/
def sh_css_dump_isp_sdis_vertproj_num (env : sp_env) (st : dump_state) : dump_state :=
  dump_var env sp_var.isp_sdis_vertproj_num host_type.unsigned_int st

/-- The routine `sh_css_dump_isp_sdis_horicoef_vectors`. -/
def sh_css_dump_isp_sdis_horicoef_vectors (env : sp_env) (st : dump_state) : dump_state :=
  dump_var env sp_var.isp_sdis_horicoef_vectors host_type.unsigned_int st

/-- The routine `sh_css_dump_isp_sdis_vertcoef_vectors`. -/
def sh_css_dump_isp_sdis_vertcoef_vectors (env : sp_env) (st : dump_state) : dump_state :=
  dump_var env sp_var.isp_sdis_vertcoef_vectors host_type.unsigned_int st

/-- The routine `sh_css_dump_sp_isp_input_stream_format`. -/
def sh_css_dump_sp_isp_input_stream_format (env : sp_env) (st : dump_state) : dump_state :=
  dump_var env sp_var.sp_isp_input_stream_format host_type.enum_sh_stream_format st

/-- The routine `sh_css_dump_sp_obarea_start_bq`. -/
def sh_css_dump_sp_obarea_start_bq (env : sp_env) (st : dump_state) : dump_state :=
  dump_var env sp_var.sp_obarea_start_bq host_type.unsigned_int st

/-- The routine `sh_css_dump_sp_obarea_length_bq`. -/
def sh_css_dump_sp_obarea_length_bq (env : sp_env) (st : dump_state) : dump_state :=
  dump_var env sp_var.sp_obarea_length_bq host_type.unsigned_int st

/-- The routine `sh_css_dump_sp_preview_thread_id`. -/
def sh_css_dump_sp_preview_thread_id (env : sp_env) (st : dump_state) : dump_state :=
  dump_var env sp_var.sp_preview_thread_id host_type.unsigned_int st

/-- The routine `sh_css_dump_sp_capture_thread_id`. -/
def sh_css_dump_sp_capture_thread_id (env : sp_env) (st : dump_state) : dump_state :=
  dump_var env sp_var.sp_capture_thread_id host_type.unsigned_int st

/-- The routine of each variable. -/
def sp_var.routine : sp_var → sp_env → dump_state → dump_state
  | .sp_init_dmem_data => sh_css_dump_sp_init_dmem_data
  | .xmem_bin_addr => sh_css_dump_xmem_bin_addr
  | .sp_vf_downscale_bits => sh_css_dump_sp_vf_downscale_bits
  | .sp_per_frame_data => sh_css_dump_sp_per_frame_data
  | .sp_group => sh_css_dump_sp_group
  | .sp_output => sh_css_dump_sp_output
  | .host_sp_com => sh_css_dump_host_sp_com
  | .sp_isp_started => sh_css_dump_sp_isp_started
  | .sp_sw_state => sh_css_dump_sp_sw_state
  | .host_sp_queues_initialized => sh_css_dump_host_sp_queues_initialized
  | .sp_sleep_mode => sh_css_dump_sp_sleep_mode
  | .isp_uv_internal_width_vecs => sh_css_dump_isp_uv_internal_width_vecs
  | .isp_vf_output_width_vecs => sh_css_dump_isp_vf_output_width_vecs
  | .isp_vectors_per_line => sh_css_dump_isp_vectors_per_line
  | .isp_vectors_per_input_line => sh_css_dump_isp_vectors_per_input_line
  | .isp_sdis_horiproj_num => sh_css_dump_isp_sdis_horiproj_num
  | .isp_sdis_vertproj_num => sh_css_dump_isp_sdis_vertproj_num
  | .isp_sdis_horicoef_vectors => sh_css_dump_isp_sdis_horicoef_vectors
  | .isp_sdis_vertcoef_vectors => sh_css_dump_isp_sdis_vertcoef_vectors
  | .sp_isp_input_stream_format => sh_css_dump_sp_isp_input_stream_format
  | .sp_obarea_start_bq => sh_css_dump_sp_obarea_start_bq
  | .sp_obarea_length_bq => sh_css_dump_sp_obarea_length_bq
  | .sp_preview_thread_id => sh_css_dump_sp_preview_thread_id
  | .sp_capture_thread_id => sh_css_dump_sp_capture_thread_id

/-- The function `sh_css_dump_sp_dmem`: the calls of its body, in order. -/
def sh_css_dump_sp_dmem (env : sp_env) (st : dump_state) : dump_state :=
  let st := sh_css_dump_sp_init_dmem_data env st
  let st := sh_css_dump_xmem_bin_addr env st
  let st := sh_css_dump_sp_vf_downscale_bits env st
  let st := sh_css_dump_sp_per_frame_data env st
  let st := sh_css_dump_sp_group env st
  let st := sh_css_dump_sp_output env st
  let st := sh_css_dump_host_sp_com env st
  let st := sh_css_dump_sp_isp_started env st
  let st := sh_css_dump_sp_sw_state env st
  let st := sh_css_dump_host_sp_queues_initialized env st
  let st := sh_css_dump_sp_sleep_mode env st
  let st := sh_css_dump_isp_uv_internal_width_vecs env st
  let st := sh_css_dump_isp_vf_output_width_vecs env st
  let st := sh_css_dump_isp_vectors_per_line env st
  let st := sh_css_dump_isp_vectors_per_input_line env st
  let st := sh_css_dump_isp_sdis_horiproj_num env st
  let st := sh_css_dump_isp_sdis_vertproj_num env st
  let st := sh_css_dump_isp_sdis_horicoef_vectors env st
  let st := sh_css_dump_isp_sdis_vertcoef_vectors env st
  let st := sh_css_dump_sp_isp_input_stream_format env st
  let st := sh_css_dump_sp_obarea_start_bq env st
  let st := sh_css_dump_sp_obarea_length_bq env st
  let st := sh_css_dump_sp_preview_thread_id env st
  sh_css_dump_sp_capture_thread_id env st

/-- The type with which the routine of each variable declares its host-side
copy. -/
def sp_var.declared_type : sp_var → host_type
  | .sp_init_dmem_data => host_type.struct_ia_css_sp_init_dmem_cfg
  | .xmem_bin_addr => host_type.hrt_vaddress
  | .sp_vf_downscale_bits => host_type.unsigned_int
  | .sp_per_frame_data => host_type.struct_sh_css_sp_per_frame_data
  | .sp_group => host_type.struct_sh_css_sp_group
  | .sp_output => host_type.struct_sh_css_sp_output
  | .host_sp_com => host_type.struct_host_sp_communication
  | .sp_isp_started => host_type.volatile_int
  | .sp_sw_state => host_type.volatile_int
  | .host_sp_queues_initialized => host_type.volatile_int
  | .sp_sleep_mode => host_type.volatile_int
  | .isp_uv_internal_width_vecs => host_type.unsigned_int
  | .isp_vf_output_width_vecs => host_type.unsigned_int
  | .isp_vectors_per_line => host_type.unsigned_int
  | .isp_vectors_per_input_line => host_type.unsigned_int
  | .isp_sdis_horiproj_num => host_type.unsigned_int
  | .isp_sdis_vertproj_num => host_type.unsigned_int
  | .isp_sdis_horicoef_vectors => host_type.unsigned_int
  | .isp_sdis_vertcoef_vectors => host_type.unsigned_int
  | .sp_isp_input_stream_format => host_type.enum_sh_stream_format
  | .sp_obarea_start_bq => host_type.unsigned_int
  | .sp_obarea_length_bq => host_type.unsigned_int
  | .sp_preview_thread_id => host_type.unsigned_int
  | .sp_capture_thread_id => host_type.unsigned_int

/-- The variables dumped as one scalar: those not declared with a struct type. -/
def sp_var.scalars : List sp_var :=
  sp_var.all.filter (fun v => ! v.declared_type.is_struct)

/-- An SP whose data memory holds the byte `b` everywhere, on a host whose
struct types have the sizes the symbol map records, the field prints of the
struct routines left out. -/
def sample_env (b : Nat) : sp_env :=
  { dmem := fun _ => b
    struct_size := fun t =>
      match t with
      | .struct_ia_css_sp_init_dmem_cfg => HIVE_SIZE sp_var.sp_init_dmem_data
      | .struct_sh_css_sp_per_frame_data => HIVE_SIZE sp_var.sp_per_frame_data
      | .struct_sh_css_sp_group => HIVE_SIZE sp_var.sp_group
      | .struct_sh_css_sp_output => HIVE_SIZE sp_var.sp_output
      | .struct_host_sp_communication => HIVE_SIZE sp_var.host_sp_com
      | _ => 0
    struct_prints := fun _ _ => [] }

/-- The state in which a dump run starts. -/
def dump_state.start : dump_state := { log := [], failed := none }

end SpmemDump

namespace Max77693

open max77693_reg

/-! ## Theorems -/

/-- C1: `max77693_get_enable_register` maps ESAFEOUT1 to
(CHG_REG_SAFEOUT_CTRL, 0x40, 0x40), ESAFEOUT2 to (CHG_REG_SAFEOUT_CTRL, 0x80,
0x80) and CHARGER to (CHG_REG_CHG_CNFG_00, 0x0f, 0x05), returning 0, and
returns -EINVAL for every other id. -/
theorem get_enable_register_triples (rdev : regulator_dev) :
    max77693_get_enable_register rdev =
      if max77693_get_rid rdev = MAX77693_ESAFEOUT1 then
        .ok (MAX77693_CHG_REG_SAFEOUT_CTRL, 0x40, 0x40)
      else if max77693_get_rid rdev = MAX77693_ESAFEOUT2 then
        .ok (MAX77693_CHG_REG_SAFEOUT_CTRL, 0x80, 0x80)
      else if max77693_get_rid rdev = MAX77693_CHARGER then
        .ok (MAX77693_CHG_REG_CHG_CNFG_00, 0x0f, 0x05)
      else .error (-EINVAL) := by
  unfold max77693_get_enable_register
  simp only [MAX77693_ESAFEOUT1, MAX77693_ESAFEOUT2, MAX77693_CHARGER]
  by_cases h0 : max77693_get_rid rdev = 0
  · simp [h0]
  · by_cases h1 : max77693_get_rid rdev = 1
    · simp [h1]
    · have hr : ¬ (0 ≤ max77693_get_rid rdev ∧ max77693_get_rid rdev ≤ 1) := by omega
      simp [h0, h1, hr]

/-- An id outside the three regulators is outside the SAFEOUT case range. -/
theorem not_safeout_range {rid : Int} (h1 : rid ≠ MAX77693_ESAFEOUT1)
    (h2 : rid ≠ MAX77693_ESAFEOUT2) :
    ¬ (MAX77693_ESAFEOUT1 ≤ rid ∧ rid ≤ MAX77693_ESAFEOUT2) := by
  simp only [MAX77693_ESAFEOUT1, MAX77693_ESAFEOUT2] at *
  omega

/-- For an id outside the three regulators the enable lookup fails. -/
theorem get_enable_register_invalid (rdev : regulator_dev)
    (h1 : max77693_get_rid rdev ≠ MAX77693_ESAFEOUT1)
    (h2 : max77693_get_rid rdev ≠ MAX77693_ESAFEOUT2)
    (h3 : max77693_get_rid rdev ≠ MAX77693_CHARGER) :
    max77693_get_enable_register rdev = .error (-EINVAL) := by
  unfold max77693_get_enable_register
  simp [not_safeout_range h1 h2, h3]

/-- For an id outside the three regulators the disable lookup fails. -/
theorem get_disable_register_invalid (rdev : regulator_dev)
    (h1 : max77693_get_rid rdev ≠ MAX77693_ESAFEOUT1)
    (h2 : max77693_get_rid rdev ≠ MAX77693_ESAFEOUT2)
    (h3 : max77693_get_rid rdev ≠ MAX77693_CHARGER) :
    max77693_get_disable_register rdev = .error (-EINVAL) := by
  unfold max77693_get_disable_register
  simp [not_safeout_range h1 h2, h3]

/-- For an id outside the three regulators the voltage-field lookup fails. -/
theorem get_voltage_register_invalid (rdev : regulator_dev)
    (h1 : max77693_get_rid rdev ≠ MAX77693_ESAFEOUT1)
    (h2 : max77693_get_rid rdev ≠ MAX77693_ESAFEOUT2)
    (h3 : max77693_get_rid rdev ≠ MAX77693_CHARGER) :
    max77693_get_voltage_register rdev = .error (-EINVAL) := by
  unfold max77693_get_voltage_register
  simp [not_safeout_range h1 h2, h3]

/-- C2: for every regulator id that is not ESAFEOUT1, ESAFEOUT2 or CHARGER,
is-enabled, enable, disable, get-voltage, set-voltage (charger current),
set-voltage-safeout, list-voltage (both list functions) and suspend-disable
return -EINVAL; the driver data, and with it the log of register reads and
updates, is returned as it was, so no register access is issued. -/
theorem invalid_id_einval_no_io (rdev : regulator_dev) (data : max77693_data)
    (fuel : Nat) (min_uV max_uV : Int) (selector : Nat)
    (h1 : max77693_get_rid rdev ≠ MAX77693_ESAFEOUT1)
    (h2 : max77693_get_rid rdev ≠ MAX77693_ESAFEOUT2)
    (h3 : max77693_get_rid rdev ≠ MAX77693_CHARGER) :
    max77693_reg_is_enabled rdev data = (-EINVAL, data) ∧
    max77693_reg_enable rdev data = (-EINVAL, data) ∧
    max77693_reg_disable rdev data = (-EINVAL, data) ∧
    max77693_get_voltage rdev data = (-EINVAL, data) ∧
    max77693_set_voltage fuel rdev data min_uV max_uV = some (-EINVAL, data) ∧
    max77693_set_voltage_safeout rdev data min_uV max_uV = (-EINVAL, data, none) ∧
    max77693_list_voltage rdev selector = -EINVAL ∧
    max77693_list_voltage_safeout rdev selector = -EINVAL ∧
    max77693_reg_disable_suspend rdev data = (-EINVAL, data) := by
  have he := get_enable_register_invalid rdev h1 h2 h3
  have hd := get_disable_register_invalid rdev h1 h2 h3
  have hv := get_voltage_register_invalid rdev h1 h2 h3
  refine ⟨?_, ?_, ?_, ?_, ?_, ?_, ?_, ?_, ?_⟩
  · simp [max77693_reg_is_enabled, he]
  · simp [max77693_reg_enable, he]
  · simp [max77693_reg_disable, hd]
  · simp [max77693_get_voltage, hv]
  · simp [max77693_set_voltage, h3]
  · simp [max77693_set_voltage_safeout, h1, h2]
  · unfold max77693_list_voltage
    simp only [MAX77693_ESAFEOUT1, MAX77693_ESAFEOUT2, MAX77693_CHARGER] at h1 h2 h3
    have hr : (reg_voltage_map.length : Int) ≤ max77693_get_rid rdev ∨
        max77693_get_rid rdev < 0 := by
      simp only [reg_voltage_map, List.length_cons, List.length_nil]
      omega
    simp [hr]
  · simp [max77693_list_voltage_safeout, h1, h2]
  · simp [max77693_reg_disable_suspend, hd]

/-- Witness for C2 at the device with id 3. -/
theorem invalid_id_einval_no_io_witness :
    (max77693_get_rid stray_rdev ≠ MAX77693_ESAFEOUT1 ∧
      max77693_get_rid stray_rdev ≠ MAX77693_ESAFEOUT2 ∧
      max77693_get_rid stray_rdev ≠ MAX77693_CHARGER) ∧
    (max77693_reg_is_enabled stray_rdev (data_with 0 0) = (-EINVAL, data_with 0 0) ∧
    max77693_reg_enable stray_rdev (data_with 0 0) = (-EINVAL, data_with 0 0) ∧
    max77693_reg_disable stray_rdev (data_with 0 0) = (-EINVAL, data_with 0 0) ∧
    max77693_get_voltage stray_rdev (data_with 0 0) = (-EINVAL, data_with 0 0) ∧
    max77693_set_voltage 0 stray_rdev (data_with 0 0) 100000 200000 =
      some (-EINVAL, data_with 0 0) ∧
    max77693_set_voltage_safeout stray_rdev (data_with 0 0) 3300000 3300000 =
      (-EINVAL, data_with 0 0, none) ∧
    max77693_list_voltage stray_rdev 0 = -EINVAL ∧
    max77693_list_voltage_safeout stray_rdev 0 = -EINVAL ∧
    max77693_reg_disable_suspend stray_rdev (data_with 0 0) = (-EINVAL, data_with 0 0)) :=
  ⟨by decide,
   invalid_id_einval_no_io stray_rdev (data_with 0 0) 0 100000 200000 0
     (by decide) (by decide) (by decide)⟩


/-- C3, at a failing input: on CHARGER with every register read failing with
-5 and every update succeeding, `max77693_set_voltage` and
`max77693_reg_disable_suspend` each issue the read, drop its error, go on to
the update and return 0 instead of -5. -/
theorem read_failure_not_returned :
    (data_with (-5) 0).iodev.regmap.read_result MAX77693_CHG_REG_CHG_CNFG_09 = -5 ∧
    (max77693_set_voltage 127 charger_rdev (data_with (-5) 0) 100000 100000).map
        (fun r => (r.1, r.2.iodev.regmap.log)) =
      some (0, [io_event.read MAX77693_CHG_REG_CHG_CNFG_09,
                io_event.update MAX77693_CHG_REG_CHG_CNFG_09 5 0x7f]) ∧
    (max77693_reg_disable_suspend charger_rdev (data_with (-5) 0)).1 = 0 ∧
    (max77693_reg_disable_suspend charger_rdev (data_with (-5) 0)).2.iodev.regmap.log =
      [io_event.read MAX77693_CHG_REG_CHG_CNFG_00,
       io_event.update MAX77693_CHG_REG_CHG_CNFG_00 0 0xf] := by
  exact ⟨by decide, by decide, by decide, by decide⟩

/-- The SAFEOUT search runs off the table exactly when none of the four
voltages lies in the requested range. -/
theorem safeout_loop_full (min_uV max_uV : Int) :
    max77693_set_voltage_safeout_loop min_uV max_uV max77693_safeoutvolt 0 ≥
        max77693_safeoutvolt.length ↔
      (¬ (min_uV ≤ 3300000 ∧ 3300000 ≤ max_uV) ∧ ¬ (min_uV ≤ 4850000 ∧ 4850000 ≤ max_uV) ∧
       ¬ (min_uV ≤ 4900000 ∧ 4900000 ≤ max_uV) ∧ ¬ (min_uV ≤ 4950000 ∧ 4950000 ≤ max_uV)) := by
  simp only [max77693_safeoutvolt, max77693_set_voltage_safeout_loop, List.length_cons,
    List.length_nil]
  split_ifs <;> omega


/-- The voltage field of a SAFEOUT regulator. -/
theorem get_voltage_register_safeout (rdev : regulator_dev)
    (h : max77693_get_rid rdev = MAX77693_ESAFEOUT1 ∨
      max77693_get_rid rdev = MAX77693_ESAFEOUT2) :
    max77693_get_voltage_register rdev =
      .ok (MAX77693_CHG_REG_SAFEOUT_CTRL,
           if max77693_get_rid rdev = MAX77693_ESAFEOUT2 then 2 else 0, 0x3) := by
  unfold max77693_get_voltage_register
  have hr : MAX77693_ESAFEOUT1 ≤ max77693_get_rid rdev ∧
      max77693_get_rid rdev ≤ MAX77693_ESAFEOUT2 := by
    simp only [MAX77693_ESAFEOUT1, MAX77693_ESAFEOUT2] at *
    omega
  simp [hr]

/-- An update appends exactly one update event to the log. -/
theorem update_reg_log (rm : regmap) (reg : max77693_reg) (val mask : Nat) :
    (max77693_update_reg rm reg val mask).2.log = rm.log ++ [io_event.update reg val mask] := by
  unfold max77693_update_reg
  split_ifs <;> rfl

/-- A read appends exactly one read event to the log. -/
theorem read_reg_log (rm : regmap) (reg : max77693_reg) (dest : Nat) :
    (max77693_read_reg rm reg dest).2.2.log = rm.log ++ [io_event.read reg] := by
  unfold max77693_read_reg
  split_ifs <;> rfl

/-- C4: for ESAFEOUT1 and ESAFEOUT2 and every (min_uV, max_uV),
`max77693_set_voltage_safeout` returns -EINVAL with no register update issued
(the log is as before) if and only if none of 3300000, 4850000, 4900000,
4950000 uV lies in [min_uV, max_uV]; in that case the driver data is untouched
and `*selector` is not written. -/
theorem set_voltage_safeout_einval_iff (rdev : regulator_dev) (data : max77693_data)
    (min_uV max_uV : Int)
    (h : max77693_get_rid rdev = MAX77693_ESAFEOUT1 ∨
      max77693_get_rid rdev = MAX77693_ESAFEOUT2) :
    (((max77693_set_voltage_safeout rdev data min_uV max_uV).1 = -EINVAL ∧
        (max77693_set_voltage_safeout rdev data min_uV max_uV).2.1.iodev.regmap.log =
          data.iodev.regmap.log) ↔
      (¬ (min_uV ≤ 3300000 ∧ 3300000 ≤ max_uV) ∧ ¬ (min_uV ≤ 4850000 ∧ 4850000 ≤ max_uV) ∧
       ¬ (min_uV ≤ 4900000 ∧ 4900000 ≤ max_uV) ∧
       ¬ (min_uV ≤ 4950000 ∧ 4950000 ≤ max_uV))) ∧
    ((¬ (min_uV ≤ 3300000 ∧ 3300000 ≤ max_uV) ∧ ¬ (min_uV ≤ 4850000 ∧ 4850000 ≤ max_uV) ∧
       ¬ (min_uV ≤ 4900000 ∧ 4900000 ≤ max_uV) ∧
       ¬ (min_uV ≤ 4950000 ∧ 4950000 ≤ max_uV)) →
      max77693_set_voltage_safeout rdev data min_uV max_uV = (-EINVAL, data, none)) := by
  have hrid : ¬ (max77693_get_rid rdev ≠ MAX77693_ESAFEOUT1 ∧
      max77693_get_rid rdev ≠ MAX77693_ESAFEOUT2) := by tauto
  have hfull := safeout_loop_full min_uV max_uV
  have hnone : (¬ (min_uV ≤ 3300000 ∧ 3300000 ≤ max_uV) ∧
      ¬ (min_uV ≤ 4850000 ∧ 4850000 ≤ max_uV) ∧
      ¬ (min_uV ≤ 4900000 ∧ 4900000 ≤ max_uV) ∧
      ¬ (min_uV ≤ 4950000 ∧ 4950000 ≤ max_uV)) →
      max77693_set_voltage_safeout rdev data min_uV max_uV = (-EINVAL, data, none) := by
    intro hn
    have hi := hfull.mpr hn
    unfold max77693_set_voltage_safeout
    simp only [hrid, if_false, hi, if_true]
  refine ⟨⟨?_, fun hn => by rw [hnone hn]; exact ⟨rfl, rfl⟩⟩, hnone⟩
  rintro ⟨_, hlog⟩
  by_contra hn
  have hi : ¬ (max77693_set_voltage_safeout_loop min_uV max_uV max77693_safeoutvolt 0 ≥
      max77693_safeoutvolt.length) := fun hge => hn (hfull.mp hge)
  unfold max77693_set_voltage_safeout at hlog
  simp only [hrid, if_false, hi, get_voltage_register_safeout rdev h] at hlog
  have hu := update_reg_log data.iodev.regmap MAX77693_CHG_REG_SAFEOUT_CTRL
  split_ifs at hlog <;> simp only [hu] at hlog <;> simp at hlog


/-- Witness for C4: on ESAFEOUT1 the range [3400000, 4800000] holds none of the
four voltages. -/
theorem set_voltage_safeout_einval_iff_witness :
    (max77693_get_rid esafeout1_rdev = MAX77693_ESAFEOUT1 ∨
      max77693_get_rid esafeout1_rdev = MAX77693_ESAFEOUT2) ∧
    (((max77693_set_voltage_safeout esafeout1_rdev (data_with 0 0) 3400000 4800000).1 =
          -EINVAL ∧
        (max77693_set_voltage_safeout esafeout1_rdev (data_with 0 0)
            3400000 4800000).2.1.iodev.regmap.log =
          (data_with 0 0).iodev.regmap.log) ↔
      (¬ ((3400000 : Int) ≤ 3300000 ∧ (3300000 : Int) ≤ 4800000) ∧
       ¬ ((3400000 : Int) ≤ 4850000 ∧ (4850000 : Int) ≤ 4800000) ∧
       ¬ ((3400000 : Int) ≤ 4900000 ∧ (4900000 : Int) ≤ 4800000) ∧
       ¬ ((3400000 : Int) ≤ 4950000 ∧ (4950000 : Int) ≤ 4800000))) ∧
    ((¬ ((3400000 : Int) ≤ 3300000 ∧ (3300000 : Int) ≤ 4800000) ∧
       ¬ ((3400000 : Int) ≤ 4850000 ∧ (4850000 : Int) ≤ 4800000) ∧
       ¬ ((3400000 : Int) ≤ 4900000 ∧ (4900000 : Int) ≤ 4800000) ∧
       ¬ ((3400000 : Int) ≤ 4950000 ∧ (4950000 : Int) ≤ 4800000)) →
      max77693_set_voltage_safeout esafeout1_rdev (data_with 0 0) 3400000 4800000 =
        (-EINVAL, data_with 0 0, none)) :=
  ⟨Or.inl (by decide),
   set_voltage_safeout_einval_iff esafeout1_rdev (data_with 0 0) 3400000 4800000
     (Or.inl (by decide))⟩

/-- A value in the range of `int` is not changed by the reduction. -/
theorem int32_of_range (x : Int) (h1 : -2147483648 ≤ x) (h2 : x < 2147483648) :
    int32 x = x := by
  unfold int32
  omega

/-- The search loop on the charger map, entered at index `n` with all smaller
indices below `min_vol`: with fuel for the remaining tests it stops at the
smallest index whose current is not below `min_vol`. -/
theorem charger_loop_spec (min_vol : Int) (hmin : min_vol ≤ 2580) :
    ∀ (fuel n : Nat), n ≤ 126 → 127 ≤ fuel + n →
      (∀ j : Nat, j < n → 60 + 20 * (j : Int) < min_vol) →
      ∃ v : Nat,
        max77693_get_voltage_proper_val_loop charger_current_map_desc min_vol fuel n =
            some (v : Int) ∧
          n ≤ v ∧ v ≤ 126 ∧ min_vol ≤ 60 + 20 * (v : Int) ∧
          (∀ j : Nat, j < v → 60 + 20 * (j : Int) < min_vol) := by
  intro fuel
  induction fuel with
  | zero => intro n hn hf; omega
  | succ fuel ih =>
    intro n hn hf hlow
    have e1 : int32 (20 * (n : Int)) = 20 * (n : Int) := int32_of_range _ (by omega) (by omega)
    have e2 : int32 (60 + 20 * (n : Int)) = 60 + 20 * (n : Int) :=
      int32_of_range _ (by omega) (by omega)
    have e3 : int32 ((n : Int) + 1) = ((n + 1 : Nat) : Int) := by
      rw [int32_of_range _ (by omega) (by omega)]
      push_cast
      rfl
    unfold max77693_get_voltage_proper_val_loop
    simp only [charger_current_map_desc, e1, e2, e3]
    by_cases hc : 60 + 20 * (n : Int) < min_vol ∧ 60 + 20 * (n : Int) < 2580
    · rw [if_pos hc]
      have hlow1 : ∀ j : Nat, j < n + 1 → 60 + 20 * (j : Int) < min_vol := by
        intro j hj
        rcases Nat.lt_succ_iff_lt_or_eq.mp hj with h | h
        · exact hlow j h
        · rw [h]; exact hc.1
      obtain ⟨v, hv, hnv, hv126, hvmin, hvlow⟩ := ih (n + 1) (by omega) (by omega) hlow1
      exact ⟨v, hv, by omega, hv126, hvmin, hvlow⟩
    · rw [if_neg hc]
      exact ⟨n, rfl, le_refl _, hn, by omega, hlow⟩

/-- The function `max77693_get_voltage_proper_val` on the charger map: either
it selects the smallest index whose current lies in the range, or it returns
-EINVAL and no table current lies in the range. -/
theorem charger_proper_val_spec (fuel : Nat) (hf : 127 ≤ fuel) (min_vol max_vol : Int) :
    (∃ v : Nat, v ≤ 126 ∧
        max77693_get_voltage_proper_val fuel (some charger_current_map_desc) min_vol max_vol =
          some (v : Int) ∧
        min_vol ≤ 60 + 20 * (v : Int) ∧ 60 + 20 * (v : Int) ≤ max_vol ∧
        (∀ j : Nat, j < v → 60 + 20 * (j : Int) < min_vol)) ∨
    (max77693_get_voltage_proper_val fuel (some charger_current_map_desc) min_vol max_vol =
        some (-EINVAL) ∧
      ∀ k : Int, 0 ≤ k → k ≤ 126 → ¬ (min_vol ≤ 60 + 20 * k ∧ 60 + 20 * k ≤ max_vol)) := by
  unfold max77693_get_voltage_proper_val
  simp only [charger_current_map_desc]
  by_cases hr : max_vol < 60 ∨ min_vol > 2580
  · right
    refine ⟨by rw [if_pos hr], ?_⟩
    intro k hk0 hk1 hk
    omega
  · rw [if_neg hr]
    obtain ⟨v, hv, -, hv126, hvmin, hvlow⟩ :=
      charger_loop_spec min_vol (by omega) fuel 0 (by omega) (by omega) (by intro j hj; omega)
    have hv0 : max77693_get_voltage_proper_val_loop
        { min := 60, max := 2580, step := 20, n_bits := 7 } min_vol fuel 0 = some (v : Int) := by
      simpa [charger_current_map_desc] using hv
    have e1 : int32 (20 * (v : Int)) = 20 * (v : Int) := int32_of_range _ (by omega) (by omega)
    have e2 : int32 (60 + 20 * (v : Int)) = 60 + 20 * (v : Int) :=
      int32_of_range _ (by omega) (by omega)
    simp only [hv0, e1, e2]
    by_cases hmax : 60 + 20 * (v : Int) > max_vol
    · right
      refine ⟨by rw [if_pos hmax], ?_⟩
      intro k hk0 hk1 hk
      have hkv : k.toNat < v := by omega
      have := hvlow k.toNat hkv
      omega
    · left
      have hbits : ¬ ((v : Int) ≥ int32 ((1 <<< 7 : Nat) : Int)) := by
        have : int32 ((1 <<< 7 : Nat) : Int) = 128 := by decide
        rw [this]
        omega
      exact ⟨v, hv126, by rw [if_neg hmax, if_neg hbits], hvmin, by omega, hvlow⟩


/-- An update returns the outcome the bus gives it. -/
theorem update_reg_ret (rm : regmap) (reg : max77693_reg) (val mask : Nat) :
    (max77693_update_reg rm reg val mask).1 = rm.update_result reg := by
  unfold max77693_update_reg
  split_ifs with h
  · exact h.symm
  · rfl

/-- A read returns the outcome the bus gives it. -/
theorem read_reg_ret (rm : regmap) (reg : max77693_reg) (dest : Nat) :
    (max77693_read_reg rm reg dest).1 = rm.read_result reg := by
  unfold max77693_read_reg
  split_ifs with h
  · exact h.symm
  · rfl

/-- A read does not change the outcome of later updates. -/
theorem read_reg_update_result (rm : regmap) (reg : max77693_reg) (dest : Nat) :
    (max77693_read_reg rm reg dest).2.2.update_result = rm.update_result := by
  unfold max77693_read_reg
  split_ifs <;> rfl

/-- The current field of the charger. -/
theorem get_voltage_register_charger (rdev : regulator_dev)
    (h : max77693_get_rid rdev = MAX77693_CHARGER) :
    max77693_get_voltage_register rdev = .ok (MAX77693_CHG_REG_CHG_CNFG_09, 0, 0x7f) := by
  unfold max77693_get_voltage_register
  simp [h, MAX77693_ESAFEOUT1, MAX77693_ESAFEOUT2, MAX77693_CHARGER]

/-- When the search selects index `v`, `max77693_set_voltage` issues one read
and one update of CHG_CNFG_09 with the code `v + 3` under mask 0x7f, and returns
the outcome of the update. -/
theorem set_voltage_charger_selected (fuel : Nat) (rdev : regulator_dev)
    (data : max77693_data) (min_uA max_uA : Int) (v : Nat) (hv : v ≤ 126)
    (hrid : max77693_get_rid rdev = MAX77693_CHARGER)
    (hsel : max77693_get_voltage_proper_val fuel (some charger_current_map_desc)
      (Int.tdiv min_uA 1000) (Int.tdiv max_uA 1000) = some (v : Int)) :
    ∃ r, max77693_set_voltage fuel rdev data min_uA max_uA = some r ∧
      r.1 = data.iodev.regmap.update_result MAX77693_CHG_REG_CHG_CNFG_09 ∧
      r.2.iodev.regmap.log = data.iodev.regmap.log ++
        [io_event.read MAX77693_CHG_REG_CHG_CNFG_09,
         io_event.update MAX77693_CHG_REG_CHG_CNFG_09 (v + 3) 0x7f] := by
  have hmap : reg_voltage_map.getD MAX77693_CHARGER.toNat none =
      some charger_current_map_desc := rfl
  have e3 : int32 ((v : Int) + 3) = ((v + 3 : Nat) : Int) := by
    rw [int32_of_range _ (by omega) (by omega)]
    push_cast
    rfl
  have hneg : ¬ ((v : Int) < 0) := by omega
  unfold max77693_set_voltage
  simp only [hrid, ne_eq, not_true_eq_false, if_false, if_true, hmap, hsel, hneg, e3,
    get_voltage_register_charger rdev hrid, Int.toNat_ofNat, Nat.shiftLeft_zero]
  refine ⟨_, rfl, ?_, ?_⟩
  · rw [update_reg_ret, read_reg_update_result]
  · simp only [update_reg_log, read_reg_log, List.append_assoc, List.singleton_append]


/-- When the search rejects the range, `max77693_set_voltage` returns -EINVAL
and leaves the driver data as it was. -/
theorem set_voltage_charger_rejected (fuel : Nat) (rdev : regulator_dev)
    (data : max77693_data) (min_uA max_uA : Int)
    (hrid : max77693_get_rid rdev = MAX77693_CHARGER)
    (hsel : max77693_get_voltage_proper_val fuel (some charger_current_map_desc)
      (Int.tdiv min_uA 1000) (Int.tdiv max_uA 1000) = some (-EINVAL)) :
    max77693_set_voltage fuel rdev data min_uA max_uA = some (-EINVAL, data) := by
  have hmap : reg_voltage_map.getD MAX77693_CHARGER.toNat none =
      some charger_current_map_desc := rfl
  have hneg : -EINVAL < 0 := by decide
  unfold max77693_set_voltage
  simp only [hrid, ne_eq, not_true_eq_false, if_false, if_true, hmap, hsel, hneg]

/-- C5: for CHARGER and every pair (min_uA, max_uA), once the fuel covers the
127 tests of the search loop, `max77693_set_voltage` returns; it returns
-EINVAL with no register read or update issued if and only if no table current
60 + 20 * k mA with 0 <= k <= 126 lies in [min_uA / 1000, max_uA / 1000]
(truncating division), in particular whenever max_uA / 1000 < 60 or
min_uA / 1000 > 2580. -/
theorem set_current_limit_einval_iff (fuel : Nat) (rdev : regulator_dev)
    (data : max77693_data) (min_uA max_uA : Int) (hf : 127 ≤ fuel)
    (hrid : max77693_get_rid rdev = MAX77693_CHARGER) :
    ∃ r, max77693_set_voltage fuel rdev data min_uA max_uA = some r ∧
      ((r.1 = -EINVAL ∧ r.2.iodev.regmap.log = data.iodev.regmap.log) ↔
        ∀ k : Int, 0 ≤ k → k ≤ 126 →
          ¬ (Int.tdiv min_uA 1000 ≤ 60 + 20 * k ∧ 60 + 20 * k ≤ Int.tdiv max_uA 1000)) ∧
      (Int.tdiv max_uA 1000 < 60 ∨ Int.tdiv min_uA 1000 > 2580 →
        r.1 = -EINVAL ∧ r.2.iodev.regmap.log = data.iodev.regmap.log) := by
  rcases charger_proper_val_spec fuel hf (Int.tdiv min_uA 1000) (Int.tdiv max_uA 1000) with
    ⟨v, hv, hsel, hlo, hhi, -⟩ | ⟨hsel, hno⟩
  · obtain ⟨r, hr, -, hlog⟩ :=
      set_voltage_charger_selected fuel rdev data min_uA max_uA v hv hrid hsel
    refine ⟨r, hr, ⟨?_, ?_⟩, ?_⟩
    · rintro ⟨-, hsame⟩
      rw [hlog] at hsame
      simp at hsame
    · intro hall
      exact absurd ⟨hlo, hhi⟩ (hall v (by omega) (by omega))
    · intro hout
      omega
  · refine ⟨_, set_voltage_charger_rejected fuel rdev data min_uA max_uA hrid hsel,
      ⟨fun _ => hno, fun _ => ⟨rfl, rfl⟩⟩, fun _ => ⟨rfl, rfl⟩⟩

/-- Witness for C5: the request [10 mA, 50 mA] lies below the table and is
rejected. -/
theorem set_current_limit_einval_iff_witness :
    (127 ≤ 127 ∧ max77693_get_rid charger_rdev = MAX77693_CHARGER) ∧
    ∃ r, max77693_set_voltage 127 charger_rdev (data_with 0 0) 10000 50000 = some r ∧
      ((r.1 = -EINVAL ∧ r.2.iodev.regmap.log = (data_with 0 0).iodev.regmap.log) ↔
        ∀ k : Int, 0 ≤ k → k ≤ 126 →
          ¬ (Int.tdiv 10000 1000 ≤ 60 + 20 * k ∧ 60 + 20 * k ≤ Int.tdiv 50000 1000)) ∧
      (Int.tdiv 50000 1000 < 60 ∨ Int.tdiv 10000 1000 > 2580 →
        r.1 = -EINVAL ∧ r.2.iodev.regmap.log = (data_with 0 0).iodev.regmap.log) :=
  ⟨⟨by decide, by decide⟩,
   set_current_limit_einval_iff 127 charger_rdev (data_with 0 0) 10000 50000
     (by decide) (by decide)⟩


/-- Reading the array `rdev` after an in-bounds store. -/
theorem getD_set_rdev (l : List (Option Nat)) (i j : Nat) (a : Option Nat) (h : i < l.length) :
    (l.set i a).getD j none = if j = i then a else l.getD j none := by
  simp only [List.getD_eq_getElem?_getD, List.getElem?_set]
  by_cases hji : j = i
  · subst hji
    simp [h]
  · have : ¬ i = j := fun h => hji h.symm
    simp [hji, this]

/-- Picking the indices below `kidx` out of `0..n-1` gives `0..kidx-1`. -/
theorem filterMap_range_lt {β : Type} (g : Nat → β) (kidx : Nat) :
    ∀ n, kidx ≤ n →
      (List.range n).filterMap (fun j => if j < kidx then some (g j) else none) =
        (List.range kidx).map g := by
  intro n
  induction n with
  | zero =>
    intro h
    have : kidx = 0 := by omega
    subst this
    rfl
  | succ n ih =>
    intro h
    rw [List.range_succ, List.filterMap_append]
    rcases Nat.lt_or_ge n kidx with hlt | hge
    · have hk : kidx = n + 1 := by omega
      subst hk
      have h1 : (List.range n).filterMap (fun j => if j < n + 1 then some (g j) else none) =
          (List.range n).map g := by
        rw [← List.filterMap_eq_map]
        apply List.filterMap_congr
        intro j hj
        have : j < n + 1 := by
          have := List.mem_range.mp hj
          omega
        simp [this]
      rw [h1, List.range_succ, List.map_append]
      simp
    · rw [ih hge]
      simp [Nat.not_lt.mpr hge]


/-- One pass of the registration loop adds its call number to the registrations. -/
theorem register_calls_step (log : List probe_event) (id : Int) (i : Nat)
    (d : Option regulator_desc) :
    register_calls (log ++ [probe_event.table_index id, probe_event.regulator_register i d]) =
      register_calls log ++ [i] := by
  simp [register_calls, List.filterMap_append, List.filterMap_cons]

/-- One pass of the registration loop unregisters nothing. -/
theorem unregister_calls_step (log : List probe_event) (id : Int) (i : Nat)
    (d : Option regulator_desc) :
    unregister_calls
        (log ++ [probe_event.table_index id, probe_event.regulator_register i d]) =
      unregister_calls log := by
  simp [unregister_calls, List.filterMap_append, List.filterMap_cons]

/-- One pass of the registration loop frees nothing. -/
theorem kfree_calls_step (log : List probe_event) (id : Int) (i : Nat)
    (d : Option regulator_desc) :
    kfree_calls (log ++ [probe_event.table_index id, probe_event.regulator_register i d]) =
      kfree_calls log := by
  simp [kfree_calls, List.filter_append, List.filter_cons]

/-- The registration loop when the calls `i .. i+kidx-1` succeed and the call
`i + kidx` fails with `e`: it stops with `e`, the slots of the successful calls
hold their devices, the slot of the failed call is `NULL`, and the log gained
the registrations `i .. i+kidx` and nothing else of interest. -/
theorem probe_loop_fail (k : kernel_env) (e : Int) :
    ∀ (rds : List max77693_regulator_data) (i : Nat) (st : probe_state) (kidx : Nat),
      kidx < rds.length →
      (∀ j, j < kidx → k.regulator_register_result (i + j) = none) →
      k.regulator_register_result (i + kidx) = some e →
      i + rds.length ≤ st.rdev.length →
      ∃ st1, max77693_pmic_probe_loop k rds i st = (some e, st1) ∧
        (∀ j, st1.rdev.getD j none =
          if i ≤ j ∧ j < i + kidx then some j
          else if j = i + kidx then none else st.rdev.getD j none) ∧
        register_calls st1.log = register_calls st.log ++ List.range' i (kidx + 1) ∧
        unregister_calls st1.log = unregister_calls st.log ∧
        kfree_calls st1.log = kfree_calls st.log := by
  intro rds
  induction rds with
  | nil => intro i st kidx h; simp at h
  | cons rd rest ih =>
    intro i st kidx hk hok herr hlen
    simp only [List.length_cons] at hk hlen
    cases kidx with
    | zero =>
      simp only [Nat.add_zero] at herr
      simp only [max77693_pmic_probe_loop, herr]
      refine ⟨_, rfl, ?_, ?_, ?_, ?_⟩
      · intro j
        rw [getD_set_rdev _ _ _ _ (by omega)]
        by_cases hj : j = i
        · subst hj; simp
        · have h1 : ¬ (i ≤ j ∧ j < i + 0) := by omega
          rw [if_neg hj, if_neg h1, if_neg (by simpa using hj)]
      · simp [register_calls_step, List.range']
      · exact unregister_calls_step _ _ _ _
      · exact kfree_calls_step _ _ _ _
    | succ kidx =>
      have h0 : k.regulator_register_result i = none := by
        have := hok 0 (by omega)
        simpa using this
      obtain ⟨st1, hst1, hrdev, hreg, hun, hfree⟩ :=
        ih (i + 1)
          { rdev := st.rdev.set i (some i),
            table :=
              if rd.id = MAX77693_ESAFEOUT1 ∨ rd.id = MAX77693_ESAFEOUT2 then
                table_set_n_voltages st.table rd.id max77693_safeoutvolt.length
              else st.table,
            log := st.log ++
              [probe_event.table_index rd.id,
               probe_event.regulator_register i
                 (table_lookup
                   (if rd.id = MAX77693_ESAFEOUT1 ∨ rd.id = MAX77693_ESAFEOUT2 then
                      table_set_n_voltages st.table rd.id max77693_safeoutvolt.length
                    else st.table) rd.id)] }
          kidx (by omega)
          (fun j hj => by have := hok (j + 1) (by omega); rwa [show i + 1 + j = i + (j + 1) by omega])
          (by rwa [show i + 1 + kidx = i + (kidx + 1) by omega])
          (by simp only [List.length_set]; omega)
      simp only [max77693_pmic_probe_loop, h0]
      refine ⟨st1, hst1, ?_, ?_, ?_, ?_⟩
      · intro j
        rw [hrdev j, getD_set_rdev _ _ _ _ (by omega)]
        by_cases hj : j = i
        · subst hj
          have h1 : ¬ (j + 1 ≤ j ∧ j < j + 1 + kidx) := by omega
          have h2 : ¬ (j = j + 1 + kidx) := by omega
          have h3 : j ≤ j ∧ j < j + (kidx + 1) := by omega
          simp [h1, h2, h3]
        · by_cases hin : i + 1 ≤ j ∧ j < i + 1 + kidx
          · have : i ≤ j ∧ j < i + (kidx + 1) := by omega
            simp [hin, this]
          · have h3 : ¬ (i ≤ j ∧ j < i + (kidx + 1)) := by omega
            have h4 : (j = i + 1 + kidx) ↔ (j = i + (kidx + 1)) := by omega
            simp [hin, h3, h4, hj]
      · rw [hreg, register_calls_step, List.append_assoc]
        congr 1
      · rw [hun, unregister_calls_step]
      · rw [hfree, kfree_calls_step]


/-- The registration loop when every call succeeds: it runs to the end, each
slot holds its device and the log gained one registration per entry. -/
theorem probe_loop_ok (k : kernel_env) :
    ∀ (rds : List max77693_regulator_data) (i : Nat) (st : probe_state),
      (∀ j, j < rds.length → k.regulator_register_result (i + j) = none) →
      i + rds.length ≤ st.rdev.length →
      ∃ st1, max77693_pmic_probe_loop k rds i st = (none, st1) ∧
        (∀ j, st1.rdev.getD j none =
          if i ≤ j ∧ j < i + rds.length then some j else st.rdev.getD j none) ∧
        register_calls st1.log = register_calls st.log ++ List.range' i rds.length ∧
        unregister_calls st1.log = unregister_calls st.log ∧
        kfree_calls st1.log = kfree_calls st.log := by
  intro rds
  induction rds with
  | nil =>
    intro i st _ _
    refine ⟨st, rfl, ?_, by simp [List.range'], rfl, rfl⟩
    intro j
    have : ¬ (i ≤ j ∧ j < i + ([] : List max77693_regulator_data).length) := by
      simp only [List.length_nil]; omega
    rw [if_neg this]
  | cons rd rest ih =>
    intro i st hok hlen
    simp only [List.length_cons] at hok hlen
    have h0 : k.regulator_register_result i = none := by
      have := hok 0 (by omega)
      simpa using this
    obtain ⟨st1, hst1, hrdev, hreg, hun, hfree⟩ :=
      ih (i + 1)
        { rdev := st.rdev.set i (some i),
          table :=
            if rd.id = MAX77693_ESAFEOUT1 ∨ rd.id = MAX77693_ESAFEOUT2 then
              table_set_n_voltages st.table rd.id max77693_safeoutvolt.length
            else st.table,
          log := st.log ++
            [probe_event.table_index rd.id,
             probe_event.regulator_register i
               (table_lookup
                 (if rd.id = MAX77693_ESAFEOUT1 ∨ rd.id = MAX77693_ESAFEOUT2 then
                    table_set_n_voltages st.table rd.id max77693_safeoutvolt.length
                  else st.table) rd.id)] }
        (fun j hj => by have := hok (j + 1) (by omega); rwa [show i + 1 + j = i + (j + 1) by omega])
        (by simp only [List.length_set]; omega)
    simp only [max77693_pmic_probe_loop, h0]
    refine ⟨st1, hst1, ?_, ?_, ?_, ?_⟩
    · intro j
      rw [hrdev j, getD_set_rdev _ _ _ _ (by omega)]
      simp only [List.length_cons]
      by_cases hj : j = i
      · subst hj
        have h1 : ¬ (j + 1 ≤ j ∧ j < j + 1 + rest.length) := by omega
        have h3 : j ≤ j ∧ j < j + (rest.length + 1) := by omega
        simp [h1, h3]
      · by_cases hin : i + 1 ≤ j ∧ j < i + 1 + rest.length
        · have : i ≤ j ∧ j < i + (rest.length + 1) := by omega
          simp [hin, this]
        · have h3 : ¬ (i ≤ j ∧ j < i + (rest.length + 1)) := by omega
          simp [hin, h3, hj]
    · rw [hreg, register_calls_step, List.append_assoc]
      congr 1
    · rw [hun, unregister_calls_step]
    · rw [hfree, kfree_calls_step]

/-- The unregister loop over an array whose first `kidx` slots hold their
devices and whose other slots are `NULL` unregisters the devices `0..kidx-1`,
each once, in order. -/
theorem unregister_loop_prefix (rdev : List (Option Nat)) (n kidx : Nat) (hk : kidx ≤ n)
    (h : ∀ j, j < n → rdev.getD j none = if j < kidx then some j else none) :
    unregister_loop rdev n = (List.range kidx).map probe_event.regulator_unregister := by
  unfold unregister_loop
  rw [← filterMap_range_lt probe_event.regulator_unregister kidx n hk]
  apply List.filterMap_congr
  intro j hj
  rw [h j (List.mem_range.mp hj)]
  split_ifs <;> rfl


/-- C6: in `max77693_pmic_probe`, if the allocation of the driver data fails the
probe returns -ENOMEM having done nothing else; if the allocation of the
regulator-device array fails it frees the driver data and returns -ENOMEM; in
both cases no `regulator_register` call was made. -/
theorem probe_alloc_failure (k : kernel_env) (iodev : max77693_dev)
    (pdata : max77693_platform_data) (table : List regulator_desc)
    (h : k.kzalloc_data_ok = false ∨ (k.kzalloc_data_ok = true ∧ k.kzalloc_rdev_ok = false)) :
    (max77693_pmic_probe k iodev (some pdata) table).ret = -ENOMEM ∧
    (max77693_pmic_probe k iodev (some pdata) table).log =
      (if k.kzalloc_data_ok = true then
        [probe_event.kzalloc_data, probe_event.kzalloc_rdev pdata.num_regulators,
         probe_event.kfree_data]
       else [probe_event.kzalloc_data]) ∧
    register_calls (max77693_pmic_probe k iodev (some pdata) table).log = [] := by
  rcases h with h | ⟨h1, h2⟩
  · simp [max77693_pmic_probe, h, register_calls]
  · simp [max77693_pmic_probe, h1, h2, register_calls]

/-- Witness for C6: the allocation of the regulator-device array fails. -/
theorem probe_alloc_failure_witness :
    ((kernel_env.mk true false (fun _ => none)).kzalloc_data_ok = false ∨
      ((kernel_env.mk true false (fun _ => none)).kzalloc_data_ok = true ∧
        (kernel_env.mk true false (fun _ => none)).kzalloc_rdev_ok = false)) ∧
    ((max77693_pmic_probe (kernel_env.mk true false (fun _ => none))
        { regmap := regmap_with 0 0 } (some pdata_all) regulators).ret = -ENOMEM ∧
     (max77693_pmic_probe (kernel_env.mk true false (fun _ => none))
        { regmap := regmap_with 0 0 } (some pdata_all) regulators).log =
      (if (kernel_env.mk true false (fun _ => none)).kzalloc_data_ok = true then
        [probe_event.kzalloc_data, probe_event.kzalloc_rdev pdata_all.num_regulators,
         probe_event.kfree_data]
       else [probe_event.kzalloc_data]) ∧
     register_calls (max77693_pmic_probe (kernel_env.mk true false (fun _ => none))
        { regmap := regmap_with 0 0 } (some pdata_all) regulators).log = []) :=
  ⟨Or.inr ⟨rfl, rfl⟩,
   probe_alloc_failure (kernel_env.mk true false (fun _ => none))
     { regmap := regmap_with 0 0 } pdata_all regulators (Or.inr ⟨rfl, rfl⟩)⟩

/-- C7: with n regulators in the platform data, if the registration at index
`kidx < n` fails with `e` after the indices below succeeded, the probe returns
`e`; its log is the part up to the failed call (registrations `0..kidx`, no
unregister, no free), then the unregistration of exactly the devices
`0..kidx-1`, each once, then the free of the array and the free of the driver
data. -/
theorem probe_register_failure_unwinds (k : kernel_env) (iodev : max77693_dev)
    (pdata : max77693_platform_data) (table : List regulator_desc) (kidx : Nat) (e : Int)
    (hd : k.kzalloc_data_ok = true) (hr : k.kzalloc_rdev_ok = true)
    (hk : kidx < pdata.num_regulators)
    (hok : ∀ j, j < kidx → k.regulator_register_result j = none)
    (herr : k.regulator_register_result kidx = some e) :
    (max77693_pmic_probe k iodev (some pdata) table).ret = e ∧
    ∃ pre, (max77693_pmic_probe k iodev (some pdata) table).log =
        pre ++ (List.range kidx).map probe_event.regulator_unregister ++
          [probe_event.kfree_rdev, probe_event.kfree_data] ∧
      register_calls pre = List.range (kidx + 1) ∧
      unregister_calls pre = [] ∧ kfree_calls pre = [] := by
  obtain ⟨st1, hst1, hrdev, hreg, hun, hfree⟩ :=
    probe_loop_fail k e pdata.regulator_data 0
      { rdev := List.replicate pdata.num_regulators none, table := table,
        log := [probe_event.kzalloc_data, probe_event.kzalloc_rdev pdata.num_regulators,
                probe_event.platform_set_drvdata] }
      kidx hk (fun j hj => by simpa using hok j hj) (by simpa using herr)
      (by simp [max77693_platform_data.num_regulators])
  have hcl : unregister_loop st1.rdev pdata.num_regulators =
      (List.range kidx).map probe_event.regulator_unregister := by
    apply unregister_loop_prefix _ _ _ (le_of_lt hk)
    intro j hj
    rw [hrdev j]
    by_cases hjk : j < kidx
    · simp [hjk]
    · have h1 : ¬ (0 ≤ j ∧ j < 0 + kidx) := by omega
      rw [if_neg h1, if_neg hjk]
      split_ifs
      · rfl
      · simp [List.getD_eq_getElem?_getD, List.getElem?_replicate, hj]
  unfold max77693_pmic_probe
  simp only [hd, hr, not_true_eq_false, if_false, hst1, hcl]
  refine ⟨trivial, st1.log, rfl, ?_, ?_, ?_⟩
  · rw [hreg, ← List.range_eq_range']
    simp [register_calls]
  · rw [hun]
    simp [unregister_calls]
  · rw [hfree]
    simp [kfree_calls]


/-- Witness for C7: three regulators, the third registration fails with -16. -/
theorem probe_register_failure_unwinds_witness :
    (2 < pdata_all.num_regulators ∧
      (kernel_failing_at 2 (-16)).regulator_register_result 2 = some (-16)) ∧
    ((max77693_pmic_probe (kernel_failing_at 2 (-16)) { regmap := regmap_with 0 0 }
        (some pdata_all) regulators).ret = -16 ∧
     ∃ pre, (max77693_pmic_probe (kernel_failing_at 2 (-16)) { regmap := regmap_with 0 0 }
          (some pdata_all) regulators).log =
        pre ++ (List.range 2).map probe_event.regulator_unregister ++
          [probe_event.kfree_rdev, probe_event.kfree_data] ∧
      register_calls pre = List.range (2 + 1) ∧
      unregister_calls pre = [] ∧ kfree_calls pre = []) :=
  ⟨⟨by decide, rfl⟩,
   probe_register_failure_unwinds (kernel_failing_at 2 (-16)) { regmap := regmap_with 0 0 }
     pdata_all regulators 2 (-16) rfl rfl (by decide)
     (fun j hj => by
       have hne : j ≠ 2 := by omega
       simp [kernel_failing_at, hne])
     rfl⟩

/-- C8: when both allocations and all n registrations succeed, the probe returns
0 having registered the devices `0..n-1` and unregistered or freed nothing, and
`max77693_pmic_remove` on the driver data it set unregisters the devices
`0..n-1`, each once, frees the array and the driver data once each, and
returns 0. -/
theorem probe_then_remove_balanced (k : kernel_env) (iodev : max77693_dev)
    (pdata : max77693_platform_data) (table : List regulator_desc)
    (hd : k.kzalloc_data_ok = true) (hr : k.kzalloc_rdev_ok = true)
    (hall : ∀ j, j < pdata.num_regulators → k.regulator_register_result j = none) :
    (max77693_pmic_probe k iodev (some pdata) table).ret = 0 ∧
    register_calls (max77693_pmic_probe k iodev (some pdata) table).log =
      List.range pdata.num_regulators ∧
    unregister_calls (max77693_pmic_probe k iodev (some pdata) table).log = [] ∧
    kfree_calls (max77693_pmic_probe k iodev (some pdata) table).log = [] ∧
    ∃ d, (max77693_pmic_probe k iodev (some pdata) table).drvdata = some d ∧
      max77693_pmic_remove d =
        (0, (List.range pdata.num_regulators).map probe_event.regulator_unregister ++
              [probe_event.kfree_rdev, probe_event.kfree_data]) := by
  obtain ⟨st1, hst1, hrdev, hreg, hun, hfree⟩ :=
    probe_loop_ok k pdata.regulator_data 0
      { rdev := List.replicate pdata.num_regulators none, table := table,
        log := [probe_event.kzalloc_data, probe_event.kzalloc_rdev pdata.num_regulators,
                probe_event.platform_set_drvdata] }
      (fun j hj => by simpa using hall j hj)
      (by simp [max77693_platform_data.num_regulators])
  have hcl : unregister_loop st1.rdev pdata.num_regulators =
      (List.range pdata.num_regulators).map probe_event.regulator_unregister := by
    apply unregister_loop_prefix _ _ _ (le_refl _)
    intro j hj
    rw [hrdev j]
    have h1 : 0 ≤ j ∧ j < 0 + pdata.regulator_data.length := by
      simp only [max77693_platform_data.num_regulators] at hj
      omega
    rw [if_pos h1, if_pos hj]
  unfold max77693_pmic_probe
  simp only [hd, hr, not_true_eq_false, if_false, hst1]
  refine ⟨trivial, ?_, ?_, ?_, _, rfl, ?_⟩
  · rw [hreg, ← List.range_eq_range']
    simp [register_calls, max77693_platform_data.num_regulators]
  · rw [hun]
    simp [unregister_calls]
  · rw [hfree]
    simp [kfree_calls]
  · simp only [max77693_pmic_remove, hcl]

/-- Witness for C8: the three regulators of the table, every call succeeding. -/
theorem probe_then_remove_balanced_witness :
    (max77693_pmic_probe kernel_ok { regmap := regmap_with 0 0 } (some pdata_all)
        regulators).ret = 0 ∧
    register_calls (max77693_pmic_probe kernel_ok { regmap := regmap_with 0 0 }
        (some pdata_all) regulators).log = List.range pdata_all.num_regulators ∧
    unregister_calls (max77693_pmic_probe kernel_ok { regmap := regmap_with 0 0 }
        (some pdata_all) regulators).log = [] ∧
    kfree_calls (max77693_pmic_probe kernel_ok { regmap := regmap_with 0 0 }
        (some pdata_all) regulators).log = [] ∧
    ∃ d, (max77693_pmic_probe kernel_ok { regmap := regmap_with 0 0 } (some pdata_all)
          regulators).drvdata = some d ∧
      max77693_pmic_remove d =
        (0, (List.range pdata_all.num_regulators).map probe_event.regulator_unregister ++
              [probe_event.kfree_rdev, probe_event.kfree_data]) :=
  probe_then_remove_balanced kernel_ok { regmap := regmap_with 0 0 } pdata_all regulators
    rfl rfl (fun _ _ => rfl)

/-- C9, at a failing input: for platform data whose only entry has the id 3,
one past the three-entry table, the probe does not return -EINVAL: it evaluates
`regulators[3]`, hands the out-of-table descriptor to `regulator_register` and
returns 0 when that call succeeds. -/
theorem probe_indexes_table_with_stray_id :
    pdata_stray.regulator_data.map (fun rd => rd.id) = [3] ∧
    regulators.length = 3 ∧
    (max77693_pmic_probe kernel_ok { regmap := regmap_with 0 0 } (some pdata_stray)
        regulators).ret = 0 ∧
    (max77693_pmic_probe kernel_ok { regmap := regmap_with 0 0 } (some pdata_stray)
        regulators).log =
      [probe_event.kzalloc_data, probe_event.kzalloc_rdev 1, probe_event.platform_set_drvdata,
       probe_event.table_index 3, probe_event.regulator_register 0 none] ∧
    table_indices (max77693_pmic_probe kernel_ok { regmap := regmap_with 0 0 }
        (some pdata_stray) regulators).log = [3] := by
  exact ⟨by decide, by decide, by decide, by decide, by decide⟩

/-- The function `max77693_list_voltage` on the charger for the codes up to 129. -/
theorem list_voltage_charger (rdev : regulator_dev)
    (hrid : max77693_get_rid rdev = MAX77693_CHARGER) (selector : Nat)
    (hsel : selector ≤ 129) :
    max77693_list_voltage rdev selector =
      1000 * (60 + 20 * ((if selector ≤ 3 then 0 else selector - 3 : Nat) : Int)) := by
  have hmap : reg_voltage_map.getD MAX77693_CHARGER.toNat none =
      some charger_current_map_desc := rfl
  have hin : ¬ ((reg_voltage_map.length : Int) ≤ MAX77693_CHARGER ∨ MAX77693_CHARGER < 0) := by
    decide
  unfold max77693_list_voltage
  simp only [hrid, hin, if_false, hmap, if_true, charger_current_map_desc]
  have hb : (if selector ≤ 3 then 0 else selector - 3 : Nat) ≤ 126 := by
    split_ifs <;> omega
  generalize (if selector ≤ 3 then 0 else selector - 3 : Nat) = s at hb ⊢
  rw [int32_of_range (60 + 20 * (s : Int)) (by omega) (by omega)]
  have hle : ¬ (60 + 20 * (s : Int) > 2580) := by omega
  rw [if_neg hle, int32_of_range _ (by omega) (by omega)]
  ring

/-- C10: on CHARGER, `max77693_list_voltage` gives 60000 uA for each of the codes
0..3, and 1000 * (60 + 20 * v) for the code `v + 3` of every table index
`v` in 0..126; `v + 3` is the code `max77693_set_voltage` writes when its
search selects `v`. -/
theorem charger_code_offset_undone (rdev : regulator_dev)
    (hrid : max77693_get_rid rdev = MAX77693_CHARGER) :
    (∀ s : Nat, s ≤ 3 → max77693_list_voltage rdev s = 60000) ∧
    (∀ v : Nat, v ≤ 126 →
      max77693_list_voltage rdev (v + 3) = 1000 * (60 + 20 * (v : Int))) ∧
    (∀ (fuel : Nat) (data : max77693_data) (min_uA max_uA : Int) (v : Nat), v ≤ 126 →
      max77693_get_voltage_proper_val fuel (some charger_current_map_desc)
        (Int.tdiv min_uA 1000) (Int.tdiv max_uA 1000) = some (v : Int) →
      ∃ r, max77693_set_voltage fuel rdev data min_uA max_uA = some r ∧
        r.2.iodev.regmap.log = data.iodev.regmap.log ++
          [io_event.read MAX77693_CHG_REG_CHG_CNFG_09,
           io_event.update MAX77693_CHG_REG_CHG_CNFG_09 (v + 3) 0x7f]) := by
  refine ⟨?_, ?_, ?_⟩
  · intro s hs
    rw [list_voltage_charger rdev hrid s (by omega), if_pos hs]
    rfl
  · intro v hv
    rw [list_voltage_charger rdev hrid (v + 3) (by omega)]
    by_cases h0 : v + 3 ≤ 3
    · have : v = 0 := by omega
      subst this
      rfl
    · rw [if_neg h0]
      simp
  · intro fuel data min_uA max_uA v hv hsel
    obtain ⟨r, hr, -, hlog⟩ :=
      set_voltage_charger_selected fuel rdev data min_uA max_uA v hv hrid hsel
    exact ⟨r, hr, hlog⟩


/-- Witness for C10 at the CHARGER device of the table. -/
theorem charger_code_offset_undone_witness :
    max77693_get_rid charger_rdev = MAX77693_CHARGER ∧
    ((∀ s : Nat, s ≤ 3 → max77693_list_voltage charger_rdev s = 60000) ∧
    (∀ v : Nat, v ≤ 126 →
      max77693_list_voltage charger_rdev (v + 3) = 1000 * (60 + 20 * (v : Int))) ∧
    (∀ (fuel : Nat) (data : max77693_data) (min_uA max_uA : Int) (v : Nat), v ≤ 126 →
      max77693_get_voltage_proper_val fuel (some charger_current_map_desc)
        (Int.tdiv min_uA 1000) (Int.tdiv max_uA 1000) = some (v : Int) →
      ∃ r, max77693_set_voltage fuel charger_rdev data min_uA max_uA = some r ∧
        r.2.iodev.regmap.log = data.iodev.regmap.log ++
          [io_event.read MAX77693_CHG_REG_CHG_CNFG_09,
           io_event.update MAX77693_CHG_REG_CHG_CNFG_09 (v + 3) 0x7f])) :=
  ⟨rfl, charger_code_offset_undone charger_rdev rfl⟩

/-- The register accesses whose result the source does look at: a failed read
is returned by is-enabled and get-voltage, and the outcome of the update is
returned by enable, disable and suspend-disable. -/
theorem io_failure_returned_where_checked (rdev : regulator_dev) (data : max77693_data) :
    (∀ reg mask pattern, max77693_get_enable_register rdev = .ok (reg, mask, pattern) →
      (data.iodev.regmap.read_result reg ≠ 0 →
        (max77693_reg_is_enabled rdev data).1 = data.iodev.regmap.read_result reg) ∧
      (max77693_reg_enable rdev data).1 = data.iodev.regmap.update_result reg) ∧
    (∀ reg mask pattern, max77693_get_disable_register rdev = .ok (reg, mask, pattern) →
      (max77693_reg_disable rdev data).1 = data.iodev.regmap.update_result reg ∧
      (max77693_reg_disable_suspend rdev data).1 = data.iodev.regmap.update_result reg) ∧
    (∀ reg shift mask, max77693_get_voltage_register rdev = .ok (reg, shift, mask) →
      data.iodev.regmap.read_result reg ≠ 0 →
        (max77693_get_voltage rdev data).1 = data.iodev.regmap.read_result reg) := by
  refine ⟨?_, ?_, ?_⟩
  · intro reg mask pattern h
    refine ⟨fun hne => ?_, ?_⟩
    · simp only [max77693_reg_is_enabled, h]
      have := read_reg_ret data.iodev.regmap reg 0
      simp only [ne_eq, this, hne, not_false_eq_true, if_true]
    · simp only [max77693_reg_enable, h, update_reg_ret]
  · intro reg mask pattern h
    refine ⟨?_, ?_⟩
    · simp only [max77693_reg_disable, h, update_reg_ret]
    · simp only [max77693_reg_disable_suspend, h, update_reg_ret, read_reg_update_result]
  · intro reg shift mask h hne
    simp only [max77693_get_voltage, h]
    have := read_reg_ret data.iodev.regmap reg 0
    simp only [ne_eq, this, hne, not_false_eq_true, if_true]

/-- The SAFEOUT selector table on the four selectors. -/
theorem list_voltage_safeout_decode (rdev : regulator_dev) (f : Nat) (hf : f < 4)
    (h : max77693_get_rid rdev = MAX77693_ESAFEOUT1 ∨
      max77693_get_rid rdev = MAX77693_ESAFEOUT2) :
    max77693_list_voltage_safeout rdev f =
      if f = 0 then 4850000 else if f = 1 then 4900000
      else if f = 2 then 4950000 else 3300000 := by
  unfold max77693_list_voltage_safeout
  simp only [h, if_true]
  interval_cases f <;> rfl

/-- Masking with 0x3 keeps the two low bits. -/
theorem and_three (x : Nat) : x &&& 3 = x % 4 :=
  Nat.and_pow_two_sub_one_eq_mod x 2

/-- Masking with 0x7f keeps the seven low bits. -/
theorem and_x7f (x : Nat) : x &&& 0x7f = x % 128 :=
  Nat.and_pow_two_sub_one_eq_mod x 7

/-- When the register read succeeds, `max77693_get_voltage` lists the field
`(val >> shift) & mask` through the `list_voltage` slot of the ops table, or
through `max77693_list_voltage` when the slot is empty. -/
theorem get_voltage_read_ok (rdev : regulator_dev) (data : max77693_data)
    (reg : max77693_reg) (shift mask : Nat)
    (hreg : max77693_get_voltage_register rdev = .ok (reg, shift, mask))
    (hread : data.iodev.regmap.read_result reg = 0) :
    (max77693_get_voltage rdev data).1 =
      match rdev.desc.ops.list_voltage with
      | some f => f.call rdev (((data.iodev.regmap.content reg % 256) >>> shift) &&& mask)
      | none =>
        max77693_list_voltage rdev (((data.iodev.regmap.content reg % 256) >>> shift) &&& mask) := by
  unfold max77693_get_voltage
  simp only [hreg, max77693_read_reg, hread, if_true, ne_eq, not_true_eq_false, if_false]
  cases rdev.desc.ops.list_voltage <;> rfl

/-- C11: for each of the three regulators and every register content, when the
register read succeeds `max77693_get_voltage` returns a value, never an error:
ESAFEOUT1 decodes bits 1:0 and ESAFEOUT2 bits 3:2 as 0 -> 4850000,
1 -> 4900000, 2 -> 4950000, 3 -> 3300000 uV; CHARGER, whose ops table has no
`list_voltage`, decodes f = bits 6:0 as 60000 uA for f <= 3 and
1000 * (60 + 20 * (f - 3)) otherwise, between 60000 and 2540000. -/
theorem get_voltage_decodes (rdev : regulator_dev) (data : max77693_data) :
    (max77693_get_rid rdev = MAX77693_ESAFEOUT1 → rdev.desc.ops = max77693_safeout_ops →
      data.iodev.regmap.read_result MAX77693_CHG_REG_SAFEOUT_CTRL = 0 →
      (max77693_get_voltage rdev data).1 =
        (if data.iodev.regmap.content MAX77693_CHG_REG_SAFEOUT_CTRL % 4 = 0 then 4850000
         else if data.iodev.regmap.content MAX77693_CHG_REG_SAFEOUT_CTRL % 4 = 1 then 4900000
         else if data.iodev.regmap.content MAX77693_CHG_REG_SAFEOUT_CTRL % 4 = 2 then 4950000
         else 3300000)) ∧
    (max77693_get_rid rdev = MAX77693_ESAFEOUT2 → rdev.desc.ops = max77693_safeout_ops →
      data.iodev.regmap.read_result MAX77693_CHG_REG_SAFEOUT_CTRL = 0 →
      (max77693_get_voltage rdev data).1 =
        (if data.iodev.regmap.content MAX77693_CHG_REG_SAFEOUT_CTRL / 4 % 4 = 0 then 4850000
         else if data.iodev.regmap.content MAX77693_CHG_REG_SAFEOUT_CTRL / 4 % 4 = 1 then 4900000
         else if data.iodev.regmap.content MAX77693_CHG_REG_SAFEOUT_CTRL / 4 % 4 = 2 then 4950000
         else 3300000)) ∧
    (max77693_get_rid rdev = MAX77693_CHARGER → rdev.desc.ops = max77693_charger_ops →
      data.iodev.regmap.read_result MAX77693_CHG_REG_CHG_CNFG_09 = 0 →
      (max77693_get_voltage rdev data).1 =
        (if data.iodev.regmap.content MAX77693_CHG_REG_CHG_CNFG_09 % 128 ≤ 3 then 60000
         else 1000 * (60 + 20 *
           (((data.iodev.regmap.content MAX77693_CHG_REG_CHG_CNFG_09 % 128 - 3 : Nat) : Int)))) ∧
      60000 ≤ (max77693_get_voltage rdev data).1 ∧
      (max77693_get_voltage rdev data).1 ≤ 2540000) := by
  refine ⟨?_, ?_, ?_⟩
  · intro hrid hops hread
    have hreg := get_voltage_register_safeout rdev (Or.inl hrid)
    have hne : ¬ (max77693_get_rid rdev = MAX77693_ESAFEOUT2) := by
      rw [hrid]; decide
    rw [if_neg hne] at hreg
    rw [get_voltage_read_ok rdev data _ _ _ hreg hread, hops]
    simp only [max77693_safeout_ops, list_voltage_fn.call, Nat.shiftRight_zero, and_three]
    rw [list_voltage_safeout_decode rdev _ (Nat.mod_lt _ (by decide)) (Or.inl hrid)]
    have e : data.iodev.regmap.content MAX77693_CHG_REG_SAFEOUT_CTRL % 256 % 4 =
        data.iodev.regmap.content MAX77693_CHG_REG_SAFEOUT_CTRL % 4 := by omega
    rw [e]
  · intro hrid hops hread
    have hreg := get_voltage_register_safeout rdev (Or.inr hrid)
    rw [if_pos hrid] at hreg
    rw [get_voltage_read_ok rdev data _ _ _ hreg hread, hops]
    simp only [max77693_safeout_ops, list_voltage_fn.call, and_three,
      Nat.shiftRight_eq_div_pow]
    rw [list_voltage_safeout_decode rdev _ (Nat.mod_lt _ (by decide)) (Or.inr hrid)]
    have e : data.iodev.regmap.content MAX77693_CHG_REG_SAFEOUT_CTRL % 256 / 2 ^ 2 % 4 =
        data.iodev.regmap.content MAX77693_CHG_REG_SAFEOUT_CTRL / 4 % 4 := by omega
    rw [e]
  · intro hrid hops hread
    have hreg := get_voltage_register_charger rdev hrid
    rw [get_voltage_read_ok rdev data _ _ _ hreg hread, hops]
    simp only [max77693_charger_ops, Nat.shiftRight_zero, and_x7f]
    have e : data.iodev.regmap.content MAX77693_CHG_REG_CHG_CNFG_09 % 256 % 128 =
        data.iodev.regmap.content MAX77693_CHG_REG_CHG_CNFG_09 % 128 := by omega
    rw [e]
    have hlt : data.iodev.regmap.content MAX77693_CHG_REG_CHG_CNFG_09 % 128 < 128 :=
      Nat.mod_lt _ (by decide)
    generalize data.iodev.regmap.content MAX77693_CHG_REG_CHG_CNFG_09 % 128 = f at hlt ⊢
    rw [list_voltage_charger rdev hrid f (by omega)]
    by_cases h3 : f ≤ 3
    · simp only [if_pos h3]
      decide
    · simp only [if_neg h3]
      refine ⟨trivial, ?_, ?_⟩ <;> omega


/-- C20, at a failing input: for the request [2580000, 2580000] uA the search
selects the table index 126 and `max77693_set_voltage` passes the code 129 to
the update under mask 0x7f; 129 does not fit in seven bits, the field ends up
holding 1, and `max77693_get_voltage` then reads back 60000 uA. -/
theorem charger_code_exceeds_field :
    (max77693_set_voltage 127 charger_rdev (data_with 0 0) 2580000 2580000).map
        (fun r => (r.1, r.2.iodev.regmap.log,
          r.2.iodev.regmap.content MAX77693_CHG_REG_CHG_CNFG_09)) =
      some (0, [io_event.read MAX77693_CHG_REG_CHG_CNFG_09,
                io_event.update MAX77693_CHG_REG_CHG_CNFG_09 129 0x7f], 1) ∧
    ¬ (129 ≤ 127) ∧
    (max77693_set_voltage 127 charger_rdev (data_with 0 0) 2580000 2580000).map
        (fun r => (max77693_get_voltage charger_rdev r.2).1) = some 60000 := by
  refine ⟨by decide, by decide, by decide⟩

/-- C18, at a failing input: on CHARGER with every register read failing with
-5, `max77693_set_voltage` and `max77693_reg_disable_suspend` each issue their
register update after the failed read. -/
theorem update_issued_after_failed_read :
    (data_with (-5) 0).iodev.regmap.read_result MAX77693_CHG_REG_CHG_CNFG_09 = -5 ∧
    (data_with (-5) 0).iodev.regmap.read_result MAX77693_CHG_REG_CHG_CNFG_00 = -5 ∧
    (max77693_set_voltage 127 charger_rdev (data_with (-5) 0) 100000 100000).map
        (fun r => r.2.iodev.regmap.log) =
      some [io_event.read MAX77693_CHG_REG_CHG_CNFG_09,
            io_event.update MAX77693_CHG_REG_CHG_CNFG_09 5 0x7f] ∧
    (max77693_reg_disable_suspend charger_rdev (data_with (-5) 0)).2.iodev.regmap.log =
      [io_event.read MAX77693_CHG_REG_CHG_CNFG_00,
       io_event.update MAX77693_CHG_REG_CHG_CNFG_00 0 0xf] := by
  exact ⟨by decide, by decide, by decide, by decide⟩

/-- C12 fails as stated: ESAFEOUT1 has an enable triple, and
`max77693_reg_enable_suspend` on it issues no register update at all. -/
theorem enable_suspend_applies_no_triple :
    (∃ reg mask pattern,
      max77693_get_enable_register esafeout1_rdev = .ok (reg, mask, pattern)) ∧
    ¬ (∃ reg val mask, io_event.update reg val mask ∈
        (max77693_reg_enable_suspend esafeout1_rdev (data_with 0 0)).2.iodev.regmap.log) := by
  refine ⟨⟨MAX77693_CHG_REG_SAFEOUT_CTRL, 0x40, 0x40, rfl⟩, ?_⟩
  rintro ⟨reg, val, mask, h⟩
  simp [max77693_reg_enable_suspend, data_with, regmap_with] at h

/-- C12, amended: for every regulator id `max77693_reg_enable_suspend` returns 0
and hands back the driver data as it was; it reads and updates no register. -/
theorem enable_suspend_no_io (rdev : regulator_dev) (data : max77693_data) :
    max77693_reg_enable_suspend rdev data = (0, data) ∧
    io_reads (max77693_reg_enable_suspend rdev data).2.iodev.regmap.log =
      io_reads data.iodev.regmap.log ∧
    io_updates (max77693_reg_enable_suspend rdev data).2.iodev.regmap.log =
      io_updates data.iodev.regmap.log := ⟨rfl, rfl, rfl⟩

/-- C14: `max77693_get_disable_register` yields the register and the mask of
`max77693_get_enable_register` with the pattern 0x00 (and fails where it
fails); a successful disable clears in that register exactly the bits of the
mask and keeps the others. -/
theorem disable_register_matches_enable (rdev : regulator_dev) :
    max77693_get_disable_register rdev =
      (max77693_get_enable_register rdev).map (fun t => (t.1, t.2.1, 0x00)) ∧
    ∀ (data : max77693_data) (reg : max77693_reg) (mask pattern : Nat),
      max77693_get_enable_register rdev = .ok (reg, mask, pattern) →
      data.iodev.regmap.update_result reg = 0 →
      (max77693_reg_disable rdev data).2.iodev.regmap.content reg =
        (data.iodev.regmap.content reg % 256) &&& (255 ^^^ (mask % 256)) := by
  have hfirst : max77693_get_disable_register rdev =
      (max77693_get_enable_register rdev).map (fun t => (t.1, t.2.1, 0x00)) := by
    unfold max77693_get_disable_register max77693_get_enable_register
    simp only []
    split_ifs <;> rfl
  refine ⟨hfirst, ?_⟩
  intro data reg mask pattern hen hup
  have hdis : max77693_get_disable_register rdev = .ok (reg, mask, 0x00) := by
    rw [hfirst, hen]; rfl
  simp [max77693_reg_disable, hdis, max77693_update_reg, hup]


/-- The disable lookup succeeds with pattern 0x00 on the three regulators. -/
theorem get_disable_register_valid (rdev : regulator_dev)
    (h : max77693_get_rid rdev = MAX77693_ESAFEOUT1 ∨
      max77693_get_rid rdev = MAX77693_ESAFEOUT2 ∨
      max77693_get_rid rdev = MAX77693_CHARGER) :
    ∃ reg mask, max77693_get_disable_register rdev = .ok (reg, mask, 0x00) := by
  unfold max77693_get_disable_register
  rcases h with h | h | h <;> rw [h] <;>
    simp [MAX77693_ESAFEOUT1, MAX77693_ESAFEOUT2, MAX77693_CHARGER]

/-- A read does not change the register contents. -/
theorem read_reg_content (rm : regmap) (reg : max77693_reg) (dest : Nat) :
    (max77693_read_reg rm reg dest).2.2.content = rm.content := by
  unfold max77693_read_reg
  split_ifs <;> rfl

/-- What a read leaves in `*dest`. -/
theorem read_reg_dest (rm : regmap) (reg : max77693_reg) (dest : Nat) :
    (max77693_read_reg rm reg dest).2.1 =
      if rm.read_result reg = 0 then rm.content reg % 256 else dest := by
  unfold max77693_read_reg
  split_ifs <;> rfl

/-- What an update leaves in the registers. -/
theorem update_reg_content (rm : regmap) (reg : max77693_reg) (val mask : Nat) :
    (max77693_update_reg rm reg val mask).2.content =
      if rm.update_result reg = 0 then
        Function.update rm.content reg
          (((rm.content reg % 256) &&& (255 ^^^ (mask % 256))) |||
            ((val % 256) &&& (mask % 256)))
      else rm.content := by
  unfold max77693_update_reg
  split_ifs <;> rfl

/-- C13: for every valid regulator id, `max77693_reg_disable_suspend` issues the
same register update (register, mask, pattern) as `max77693_reg_disable`,
preceded by one read of that register, returns the result of the update and
leaves the registers as the disable does; the byte read is stored in
`saved_states[rid]` and no other entry of `saved_states` changes. -/
theorem disable_suspend_refines_disable (rdev : regulator_dev) (data : max77693_data)
    (hvalid : max77693_get_rid rdev = MAX77693_ESAFEOUT1 ∨
      max77693_get_rid rdev = MAX77693_ESAFEOUT2 ∨
      max77693_get_rid rdev = MAX77693_CHARGER)
    (hlen : data.saved_states.length = MAX77693_REG_MAX.toNat) :
    ∃ reg mask pattern, max77693_get_disable_register rdev = .ok (reg, mask, pattern) ∧
      (max77693_reg_disable rdev data).2.iodev.regmap.log =
        data.iodev.regmap.log ++ [io_event.update reg pattern mask] ∧
      (max77693_reg_disable_suspend rdev data).2.iodev.regmap.log =
        data.iodev.regmap.log ++ [io_event.read reg, io_event.update reg pattern mask] ∧
      (max77693_reg_disable_suspend rdev data).1 = data.iodev.regmap.update_result reg ∧
      (max77693_reg_disable_suspend rdev data).1 = (max77693_reg_disable rdev data).1 ∧
      (max77693_reg_disable_suspend rdev data).2.iodev.regmap.content =
        (max77693_reg_disable rdev data).2.iodev.regmap.content ∧
      (data.iodev.regmap.read_result reg = 0 →
        (max77693_reg_disable_suspend rdev data).2.saved_states.getD
            (max77693_get_rid rdev).toNat 0 = data.iodev.regmap.content reg % 256) ∧
      (∀ j, j ≠ (max77693_get_rid rdev).toNat →
        (max77693_reg_disable_suspend rdev data).2.saved_states.getD j 0 =
          data.saved_states.getD j 0) := by
  obtain ⟨reg, mask, hdis⟩ := get_disable_register_valid rdev hvalid
  have hidx : (max77693_get_rid rdev).toNat < data.saved_states.length := by
    rw [hlen]
    rcases hvalid with h | h | h <;> rw [h] <;> decide
  refine ⟨reg, mask, 0x00, hdis, ?_, ?_, ?_, ?_, ?_, ?_, ?_⟩
  · simp only [max77693_reg_disable, hdis, update_reg_log]
  · simp only [max77693_reg_disable_suspend, hdis, update_reg_log, read_reg_log,
      List.append_assoc, List.singleton_append]
  · simp only [max77693_reg_disable_suspend, hdis, update_reg_ret, read_reg_update_result]
  · simp only [max77693_reg_disable_suspend, max77693_reg_disable, hdis, update_reg_ret,
      read_reg_update_result]
  · simp only [max77693_reg_disable_suspend, max77693_reg_disable, hdis, update_reg_content,
      read_reg_update_result, read_reg_content]
  · intro hread
    simp only [max77693_reg_disable_suspend, hdis, read_reg_dest, hread, if_true,
      List.getD_eq_getElem?_getD, List.getElem?_set, hidx]
    rfl
  · intro j hj
    have hne : ¬ ((max77693_get_rid rdev).toNat = j) := fun h => hj h.symm
    simp only [max77693_reg_disable_suspend, hdis, List.getD_eq_getElem?_getD,
      List.getElem?_set, hne, if_false]


/-- Witness for C11: ESAFEOUT2 with the register byte 0x06, bits 3:2 equal to 1. -/
theorem get_voltage_decodes_witness :
    max77693_get_rid esafeout2_rdev = MAX77693_ESAFEOUT2 ∧
    (max77693_get_voltage esafeout2_rdev (data_content 6)).1 = 4900000 :=
  ⟨rfl, (get_voltage_decodes esafeout2_rdev (data_content 6)).2.1 rfl rfl rfl⟩

/-- Witness for C13 on CHARGER with the byte 5 in the registers. -/
theorem disable_suspend_refines_disable_witness :
    ∃ reg mask pattern, max77693_get_disable_register charger_rdev = .ok (reg, mask, pattern) ∧
      (max77693_reg_disable charger_rdev (data_content 5)).2.iodev.regmap.log =
        (data_content 5).iodev.regmap.log ++ [io_event.update reg pattern mask] ∧
      (max77693_reg_disable_suspend charger_rdev (data_content 5)).2.iodev.regmap.log =
        (data_content 5).iodev.regmap.log ++
          [io_event.read reg, io_event.update reg pattern mask] ∧
      (max77693_reg_disable_suspend charger_rdev (data_content 5)).1 =
        (data_content 5).iodev.regmap.update_result reg ∧
      (max77693_reg_disable_suspend charger_rdev (data_content 5)).1 =
        (max77693_reg_disable charger_rdev (data_content 5)).1 ∧
      (max77693_reg_disable_suspend charger_rdev (data_content 5)).2.iodev.regmap.content =
        (max77693_reg_disable charger_rdev (data_content 5)).2.iodev.regmap.content ∧
      ((data_content 5).iodev.regmap.read_result reg = 0 →
        (max77693_reg_disable_suspend charger_rdev (data_content 5)).2.saved_states.getD
            (max77693_get_rid charger_rdev).toNat 0 =
          (data_content 5).iodev.regmap.content reg % 256) ∧
      (∀ j, j ≠ (max77693_get_rid charger_rdev).toNat →
        (max77693_reg_disable_suspend charger_rdev (data_content 5)).2.saved_states.getD j 0 =
          (data_content 5).saved_states.getD j 0) :=
  disable_suspend_refines_disable charger_rdev (data_content 5) (Or.inr (Or.inr rfl)) rfl

/-- Appending a read to a log adds one read and no update. -/
theorem io_counts_read (l : List io_event) (reg : max77693_reg) :
    io_reads (l ++ [io_event.read reg]) = io_reads l + 1 ∧
    io_updates (l ++ [io_event.read reg]) = io_updates l := by
  simp [io_reads, io_updates, List.countP_append, List.countP_cons]

/-- Appending an update to a log adds one update and no read. -/
theorem io_counts_update (l : List io_event) (reg : max77693_reg) (val mask : Nat) :
    io_reads (l ++ [io_event.update reg val mask]) = io_reads l ∧
    io_updates (l ++ [io_event.update reg val mask]) = io_updates l + 1 := by
  simp [io_reads, io_updates, List.countP_append, List.countP_cons]

/-- Every regulator operation issues at most one register read and at most one
register update per call, whatever the id and the outcome of the I/O. -/
theorem io_at_most_once (rdev : regulator_dev) (data : max77693_data) (fuel : Nat)
    (min_uV max_uV : Int) :
    (∀ d, d = (max77693_reg_is_enabled rdev data).2 ∨ d = (max77693_reg_enable rdev data).2 ∨
        d = (max77693_reg_disable rdev data).2 ∨ d = (max77693_get_voltage rdev data).2 ∨
        d = (max77693_set_voltage_safeout rdev data min_uV max_uV).2.1 ∨
        d = (max77693_reg_enable_suspend rdev data).2 ∨
        d = (max77693_reg_disable_suspend rdev data).2 ∨
        (∃ r, max77693_set_voltage fuel rdev data min_uV max_uV = some r ∧ d = r.2) →
      io_reads d.iodev.regmap.log ≤ io_reads data.iodev.regmap.log + 1 ∧
      io_updates d.iodev.regmap.log ≤ io_updates data.iodev.regmap.log + 1) := by
  intro d hd
  rcases hd with h | h | h | h | h | h | h | ⟨r, hr, h⟩
  · subst h
    unfold max77693_reg_is_enabled
    cases max77693_get_enable_register rdev with
    | error e => simp
    | ok t =>
      obtain ⟨reg, mask, pattern⟩ := t
      have hl := read_reg_log data.iodev.regmap reg 0
      have hc := io_counts_read data.iodev.regmap.log reg
      simp only []
      split_ifs <;> simp only [hl, hc] <;> omega
  · subst h
    unfold max77693_reg_enable
    cases max77693_get_enable_register rdev with
    | error e => simp
    | ok t =>
      obtain ⟨reg, mask, pattern⟩ := t
      have hc := io_counts_update data.iodev.regmap.log reg pattern mask
      simp only [update_reg_log, hc]
      omega
  · subst h
    unfold max77693_reg_disable
    cases max77693_get_disable_register rdev with
    | error e => simp
    | ok t =>
      obtain ⟨reg, mask, pattern⟩ := t
      have hc := io_counts_update data.iodev.regmap.log reg pattern mask
      simp only [update_reg_log, hc]
      omega
  · subst h
    unfold max77693_get_voltage
    cases max77693_get_voltage_register rdev with
    | error e => simp
    | ok t =>
      obtain ⟨reg, shift, mask⟩ := t
      have hl := read_reg_log data.iodev.regmap reg 0
      have hc := io_counts_read data.iodev.regmap.log reg
      simp only []
      split_ifs
      · simp only [hl, hc]; omega
      · cases rdev.desc.ops.list_voltage <;> simp only [hl, hc] <;> omega
  · subst h
    unfold max77693_set_voltage_safeout
    cases max77693_get_voltage_register rdev with
    | error e =>
      simp only []
      split_ifs <;> simp
    | ok t =>
      obtain ⟨reg, shift, mask⟩ := t
      simp only []
      split_ifs <;> (simp only [update_reg_log, io_counts_update]; omega)
  · subst h
    simp [max77693_reg_enable_suspend]
  · subst h
    unfold max77693_reg_disable_suspend
    cases max77693_get_disable_register rdev with
    | error e => simp
    | ok t =>
      obtain ⟨reg, mask, pattern⟩ := t
      have hc := io_counts_read data.iodev.regmap.log reg
      have hu := io_counts_update (data.iodev.regmap.log ++ [io_event.read reg]) reg pattern mask
      simp only [update_reg_log, read_reg_log, hu, hc]
      omega
  · subst h
    by_cases hrid : max77693_get_rid rdev = MAX77693_CHARGER
    · unfold max77693_set_voltage at hr
      simp only [hrid, ne_eq, not_true_eq_false, if_false, if_true,
        get_voltage_register_charger rdev hrid] at hr
      split at hr
      · cases hr
      · split_ifs at hr
        · cases hr; simp
        · cases hr
          simp only [update_reg_log, read_reg_log, io_counts_update, io_counts_read]
          omega
    · have hrej : max77693_set_voltage fuel rdev data min_uV max_uV = some (-EINVAL, data) := by
        simp [max77693_set_voltage, hrid]
      rw [hrej] at hr
      cases hr
      simp

/-- C21, at a failing input: for the request [60500, 60900] uA, with
min_uA <= max_uA, the search runs on [60, 60] mA, selects the index 0 and
`max77693_set_voltage` writes its code 3; the selected current, 60000 uA, is
below min_uA. -/
theorem charger_selection_rounds_min_down :
    (60500 : Int) ≤ 60900 ∧
    max77693_get_voltage_proper_val 127 (some charger_current_map_desc)
      (Int.tdiv 60500 1000) (Int.tdiv 60900 1000) = some 0 ∧
    (max77693_set_voltage 127 charger_rdev (data_with 0 0) 60500 60900).map
        (fun r => (r.1, r.2.iodev.regmap.log)) =
      some (0, [io_event.read MAX77693_CHG_REG_CHG_CNFG_09,
                io_event.update MAX77693_CHG_REG_CHG_CNFG_09 3 0x7f]) ∧
    ¬ ((60500 : Int) ≤ 1000 * (60 + 20 * 0)) := by
  exact ⟨by decide, by decide, by decide, by decide⟩

/-- Division by 1000 truncating towards zero, by the sign of the dividend. -/
theorem tdiv_1000_cases (a : Int) :
    (0 ≤ a ∧ Int.tdiv a 1000 = a / 1000) ∨ (a < 0 ∧ Int.tdiv a 1000 = -((-a) / 1000)) := by
  by_cases h : 0 ≤ a
  · exact Or.inl ⟨h, Int.tdiv_eq_ediv h (by decide)⟩
  · right
    refine ⟨by omega, ?_⟩
    have h1 := Int.neg_tdiv (-a) 1000
    rw [Int.neg_neg] at h1
    rw [h1, Int.tdiv_eq_ediv (by omega) (by decide)]

/-- What does hold of a selected index: its current lies in the request taken
in mA with truncation, it is not above max_uA, and it is less than 1000 uA
below min_uA. -/
theorem charger_selection_in_mA_range (fuel : Nat) (min_uA max_uA : Int) (v : Nat)
    (hf : 127 ≤ fuel)
    (hsel : max77693_get_voltage_proper_val fuel (some charger_current_map_desc)
      (Int.tdiv min_uA 1000) (Int.tdiv max_uA 1000) = some (v : Int)) :
    Int.tdiv min_uA 1000 ≤ 60 + 20 * (v : Int) ∧
    60 + 20 * (v : Int) ≤ Int.tdiv max_uA 1000 ∧
    1000 * (60 + 20 * (v : Int)) ≤ max_uA ∧
    min_uA < 1000 * (60 + 20 * (v : Int)) + 1000 := by
  rcases charger_proper_val_spec fuel hf (Int.tdiv min_uA 1000) (Int.tdiv max_uA 1000) with
    ⟨w, -, hw, hlo, hhi, -⟩ | ⟨hrej, -⟩
  · rw [hw] at hsel
    have hvw : (w : Int) = (v : Int) := by simpa using hsel
    rw [← hvw]
    refine ⟨hlo, hhi, ?_, ?_⟩
    · rcases tdiv_1000_cases max_uA with ⟨h0, he⟩ | ⟨h0, he⟩ <;> rw [he] at hhi <;> omega
    · rcases tdiv_1000_cases min_uA with ⟨h0, he⟩ | ⟨h0, he⟩ <;> rw [he] at hlo <;> omega
  · rw [hrej] at hsel
    have : (-EINVAL : Int) = (v : Int) := by simpa using hsel
    simp only [EINVAL] at this
    omega


/-- C22: on the charger map, for all min_vol and max_vol and with fuel for the
127 loop tests, `max77693_get_voltage_proper_val` returns; a result val >= 0
has val <= 126, min_vol <= 60 + 20 * val <= max_vol, and is the smallest index
with 60 + 20 * val >= min_vol; and when the range check passes the loop ends
with a val below 1 << n_bits, so the last check never rejects. -/
theorem proper_val_charger_sound (fuel : Nat) (min_vol max_vol : Int) (hf : 127 ≤ fuel) :
    ∃ r, max77693_get_voltage_proper_val fuel (some charger_current_map_desc)
        min_vol max_vol = some r ∧
      (0 ≤ r →
        r ≤ 126 ∧ min_vol ≤ 60 + 20 * r ∧ 60 + 20 * r ≤ max_vol ∧
        ∀ k : Int, 0 ≤ k → min_vol ≤ 60 + 20 * k → r ≤ k) ∧
      (¬ (max_vol < charger_current_map_desc.min ∨ min_vol > charger_current_map_desc.max) →
        ∃ val, max77693_get_voltage_proper_val_loop charger_current_map_desc min_vol fuel 0 =
            some val ∧
          ¬ (val ≥ ((1 <<< charger_current_map_desc.n_bits : Nat) : Int))) := by
  have hloop : ¬ (max_vol < charger_current_map_desc.min ∨
      min_vol > charger_current_map_desc.max) →
      ∃ val, max77693_get_voltage_proper_val_loop charger_current_map_desc min_vol fuel 0 =
          some val ∧
        ¬ (val ≥ ((1 <<< charger_current_map_desc.n_bits : Nat) : Int)) := by
    intro hr
    simp only [charger_current_map_desc] at hr
    obtain ⟨v, hv, -, hv126, -, -⟩ :=
      charger_loop_spec min_vol (by omega) fuel 0 (by omega) (by omega) (by intro j hj; omega)
    refine ⟨v, hv, ?_⟩
    have : (1 <<< charger_current_map_desc.n_bits : Nat) = 128 := by decide
    rw [this]
    omega
  rcases charger_proper_val_spec fuel hf min_vol max_vol with
    ⟨v, hv126, hsel, hlo, hhi, hsmall⟩ | ⟨hrej, -⟩
  · refine ⟨v, hsel, fun _ => ⟨by omega, hlo, hhi, ?_⟩, hloop⟩
    intro k hk0 hk
    by_contra hlt
    have := hsmall k.toNat (by omega)
    omega
  · refine ⟨-EINVAL, hrej, fun h0 => ?_, hloop⟩
    simp only [EINVAL] at h0
    omega

/-- Witness for C22: the request [101, 500] mA. -/
theorem proper_val_charger_sound_witness :
    127 ≤ 127 ∧
    ∃ r, max77693_get_voltage_proper_val 127 (some charger_current_map_desc) 101 500 =
        some r ∧
      (0 ≤ r →
        r ≤ 126 ∧ (101 : Int) ≤ 60 + 20 * r ∧ 60 + 20 * r ≤ 500 ∧
        ∀ k : Int, 0 ≤ k → (101 : Int) ≤ 60 + 20 * k → r ≤ k) ∧
      (¬ ((500 : Int) < charger_current_map_desc.min ∨
          (101 : Int) > charger_current_map_desc.max) →
        ∃ val, max77693_get_voltage_proper_val_loop charger_current_map_desc 101 127 0 =
            some val ∧
          ¬ (val ≥ ((1 <<< charger_current_map_desc.n_bits : Nat) : Int))) :=
  ⟨le_refl _, proper_val_charger_sound 127 101 500 (le_refl _)⟩

/-- The index at which the SAFEOUT search stops, by the position of the first
table voltage in range. -/
theorem safeout_loop_cases (min_uV max_uV : Int) :
    (max77693_set_voltage_safeout_loop min_uV max_uV max77693_safeoutvolt 0 = 0 ∧
      min_uV ≤ 3300000 ∧ 3300000 ≤ max_uV) ∨
    (max77693_set_voltage_safeout_loop min_uV max_uV max77693_safeoutvolt 0 = 1 ∧
      ¬ (min_uV ≤ 3300000 ∧ 3300000 ≤ max_uV) ∧ min_uV ≤ 4850000 ∧ 4850000 ≤ max_uV) ∨
    (max77693_set_voltage_safeout_loop min_uV max_uV max77693_safeoutvolt 0 = 2 ∧
      ¬ (min_uV ≤ 3300000 ∧ 3300000 ≤ max_uV) ∧ ¬ (min_uV ≤ 4850000 ∧ 4850000 ≤ max_uV) ∧
      min_uV ≤ 4900000 ∧ 4900000 ≤ max_uV) ∨
    (max77693_set_voltage_safeout_loop min_uV max_uV max77693_safeoutvolt 0 = 3 ∧
      ¬ (min_uV ≤ 3300000 ∧ 3300000 ≤ max_uV) ∧ ¬ (min_uV ≤ 4850000 ∧ 4850000 ≤ max_uV) ∧
      ¬ (min_uV ≤ 4900000 ∧ 4900000 ≤ max_uV) ∧ min_uV ≤ 4950000 ∧ 4950000 ≤ max_uV) ∨
    (max77693_set_voltage_safeout_loop min_uV max_uV max77693_safeoutvolt 0 = 4) := by
  simp only [max77693_safeoutvolt, max77693_set_voltage_safeout_loop]
  split_ifs <;> simp <;> omega


/-- The four entries of the SAFEOUT selector table. -/
theorem list_voltage_safeout_values (rdev : regulator_dev)
    (h : max77693_get_rid rdev = MAX77693_ESAFEOUT1 ∨
      max77693_get_rid rdev = MAX77693_ESAFEOUT2) :
    max77693_list_voltage_safeout rdev 0 = 4850000 ∧
    max77693_list_voltage_safeout rdev 1 = 4900000 ∧
    max77693_list_voltage_safeout rdev 2 = 4950000 ∧
    max77693_list_voltage_safeout rdev 3 = 3300000 := by
  refine ⟨?_, ?_, ?_, ?_⟩ <;> rw [list_voltage_safeout_decode rdev _ (by decide) h] <;> rfl

/-- When the SAFEOUT search stops at the table index `i < 4`, the function
issues one update of the voltage field with the selector of that index, and a
selector it reports is that one. -/
theorem set_voltage_safeout_at (rdev : regulator_dev) (data : max77693_data)
    (min_uV max_uV : Int) (i val : Nat) (hi : i < 4)
    (hval : (if i = 0 then 0x3 else i - 1) = val)
    (h : max77693_get_rid rdev = MAX77693_ESAFEOUT1 ∨
      max77693_get_rid rdev = MAX77693_ESAFEOUT2)
    (hloop : max77693_set_voltage_safeout_loop min_uV max_uV max77693_safeoutvolt 0 = i) :
    (max77693_set_voltage_safeout rdev data min_uV max_uV).2.1.iodev.regmap.log =
      data.iodev.regmap.log ++
        [io_event.update MAX77693_CHG_REG_SAFEOUT_CTRL
          (val <<< (if max77693_get_rid rdev = MAX77693_ESAFEOUT2 then 2 else 0))
          (0x3 <<< (if max77693_get_rid rdev = MAX77693_ESAFEOUT2 then 2 else 0))] ∧
    ∀ s, (max77693_set_voltage_safeout rdev data min_uV max_uV).2.2 = some s → s = val := by
  have hrid : ¬ (max77693_get_rid rdev ≠ MAX77693_ESAFEOUT1 ∧
      max77693_get_rid rdev ≠ MAX77693_ESAFEOUT2) := by tauto
  have hlen : ¬ (i ≥ max77693_safeoutvolt.length) := by
    simp only [max77693_safeoutvolt, List.length_cons, List.length_nil]
    omega
  unfold max77693_set_voltage_safeout
  simp only [hrid, if_false, hloop, hlen, get_voltage_register_safeout rdev h, hval]
  refine ⟨?_, ?_⟩
  · split_ifs <;> simp only [update_reg_log]
  · intro s hs
    split_ifs at hs <;> simp at hs <;> exact hs.symm

/-- C23: for ESAFEOUT1 and ESAFEOUT2 and every (min_uV, max_uV) for which
`max77693_set_voltage_safeout` reports a selector s, the voltage
`max77693_list_voltage_safeout` gives for s is one of the four supported
voltages, lies in [min_uV, max_uV] and is the smallest such; the update issued
writes s << shift under the mask 0x3 << shift. -/
theorem set_voltage_safeout_selects_smallest (rdev : regulator_dev) (data : max77693_data)
    (min_uV max_uV : Int) (s : Nat)
    (h : max77693_get_rid rdev = MAX77693_ESAFEOUT1 ∨
      max77693_get_rid rdev = MAX77693_ESAFEOUT2)
    (hok : (max77693_set_voltage_safeout rdev data min_uV max_uV).2.2 = some s) :
    max77693_list_voltage_safeout rdev s ∈ max77693_safeoutvolt ∧
    min_uV ≤ max77693_list_voltage_safeout rdev s ∧
    max77693_list_voltage_safeout rdev s ≤ max_uV ∧
    (∀ w ∈ max77693_safeoutvolt, min_uV ≤ w → w ≤ max_uV →
      max77693_list_voltage_safeout rdev s ≤ w) ∧
    (max77693_set_voltage_safeout rdev data min_uV max_uV).2.1.iodev.regmap.log =
      data.iodev.regmap.log ++
        [io_event.update MAX77693_CHG_REG_SAFEOUT_CTRL
          (s <<< (if max77693_get_rid rdev = MAX77693_ESAFEOUT2 then 2 else 0))
          (0x3 <<< (if max77693_get_rid rdev = MAX77693_ESAFEOUT2 then 2 else 0))] := by
  obtain ⟨v0, v1, v2, v3⟩ := list_voltage_safeout_values rdev h
  rcases safeout_loop_cases min_uV max_uV with
    ⟨hi, c⟩ | ⟨hi, c⟩ | ⟨hi, c⟩ | ⟨hi, c⟩ | hi
  · obtain ⟨hlog, hsel⟩ :=
      set_voltage_safeout_at rdev data min_uV max_uV 0 3 (by decide) rfl h hi
    have hs : s = 3 := hsel s hok
    subst hs
    rw [hlog, v3]
    refine ⟨by decide, by omega, by omega, ?_, rfl⟩
    intro w hw h1 h2
    simp only [max77693_safeoutvolt, List.mem_cons, List.mem_nil_iff, or_false] at hw
    omega
  · obtain ⟨hlog, hsel⟩ :=
      set_voltage_safeout_at rdev data min_uV max_uV 1 0 (by decide) rfl h hi
    have hs : s = 0 := hsel s hok
    subst hs
    rw [hlog, v0]
    refine ⟨by decide, by omega, by omega, ?_, rfl⟩
    intro w hw h1 h2
    simp only [max77693_safeoutvolt, List.mem_cons, List.mem_nil_iff, or_false] at hw
    omega
  · obtain ⟨hlog, hsel⟩ :=
      set_voltage_safeout_at rdev data min_uV max_uV 2 1 (by decide) rfl h hi
    have hs : s = 1 := hsel s hok
    subst hs
    rw [hlog, v1]
    refine ⟨by decide, by omega, by omega, ?_, rfl⟩
    intro w hw h1 h2
    simp only [max77693_safeoutvolt, List.mem_cons, List.mem_nil_iff, or_false] at hw
    omega
  · obtain ⟨hlog, hsel⟩ :=
      set_voltage_safeout_at rdev data min_uV max_uV 3 2 (by decide) rfl h hi
    have hs : s = 2 := hsel s hok
    subst hs
    rw [hlog, v2]
    refine ⟨by decide, by omega, by omega, ?_, rfl⟩
    intro w hw h1 h2
    simp only [max77693_safeoutvolt, List.mem_cons, List.mem_nil_iff, or_false] at hw
    omega
  · exfalso
    have hfull : max77693_set_voltage_safeout_loop min_uV max_uV max77693_safeoutvolt 0 ≥
        max77693_safeoutvolt.length := by
      rw [hi]; decide
    have hrid : ¬ (max77693_get_rid rdev ≠ MAX77693_ESAFEOUT1 ∧
        max77693_get_rid rdev ≠ MAX77693_ESAFEOUT2) := by tauto
    unfold max77693_set_voltage_safeout at hok
    simp [hrid, hfull] at hok

/-- A byte has no bit at position 8 or above. -/
theorem byte_testBit_ge (c i : Nat) (hc : c < 256) (hi : 8 ≤ i) : c.testBit i = false := by
  apply Nat.testBit_lt_two_pow
  calc c < 2 ^ 8 := hc
    _ ≤ 2 ^ i := Nat.pow_le_pow_right (by decide) hi

/-- The bits of 255 are the eight low ones. -/
theorem testBit_255 (i : Nat) : (255 : Nat).testBit i = decide (i < 8) :=
  Nat.testBit_two_pow_sub_one 8 i

/-- The masked update of a byte keeps every bit outside the mask. -/
theorem masked_update_frame (c v m m' : Nat) (hc : c < 256) (hdisj : m &&& m' = 0) :
    ((c &&& (255 ^^^ m)) ||| (v &&& m)) &&& m' = c &&& m' := by
  apply Nat.eq_of_testBit_eq
  intro i
  have hd : (m &&& m').testBit i = false := by rw [hdisj]; simp
  rw [Nat.testBit_and] at hd
  simp only [Nat.testBit_and, Nat.testBit_or, Nat.testBit_xor, testBit_255]
  by_cases hi : i < 8
  · simp only [hi, decide_True]
    cases hm : m.testBit i <;> cases hm' : m'.testBit i <;> simp_all
  · have := byte_testBit_ge c i hc (by omega)
    simp only [hi, decide_False, this]
    cases hm : m.testBit i <;> cases hm' : m'.testBit i <;> simp_all

/-- The masked update of a byte sets the bits of the mask to those of the value. -/
theorem masked_update_own (c v m : Nat) (hm : m < 256) :
    ((c &&& (255 ^^^ m)) ||| (v &&& m)) &&& m = v &&& m := by
  apply Nat.eq_of_testBit_eq
  intro i
  simp only [Nat.testBit_and, Nat.testBit_or, Nat.testBit_xor, testBit_255]
  by_cases hi : i < 8
  · simp only [hi, decide_True]
    cases m.testBit i <;> cases c.testBit i <;> cases v.testBit i <;> rfl
  · have := byte_testBit_ge m i hm (by omega)
    simp [this]

/-- The byte written by the update is a byte. -/
theorem updated_byte_lt (c v m : Nat) :
    ((c % 256) &&& (255 ^^^ (m % 256))) ||| ((v % 256) &&& (m % 256)) < 256 := by
  have h1 : (c % 256) &&& (255 ^^^ (m % 256)) < 2 ^ 8 :=
    lt_of_le_of_lt Nat.and_le_left (Nat.mod_lt _ (by decide))
  have h2 : (v % 256) &&& (m % 256) < 2 ^ 8 :=
    lt_of_le_of_lt Nat.and_le_left (Nat.mod_lt _ (by decide))
  exact Nat.or_lt_two_pow h1 h2

/-- An update does not change the outcome of later reads. -/
theorem update_reg_read_result (rm : regmap) (reg : max77693_reg) (val mask : Nat) :
    (max77693_update_reg rm reg val mask).2.read_result = rm.read_result := by
  unfold max77693_update_reg
  split_ifs <;> rfl

/-- After a successful update the bits of the mask are those of the value. -/
theorem update_reg_own_bits (rm : regmap) (reg : max77693_reg) (val mask : Nat)
    (hup : rm.update_result reg = 0) :
    (max77693_update_reg rm reg val mask).2.content reg % 256 &&& (mask % 256) =
      (val % 256) &&& (mask % 256) := by
  rw [update_reg_content, if_pos hup, Function.update_same,
    Nat.mod_eq_of_lt (updated_byte_lt _ _ _)]
  exact masked_update_own _ _ _ (Nat.mod_lt _ (by decide))

/-- An update leaves the other registers, and in its register the bits outside
the mask, as they were. -/
theorem update_reg_frame (rm : regmap) (reg : max77693_reg) (val mask : Nat) :
    (∀ other, other ≠ reg →
      (max77693_update_reg rm reg val mask).2.content other = rm.content other) ∧
    (∀ m, (mask % 256) &&& m = 0 →
      (max77693_update_reg rm reg val mask).2.content reg % 256 &&& m =
        rm.content reg % 256 &&& m) := by
  rw [update_reg_content]
  split_ifs with hup
  · refine ⟨fun other hne => Function.update_noteq hne _ _, fun m hm => ?_⟩
    rw [Function.update_same, Nat.mod_eq_of_lt (updated_byte_lt _ _ _)]
    exact masked_update_frame _ _ _ _ (Nat.mod_lt _ (by decide)) hm
  · exact ⟨fun _ _ => rfl, fun _ _ => rfl⟩

/-- What `max77693_reg_is_enabled` returns, from the register content. -/
theorem is_enabled_value (rdev : regulator_dev) (data : max77693_data)
    (reg : max77693_reg) (mask pattern : Nat)
    (hen : max77693_get_enable_register rdev = .ok (reg, mask, pattern)) :
    (max77693_reg_is_enabled rdev data).1 =
      if data.iodev.regmap.read_result reg = 0 then
        (if data.iodev.regmap.content reg % 256 &&& mask = pattern then 1 else 0)
      else data.iodev.regmap.read_result reg := by
  unfold max77693_reg_is_enabled
  simp only [hen, max77693_read_reg]
  split_ifs <;> simp_all

/-- What `max77693_get_voltage` returns, from the register content. -/
theorem get_voltage_value (rdev : regulator_dev) (data : max77693_data)
    (reg : max77693_reg) (shift mask : Nat)
    (hreg : max77693_get_voltage_register rdev = .ok (reg, shift, mask)) :
    (max77693_get_voltage rdev data).1 =
      if data.iodev.regmap.read_result reg = 0 then
        (match rdev.desc.ops.list_voltage with
         | some f => f.call rdev (((data.iodev.regmap.content reg % 256) >>> shift) &&& mask)
         | none =>
           max77693_list_voltage rdev
             (((data.iodev.regmap.content reg % 256) >>> shift) &&& mask))
      else data.iodev.regmap.read_result reg := by
  by_cases hread : data.iodev.regmap.read_result reg = 0
  · rw [if_pos hread]
    exact get_voltage_read_ok rdev data reg shift mask hreg hread
  · rw [if_neg hread]
    unfold max77693_get_voltage
    simp only [hreg, max77693_read_reg, hread, if_false, ne_eq, not_false_eq_true, if_true]


/-- The enable and disable triples of the three regulators share register and
mask, and the enable pattern is a non-empty part of the mask. -/
theorem get_enable_register_valid (rdev : regulator_dev)
    (h : max77693_get_rid rdev = MAX77693_ESAFEOUT1 ∨
      max77693_get_rid rdev = MAX77693_ESAFEOUT2 ∨
      max77693_get_rid rdev = MAX77693_CHARGER) :
    ∃ reg mask pattern,
      max77693_get_enable_register rdev = .ok (reg, mask, pattern) ∧
      max77693_get_disable_register rdev = .ok (reg, mask, 0x00) ∧
      mask < 256 ∧ pattern < 256 ∧ pattern &&& mask = pattern ∧ pattern ≠ 0 := by
  rcases h with h | h | h
  · refine ⟨MAX77693_CHG_REG_SAFEOUT_CTRL, 0x40, 0x40, ?_, ?_, by decide, by decide,
      by decide, by decide⟩
    · simp [max77693_get_enable_register, h, MAX77693_ESAFEOUT1, MAX77693_ESAFEOUT2]
    · simp [max77693_get_disable_register, h, MAX77693_ESAFEOUT1, MAX77693_ESAFEOUT2]
  · refine ⟨MAX77693_CHG_REG_SAFEOUT_CTRL, 0x80, 0x80, ?_, ?_, by decide, by decide,
      by decide, by decide⟩
    · simp [max77693_get_enable_register, h, MAX77693_ESAFEOUT1, MAX77693_ESAFEOUT2]
    · simp [max77693_get_disable_register, h, MAX77693_ESAFEOUT1, MAX77693_ESAFEOUT2]
  · refine ⟨MAX77693_CHG_REG_CHG_CNFG_00, 0xf, 0x5, ?_, ?_, by decide, by decide,
      by decide, by decide⟩
    · simp [max77693_get_enable_register, h, MAX77693_ESAFEOUT1, MAX77693_ESAFEOUT2,
        MAX77693_CHARGER]
    · simp [max77693_get_disable_register, h, MAX77693_ESAFEOUT1, MAX77693_ESAFEOUT2,
        MAX77693_CHARGER]


/-- C24: with the register update modelled as new = (old & ~mask) | (value &
mask), for each of the three regulators and every initial register content,
when the update and the following read succeed, is-enabled returns 1 after
enable and 0 after disable. -/
theorem enable_disable_observed (rdev : regulator_dev) (data : max77693_data)
    (hvalid : max77693_get_rid rdev = MAX77693_ESAFEOUT1 ∨
      max77693_get_rid rdev = MAX77693_ESAFEOUT2 ∨
      max77693_get_rid rdev = MAX77693_CHARGER) :
    ∃ reg mask pattern, max77693_get_enable_register rdev = .ok (reg, mask, pattern) ∧
      (data.iodev.regmap.update_result reg = 0 → data.iodev.regmap.read_result reg = 0 →
        (max77693_reg_enable rdev data).1 = 0 ∧
        (max77693_reg_enable rdev data).2.iodev.regmap.content reg =
          ((data.iodev.regmap.content reg % 256) &&& (255 ^^^ (mask % 256))) |||
            ((pattern % 256) &&& (mask % 256)) ∧
        (max77693_reg_is_enabled rdev (max77693_reg_enable rdev data).2).1 = 1 ∧
        (max77693_reg_disable rdev data).1 = 0 ∧
        (max77693_reg_disable rdev data).2.iodev.regmap.content reg =
          ((data.iodev.regmap.content reg % 256) &&& (255 ^^^ (mask % 256))) |||
            ((0x00 % 256) &&& (mask % 256)) ∧
        (max77693_reg_is_enabled rdev (max77693_reg_disable rdev data).2).1 = 0) := by
  obtain ⟨reg, mask, pattern, hen, hdis, hm, hp, hpm, hp0⟩ := get_enable_register_valid rdev hvalid
  refine ⟨reg, mask, pattern, hen, fun hup hrd => ?_⟩
  have hmm : mask % 256 = mask := Nat.mod_eq_of_lt hm
  have hpp : pattern % 256 = pattern := Nat.mod_eq_of_lt hp
  have hE : max77693_reg_enable rdev data =
      ((max77693_update_reg data.iodev.regmap reg pattern mask).1,
        { data with iodev := { regmap := (max77693_update_reg data.iodev.regmap reg pattern mask).2 } }) := by
    simp only [max77693_reg_enable, hen]
  have hD : max77693_reg_disable rdev data =
      ((max77693_update_reg data.iodev.regmap reg 0x00 mask).1,
        { data with iodev := { regmap := (max77693_update_reg data.iodev.regmap reg 0x00 mask).2 } }) := by
    simp only [max77693_reg_disable, hdis]
  refine ⟨?_, ?_, ?_, ?_, ?_, ?_⟩
  · rw [hE]; simp only [update_reg_ret, hup]
  · rw [hE]; simp only [update_reg_content, hup, if_true, Function.update_same]
  · rw [is_enabled_value rdev _ reg mask pattern hen, hE]
    simp only [update_reg_read_result, hrd, if_true]
    have := update_reg_own_bits data.iodev.regmap reg pattern mask hup
    rw [hmm, hpp, hpm] at this
    rw [this, if_pos rfl]
  · rw [hD]; simp only [update_reg_ret, hup]
  · rw [hD]; simp only [update_reg_content, hup, if_true, Function.update_same]
  · rw [is_enabled_value rdev _ reg mask pattern hen, hD]
    simp only [update_reg_read_result, hrd, if_true]
    have := update_reg_own_bits data.iodev.regmap reg 0x00 mask hup
    rw [hmm] at this
    simp only [Nat.zero_mod, Nat.zero_and] at this
    rw [this, if_neg (fun h => hp0 h.symm)]


/-- A two-bit field read by shifting is the field read by masking, shifted. -/
theorem field_of_masked (x s : Nat) : (x >>> s) &&& 3 = (x &&& (3 <<< s)) >>> s := by
  apply Nat.eq_of_testBit_eq
  intro i
  simp only [Nat.testBit_and, Nat.testBit_shiftRight, Nat.testBit_shiftLeft]
  have h1 : decide (s + i ≥ s) = true := by simp
  have h2 : s + i - s = i := by omega
  rw [h1, h2]
  simp

/-- The enable and disable triples of the two SAFEOUT regulators. -/
theorem safeout_enable_triple (rdev : regulator_dev)
    (h : max77693_get_rid rdev = MAX77693_ESAFEOUT1 ∨
      max77693_get_rid rdev = MAX77693_ESAFEOUT2) :
    max77693_get_enable_register rdev =
      .ok (MAX77693_CHG_REG_SAFEOUT_CTRL,
           (if max77693_get_rid rdev = MAX77693_ESAFEOUT2 then 0x80 else 0x40),
           (if max77693_get_rid rdev = MAX77693_ESAFEOUT2 then 0x80 else 0x40)) ∧
    max77693_get_disable_register rdev =
      .ok (MAX77693_CHG_REG_SAFEOUT_CTRL,
           (if max77693_get_rid rdev = MAX77693_ESAFEOUT2 then 0x80 else 0x40), 0x00) := by
  rcases h with h | h <;>
    simp [max77693_get_enable_register, max77693_get_disable_register, h,
      MAX77693_ESAFEOUT1, MAX77693_ESAFEOUT2]

/-- On a SAFEOUT regulator, is-enabled depends on the register only through the
enable bit and get-voltage only through the voltage field. -/
theorem observations_of_frame (b : regulator_dev) (d1 d2 : max77693_data)
    (hb : max77693_get_rid b = MAX77693_ESAFEOUT1 ∨ max77693_get_rid b = MAX77693_ESAFEOUT2)
    (hr : d2.iodev.regmap.read_result = d1.iodev.regmap.read_result) :
    (d2.iodev.regmap.content MAX77693_CHG_REG_SAFEOUT_CTRL % 256 &&&
          (if max77693_get_rid b = MAX77693_ESAFEOUT2 then 0x80 else 0x40) =
        d1.iodev.regmap.content MAX77693_CHG_REG_SAFEOUT_CTRL % 256 &&&
          (if max77693_get_rid b = MAX77693_ESAFEOUT2 then 0x80 else 0x40) →
      (max77693_reg_is_enabled b d2).1 = (max77693_reg_is_enabled b d1).1) ∧
    (d2.iodev.regmap.content MAX77693_CHG_REG_SAFEOUT_CTRL % 256 &&&
          (0x3 <<< (if max77693_get_rid b = MAX77693_ESAFEOUT2 then 2 else 0)) =
        d1.iodev.regmap.content MAX77693_CHG_REG_SAFEOUT_CTRL % 256 &&&
          (0x3 <<< (if max77693_get_rid b = MAX77693_ESAFEOUT2 then 2 else 0)) →
      (max77693_get_voltage b d2).1 = (max77693_get_voltage b d1).1) := by
  refine ⟨fun hc => ?_, fun hc => ?_⟩
  · rw [is_enabled_value b d2 _ _ _ (safeout_enable_triple b hb).1,
      is_enabled_value b d1 _ _ _ (safeout_enable_triple b hb).1, hr, hc]
  · rw [get_voltage_value b d2 _ _ _ (get_voltage_register_safeout b hb),
      get_voltage_value b d1 _ _ _ (get_voltage_register_safeout b hb), hr,
      field_of_masked, field_of_masked, hc]

/-- After an update of SAFEOUT_CTRL the bits outside its mask read as before. -/
theorem after_update_frame (data : max77693_data) (val mask m : Nat)
    (hm : (mask % 256) &&& m = 0) :
    ({ data with iodev := { regmap :=
        (max77693_update_reg data.iodev.regmap MAX77693_CHG_REG_SAFEOUT_CTRL val mask).2 } }
        : max77693_data).iodev.regmap.read_result = data.iodev.regmap.read_result ∧
    ({ data with iodev := { regmap :=
        (max77693_update_reg data.iodev.regmap MAX77693_CHG_REG_SAFEOUT_CTRL val mask).2 } }
        : max77693_data).iodev.regmap.content MAX77693_CHG_REG_SAFEOUT_CTRL % 256 &&& m =
      data.iodev.regmap.content MAX77693_CHG_REG_SAFEOUT_CTRL % 256 &&& m :=
  ⟨update_reg_read_result _ _ _ _, (update_reg_frame _ _ _ _).2 m hm⟩

/-- The driver data after `max77693_set_voltage_safeout`: untouched, or after
one update of the voltage field. -/
theorem set_voltage_safeout_data (rdev : regulator_dev) (data : max77693_data)
    (min_uV max_uV : Int)
    (h : max77693_get_rid rdev = MAX77693_ESAFEOUT1 ∨
      max77693_get_rid rdev = MAX77693_ESAFEOUT2) :
    (max77693_set_voltage_safeout rdev data min_uV max_uV).2.1 = data ∨
    ∃ val, (max77693_set_voltage_safeout rdev data min_uV max_uV).2.1 =
      { data with iodev := { regmap :=
          (max77693_update_reg data.iodev.regmap MAX77693_CHG_REG_SAFEOUT_CTRL
            (val <<< (if max77693_get_rid rdev = MAX77693_ESAFEOUT2 then 2 else 0))
            (0x3 <<< (if max77693_get_rid rdev = MAX77693_ESAFEOUT2 then 2 else 0))).2 } } := by
  have hrid : ¬ (max77693_get_rid rdev ≠ MAX77693_ESAFEOUT1 ∧
      max77693_get_rid rdev ≠ MAX77693_ESAFEOUT2) := by tauto
  unfold max77693_set_voltage_safeout
  simp only [hrid, if_false, get_voltage_register_safeout rdev h]
  by_cases hfull : max77693_set_voltage_safeout_loop min_uV max_uV max77693_safeoutvolt 0 ≥
      max77693_safeoutvolt.length
  · left
    rw [if_pos hfull]
  · right
    rw [if_neg hfull]
    refine ⟨if max77693_set_voltage_safeout_loop min_uV max_uV max77693_safeoutvolt 0 = 0
      then 0x3
      else max77693_set_voltage_safeout_loop min_uV max_uV max77693_safeoutvolt 0 - 1, ?_⟩
    split_ifs <;> rfl


/-- The enable bit of one SAFEOUT regulator is disjoint from both voltage
fields, and from the enable bit of the other; likewise for the voltage fields. -/
theorem safeout_masks_disjoint (ra rb : Int)
    (ha : ra = MAX77693_ESAFEOUT1 ∨ ra = MAX77693_ESAFEOUT2)
    (hb : rb = MAX77693_ESAFEOUT1 ∨ rb = MAX77693_ESAFEOUT2) :
    ((if ra = MAX77693_ESAFEOUT2 then 0x80 else 0x40) % 256 &&&
        (0x3 <<< (if rb = MAX77693_ESAFEOUT2 then 2 else 0)) = 0) ∧
    ((0x3 <<< (if ra = MAX77693_ESAFEOUT2 then 2 else 0)) % 256 &&&
        (if rb = MAX77693_ESAFEOUT2 then 0x80 else 0x40) = 0) ∧
    (ra ≠ rb →
      ((if ra = MAX77693_ESAFEOUT2 then 0x80 else 0x40) % 256 &&&
          (if rb = MAX77693_ESAFEOUT2 then 0x80 else 0x40) = 0) ∧
      ((0x3 <<< (if ra = MAX77693_ESAFEOUT2 then 2 else 0)) % 256 &&&
          (0x3 <<< (if rb = MAX77693_ESAFEOUT2 then 2 else 0)) = 0)) := by
  rcases ha with ha | ha <;> rcases hb with hb | hb <;> subst ha <;> subst hb <;>
    refine ⟨by decide, by decide, fun hne => ?_⟩
  · exact absurd rfl hne
  · exact ⟨by decide, by decide⟩
  · exact ⟨by decide, by decide⟩
  · exact absurd rfl hne

/-- C25: the four fields of CHG_REG_SAFEOUT_CTRL (enable bits 0x40 and 0x80,
voltage fields 0x03 and 0x0c, as the lookups give them) are pairwise disjoint,
and with the update modelled as new = (old & ~mask) | (value & mask): enable
and disable of a SAFEOUT regulator leave get-voltage of both unchanged,
set-voltage leaves is-enabled of both unchanged, and each of the three leaves
the same field of the other regulator unchanged. -/
theorem safeout_fields_frame (a b : regulator_dev) (data : max77693_data)
    (min_uV max_uV : Int)
    (ha : max77693_get_rid a = MAX77693_ESAFEOUT1 ∨ max77693_get_rid a = MAX77693_ESAFEOUT2)
    (hb : max77693_get_rid b = MAX77693_ESAFEOUT1 ∨ max77693_get_rid b = MAX77693_ESAFEOUT2) :
    (max77693_get_enable_register esafeout1_rdev =
        .ok (MAX77693_CHG_REG_SAFEOUT_CTRL, 0x40, 0x40) ∧
      max77693_get_enable_register esafeout2_rdev =
        .ok (MAX77693_CHG_REG_SAFEOUT_CTRL, 0x80, 0x80) ∧
      max77693_get_voltage_register esafeout1_rdev =
        .ok (MAX77693_CHG_REG_SAFEOUT_CTRL, 0, 0x3) ∧
      max77693_get_voltage_register esafeout2_rdev =
        .ok (MAX77693_CHG_REG_SAFEOUT_CTRL, 2, 0x3) ∧
      List.Pairwise (fun x y => x &&& y = 0) [0x40, 0x80, 0x3 <<< 0, 0x3 <<< 2]) ∧
    (max77693_get_voltage b (max77693_reg_enable a data).2).1 =
      (max77693_get_voltage b data).1 ∧
    (max77693_get_voltage b (max77693_reg_disable a data).2).1 =
      (max77693_get_voltage b data).1 ∧
    (max77693_reg_is_enabled b (max77693_set_voltage_safeout a data min_uV max_uV).2.1).1 =
      (max77693_reg_is_enabled b data).1 ∧
    (max77693_get_rid a ≠ max77693_get_rid b →
      (max77693_reg_is_enabled b (max77693_reg_enable a data).2).1 =
        (max77693_reg_is_enabled b data).1 ∧
      (max77693_reg_is_enabled b (max77693_reg_disable a data).2).1 =
        (max77693_reg_is_enabled b data).1 ∧
      (max77693_get_voltage b (max77693_set_voltage_safeout a data min_uV max_uV).2.1).1 =
        (max77693_get_voltage b data).1) := by
  obtain ⟨hen, hdis⟩ := safeout_enable_triple a ha
  obtain ⟨hmv, hvm, hne⟩ := safeout_masks_disjoint _ _ ha hb
  have hE : max77693_reg_enable a data =
      ((max77693_update_reg data.iodev.regmap MAX77693_CHG_REG_SAFEOUT_CTRL
          (if max77693_get_rid a = MAX77693_ESAFEOUT2 then 0x80 else 0x40)
          (if max77693_get_rid a = MAX77693_ESAFEOUT2 then 0x80 else 0x40)).1,
        { data with iodev := { regmap :=
          (max77693_update_reg data.iodev.regmap MAX77693_CHG_REG_SAFEOUT_CTRL
            (if max77693_get_rid a = MAX77693_ESAFEOUT2 then 0x80 else 0x40)
            (if max77693_get_rid a = MAX77693_ESAFEOUT2 then 0x80 else 0x40)).2 } }) := by
    simp only [max77693_reg_enable, hen]
  have hD : max77693_reg_disable a data =
      ((max77693_update_reg data.iodev.regmap MAX77693_CHG_REG_SAFEOUT_CTRL 0x00
          (if max77693_get_rid a = MAX77693_ESAFEOUT2 then 0x80 else 0x40)).1,
        { data with iodev := { regmap :=
          (max77693_update_reg data.iodev.regmap MAX77693_CHG_REG_SAFEOUT_CTRL 0x00
            (if max77693_get_rid a = MAX77693_ESAFEOUT2 then 0x80 else 0x40)).2 } }) := by
    simp only [max77693_reg_disable, hdis]
  refine ⟨⟨rfl, rfl, rfl, rfl, by decide⟩, ?_, ?_, ?_, fun hab => ⟨?_, ?_, ?_⟩⟩
  · rw [hE]
    obtain ⟨h1, h2⟩ := after_update_frame data _ _ _ hmv
    exact (observations_of_frame b data _ hb h1).2 h2
  · rw [hD]
    obtain ⟨h1, h2⟩ := after_update_frame data _ _ _ hmv
    exact (observations_of_frame b data _ hb h1).2 h2
  · rcases set_voltage_safeout_data a data min_uV max_uV ha with h | ⟨val, h⟩
    · rw [h]
    · rw [h]
      obtain ⟨h1, h2⟩ := after_update_frame data _ _ _ hvm
      exact (observations_of_frame b data _ hb h1).1 h2
  · rw [hE]
    obtain ⟨h1, h2⟩ := after_update_frame data _ _ _ (hne hab).1
    exact (observations_of_frame b data _ hb h1).1 h2
  · rw [hD]
    obtain ⟨h1, h2⟩ := after_update_frame data _ _ _ (hne hab).1
    exact (observations_of_frame b data _ hb h1).1 h2
  · rcases set_voltage_safeout_data a data min_uV max_uV ha with h | ⟨val, h⟩
    · rw [h]
    · rw [h]
      obtain ⟨h1, h2⟩ := after_update_frame data _ _ _ (hne hab).2
      exact (observations_of_frame b data _ hb h1).2 h2


/-- On `wide_map_desc` with min_vol = INT_MAX the loop condition holds at every
val, so no amount of fuel ends the loop. -/
theorem wide_loop_runs_on (fuel : Nat) :
    ∀ val : Int, max77693_get_voltage_proper_val_loop wide_map_desc 2147483647 fuel val = none := by
  induction fuel with
  | zero => intro val; rfl
  | succ fuel ih =>
    intro val
    unfold max77693_get_voltage_proper_val_loop
    have hc : int32 (wide_map_desc.min + int32 (wide_map_desc.step * val)) < 2147483647 := by
      simp only [wide_map_desc, int32]
      omega
    have hc2 : int32 (wide_map_desc.min + int32 (wide_map_desc.step * val)) <
        wide_map_desc.max := hc
    rw [if_pos ⟨hc, hc2⟩]
    exact ih _

/-- C26 fails as stated: `wide_map_desc` has step > 0 and min <= max, the
request [INT_MAX, INT_MAX] passes the range check and the bound
ceil((max - min) / step) is 2, yet the loop, whose product `step * val` wraps
at val = 2, is still running after 3 tests and after any number of them. -/
theorem wide_map_loop_never_stops :
    0 < wide_map_desc.step ∧ wide_map_desc.min ≤ wide_map_desc.max ∧
    ¬ ((2147483647 : Int) < wide_map_desc.min ∨ (2147483647 : Int) > wide_map_desc.max) ∧
    (wide_map_desc.max - wide_map_desc.min + wide_map_desc.step - 1) / wide_map_desc.step = 2 ∧
    max77693_get_voltage_proper_val_loop wide_map_desc 2147483647 3 0 = none ∧
    ¬ ∃ fuel val,
      max77693_get_voltage_proper_val_loop wide_map_desc 2147483647 fuel 0 = some val := by
  refine ⟨by decide, by decide, by decide, by decide, wide_loop_runs_on 3 0, ?_⟩
  rintro ⟨fuel, val, h⟩
  rw [wide_loop_runs_on fuel 0] at h
  cases h

/-- The search loop entered at index `n` not above the bound, on a descriptor
whose table stays inside `int`: it stops at an index not above the bound. -/
theorem proper_val_loop_bounded (desc : voltage_map_desc) (min_vol : Int)
    (hstep : 0 < desc.step)
    (hmin : -2147483648 ≤ desc.min) (hmax : desc.max + desc.step ≤ 2147483647)
    (hspan : desc.max - desc.min + desc.step ≤ 2147483647) :
    ∀ (fuel n : Nat),
      (n : Int) ≤ (desc.max - desc.min + desc.step - 1) / desc.step →
      ((desc.max - desc.min + desc.step - 1) / desc.step).toNat + 1 ≤ fuel + n →
      ∃ v : Nat, max77693_get_voltage_proper_val_loop desc min_vol fuel n = some (v : Int) ∧
        (v : Int) ≤ (desc.max - desc.min + desc.step - 1) / desc.step := by
  have hN : desc.step * ((desc.max - desc.min + desc.step - 1) / desc.step) ≤
      desc.max - desc.min + desc.step - 1 := Int.mul_ediv_self_le (by omega)
  generalize hNdef : (desc.max - desc.min + desc.step - 1) / desc.step = N at hN ⊢
  intro fuel
  induction fuel with
  | zero =>
    intro n hn hf
    have : 0 ≤ N := by omega
    omega
  | succ fuel ih =>
    intro n hn hf
    have hf1 : N.toNat + 1 ≤ fuel + (n + 1) := by
      rw [Nat.add_right_comm] at hf
      exact hf
    have hsn : desc.step * (n : Int) ≤ desc.step * N :=
      Int.mul_le_mul_of_nonneg_left hn (Int.le_of_lt hstep)
    have hs0 : 0 ≤ desc.step * (n : Int) :=
      Int.mul_nonneg (Int.le_of_lt hstep) (Int.ofNat_nonneg n)
    generalize hp : desc.step * (n : Int) = p at hsn hs0
    generalize hq : desc.step * N = q at hsn hN
    have e1 : int32 p = p := int32_of_range _ (by omega) (by omega)
    have e2 : int32 (desc.min + p) = desc.min + p := int32_of_range _ (by omega) (by omega)
    unfold max77693_get_voltage_proper_val_loop
    simp only [hp, e1, e2]
    by_cases hc : desc.min + p < min_vol ∧ desc.min + p < desc.max
    · rw [if_pos hc]
      have hmul : ((n : Int) + 1) * desc.step ≤ desc.max - desc.min + desc.step - 1 := by
        have h1 : ((n : Int) + 1) * desc.step = desc.step * (n : Int) + desc.step := by
          rw [Int.add_mul, Int.one_mul, Int.mul_comm]
        rw [h1, hp]
        omega
      have hn1 : (n : Int) + 1 ≤ N := by
        rw [← hNdef]
        exact Int.le_ediv_of_mul_le hstep hmul
      have hle1 : (n : Int) + 1 ≤ desc.max - desc.min + desc.step - 1 := by
        have h2 : ((n : Int) + 1) * 1 ≤ ((n : Int) + 1) * desc.step :=
          Int.mul_le_mul_of_nonneg_left (by omega) (by omega)
        rw [Int.mul_one] at h2
        exact Int.le_trans h2 hmul
      have e3 : int32 ((n : Int) + 1) = ((n + 1 : Nat) : Int) := by
        rw [int32_of_range _ (by omega) (by omega)]
        push_cast
        rfl
      rw [e3]
      exact ih (n + 1) (by push_cast; exact hn1) hf1
    · rw [if_neg hc]
      exact ⟨n, rfl, hn⟩

/-- C26, amended: for every descriptor with step > 0 and min <= max whose
values keep `step * val` and `min + step * val` inside `int` up to the bound
(INT_MIN <= min, max + step <= INT_MAX, max - min + step <= INT_MAX) and for
every min_vol, the loop ends after at most ceil((max - min) / step)
iterations: with fuel for that many tests plus one it returns a val, the
number of iterations, not above the bound. -/
theorem proper_val_loop_terminates (desc : voltage_map_desc) (min_vol : Int) (fuel : Nat)
    (hstep : 0 < desc.step) (hle : desc.min ≤ desc.max)
    (hmin : -2147483648 ≤ desc.min) (hmax : desc.max + desc.step ≤ 2147483647)
    (hspan : desc.max - desc.min + desc.step ≤ 2147483647)
    (hfuel : ((desc.max - desc.min + desc.step - 1) / desc.step).toNat + 1 ≤ fuel) :
    ∃ v : Nat, max77693_get_voltage_proper_val_loop desc min_vol fuel 0 = some (v : Int) ∧
      (v : Int) ≤ (desc.max - desc.min + desc.step - 1) / desc.step := by
  have h0 : 0 ≤ (desc.max - desc.min + desc.step - 1) / desc.step :=
    Int.ediv_nonneg (by omega) (by omega)
  exact proper_val_loop_bounded desc min_vol hstep hmin hmax hspan fuel 0
    (by simpa using h0) (by omega)

/-- Witness for C26 on the charger map, whose bound is 126. -/
theorem proper_val_loop_terminates_witness :
    (charger_current_map_desc.max - charger_current_map_desc.min +
        charger_current_map_desc.step - 1) / charger_current_map_desc.step = 126 ∧
    ∃ v : Nat,
      max77693_get_voltage_proper_val_loop charger_current_map_desc 3000 127 0 =
        some (v : Int) ∧
      (v : Int) ≤ (charger_current_map_desc.max - charger_current_map_desc.min +
        charger_current_map_desc.step - 1) / charger_current_map_desc.step :=
  ⟨by decide,
   proper_val_loop_terminates charger_current_map_desc 3000 127 (by decide) (by decide)
     (by decide) (by decide) (by decide) (by decide)⟩

/-- Storing in a list the entry it already holds changes nothing. -/
theorem set_same_entry {α : Type} (l : List α) (i : Nat) (a : α) (h : l[i]? = some a) :
    l.set i a = l := by
  apply List.ext_getElem?
  intro j
  rw [List.getElem?_set]
  split_ifs with h1 h2
  · subst h1; exact h.symm
  · subst h1
    rw [List.getElem?_eq_none (by omega)] at h
    cases h
  · rfl

/-- A table that differs from `regulators[]` in `n_voltages` only has, up to
that field, the entries of `regulators[]`. -/
theorem table_lookup_static (t : List regulator_desc) (id : Int)
    (ht : t.map regulator_desc.static = regulators) :
    (table_lookup t id).map regulator_desc.static = table_lookup regulators id := by
  unfold table_lookup
  split_ifs
  · rw [← ht, List.getElem?_map]
  · rfl

/-- The assignment of `n_voltages` changes no other field of the table. -/
theorem table_set_n_voltages_static (t : List regulator_desc) (id : Int) (n : Nat) :
    (table_set_n_voltages t id n).map regulator_desc.static = t.map regulator_desc.static := by
  unfold table_set_n_voltages
  cases hl : table_lookup t id with
  | none => rfl
  | some d =>
    simp only [List.map_set]
    apply set_same_entry
    have hd : t[id.toNat]? = some d := by
      unfold table_lookup at hl
      split_ifs at hl
      exact hl
    rw [List.getElem?_map, hd]
    rfl


/-- One pass of the registration loop adds its descriptor and its table index. -/
theorem registered_descs_step (log : List probe_event) (id : Int) (i : Nat)
    (d : Option regulator_desc) :
    registered_descs (log ++ [probe_event.table_index id, probe_event.regulator_register i d]) =
      registered_descs log ++ [d] ∧
    table_indices (log ++ [probe_event.table_index id, probe_event.regulator_register i d]) =
      table_indices log ++ [id] := by
  simp [registered_descs, table_indices, List.filterMap_append, List.filterMap_cons]

/-- The registration loop, when its first `m` registrations succeed and the
next one (if the list has one) fails, indexes the table at the ids of the first
`m + 1` entries, in order, and hands to `regulator_register` for each the table
entry at that id (up to `n_voltages`). -/
theorem probe_loop_registers_table_entries (k : kernel_env) :
    ∀ (rds : List max77693_regulator_data) (i : Nat) (st : probe_state) (m : Nat),
      m ≤ rds.length →
      (∀ j, j < m → k.regulator_register_result (i + j) = none) →
      (m < rds.length → ∃ e, k.regulator_register_result (i + m) = some e) →
      st.table.map regulator_desc.static = regulators →
        (max77693_pmic_probe_loop k rds i st).2.table.map regulator_desc.static = regulators ∧
        table_indices (max77693_pmic_probe_loop k rds i st).2.log =
          table_indices st.log ++ (rds.take (m + 1)).map (fun rd => rd.id) ∧
        (registered_descs (max77693_pmic_probe_loop k rds i st).2.log).map
            (Option.map regulator_desc.static) =
          (registered_descs st.log).map (Option.map regulator_desc.static) ++
            (rds.take (m + 1)).map (fun rd => table_lookup regulators rd.id) := by
  intro rds
  induction rds with
  | nil =>
    intro i st m _ _ _ ht
    exact ⟨ht, by simp [max77693_pmic_probe_loop], by simp [max77693_pmic_probe_loop]⟩
  | cons rd rest ih =>
    intro i st m hm hok hstop ht
    have ht1 : (if rd.id = MAX77693_ESAFEOUT1 ∨ rd.id = MAX77693_ESAFEOUT2 then
          table_set_n_voltages st.table rd.id max77693_safeoutvolt.length
        else st.table).map regulator_desc.static = regulators := by
      split_ifs
      · rw [table_set_n_voltages_static, ht]
      · exact ht
    have hstep := registered_descs_step st.log rd.id i
      (table_lookup
        (if rd.id = MAX77693_ESAFEOUT1 ∨ rd.id = MAX77693_ESAFEOUT2 then
          table_set_n_voltages st.table rd.id max77693_safeoutvolt.length
        else st.table) rd.id)
    have hlook := table_lookup_static _ rd.id ht1
    cases m with
    | zero =>
      obtain ⟨e, hres⟩ := hstop (by simp)
      rw [Nat.add_zero] at hres
      refine ⟨?_, ?_, ?_⟩
      · simp only [max77693_pmic_probe_loop, hres]
        exact ht1
      · simp only [max77693_pmic_probe_loop, hres, hstep.2]
        simp
      · simp only [max77693_pmic_probe_loop, hres, hstep.1]
        simp [hlook]
    | succ m1 =>
      have hres : k.regulator_register_result i = none := by
        have h0 := hok 0 (Nat.succ_pos m1)
        rw [Nat.add_zero] at h0
        exact h0
      have hm1 : m1 ≤ rest.length := by
        rw [List.length_cons] at hm
        omega
      have hok1 : ∀ j, j < m1 → k.regulator_register_result (i + 1 + j) = none := by
        intro j hj
        have h := hok (j + 1) (by omega)
        rw [show i + (j + 1) = i + 1 + j by omega] at h
        exact h
      have hstop1 : m1 < rest.length →
          ∃ e, k.regulator_register_result (i + 1 + m1) = some e := by
        intro hlt
        have h := hstop (by rw [List.length_cons]; omega)
        rw [show i + (m1 + 1) = i + 1 + m1 by omega] at h
        exact h
      obtain ⟨h1, h2, h3⟩ := ih (i + 1)
        { rdev := st.rdev.set i (some i),
          table :=
            if rd.id = MAX77693_ESAFEOUT1 ∨ rd.id = MAX77693_ESAFEOUT2 then
              table_set_n_voltages st.table rd.id max77693_safeoutvolt.length
            else st.table,
          log := st.log ++
            [probe_event.table_index rd.id,
             probe_event.regulator_register i
               (table_lookup
                 (if rd.id = MAX77693_ESAFEOUT1 ∨ rd.id = MAX77693_ESAFEOUT2 then
                    table_set_n_voltages st.table rd.id max77693_safeoutvolt.length
                  else st.table) rd.id)] }
        m1 hm1 hok1 hstop1 ht1
      refine ⟨?_, ?_, ?_⟩
      · simp only [max77693_pmic_probe_loop, hres]
        exact h1
      · simp only [max77693_pmic_probe_loop, hres]
        rw [h2, hstep.2]
        simp
      · simp only [max77693_pmic_probe_loop, hres]
        rw [h3, hstep.1]
        simp [hlook]

/-- The descriptor table as it stands in the source has `n_voltages` clear. -/
theorem regulators_static : regulators.map regulator_desc.static = regulators := by
  decide

/-- The error path of the probe indexes the table no more and registers
nothing more. -/
theorem cleanup_no_lookup (log : List probe_event) (rdev : List (Option Nat)) (n : Nat) :
    table_indices (log ++ unregister_loop rdev n ++
        [probe_event.kfree_rdev, probe_event.kfree_data]) = table_indices log ∧
    registered_descs (log ++ unregister_loop rdev n ++
        [probe_event.kfree_rdev, probe_event.kfree_data]) = registered_descs log := by
  have h1 : table_indices (unregister_loop rdev n) = [] := by
    unfold table_indices unregister_loop
    rw [List.filterMap_eq_nil_iff]
    intro ev hev
    rw [List.mem_filterMap] at hev
    obtain ⟨i, -, hi⟩ := hev
    cases hget : rdev.getD i none with
    | none => rw [hget] at hi; cases hi
    | some h => rw [hget] at hi; cases hi; rfl
  have h2 : registered_descs (unregister_loop rdev n) = [] := by
    unfold registered_descs unregister_loop
    rw [List.filterMap_eq_nil_iff]
    intro ev hev
    rw [List.mem_filterMap] at hev
    obtain ⟨i, -, hi⟩ := hev
    cases hget : rdev.getD i none with
    | none => rw [hget] at hi; cases hi
    | some h => rw [hget] at hi; cases hi; rfl
  constructor
  · have e : table_indices (log ++ unregister_loop rdev n ++
        [probe_event.kfree_rdev, probe_event.kfree_data]) =
        table_indices log ++ table_indices (unregister_loop rdev n) ++
          table_indices [probe_event.kfree_rdev, probe_event.kfree_data] := by
      simp only [table_indices, List.filterMap_append]
    rw [e, h1]
    simp [table_indices]
  · have e : registered_descs (log ++ unregister_loop rdev n ++
        [probe_event.kfree_rdev, probe_event.kfree_data]) =
        registered_descs log ++ registered_descs (unregister_loop rdev n) ++
          registered_descs [probe_event.kfree_rdev, probe_event.kfree_data] := by
      simp only [registered_descs, List.filterMap_append]
    rw [e, h2]
    simp [registered_descs]

/-- C27: `regulators[id]` has `.id = id` for ESAFEOUT1, ESAFEOUT2 and CHARGER,
the SAFEOUT entries being voltage regulators with `max77693_safeout_ops` and
the CHARGER entry a current regulator with `max77693_charger_ops`; and a probe
whose allocations succeed, whose first `m` registrations succeed and whose next
registration (if the platform data has a further entry) fails, indexes the
table at the ids of the first `m + 1` platform-data entries, in order, and
registers for each of them the table entry at the requested id, up to the
`n_voltages` it writes.  With `m = num_regulators` these are all the entries of
the platform data. -/
theorem regulators_indexed_by_id (k : kernel_env) (iodev : max77693_dev)
    (pdata : max77693_platform_data) (m : Nat)
    (hd : k.kzalloc_data_ok = true) (hr : k.kzalloc_rdev_ok = true)
    (hm : m ≤ pdata.num_regulators)
    (hok : ∀ j, j < m → k.regulator_register_result j = none)
    (hstop : m < pdata.num_regulators → ∃ e, k.regulator_register_result m = some e) :
    (table_lookup regulators MAX77693_ESAFEOUT1).map (fun d => (d.id, d.ops, d.type)) =
      some (MAX77693_ESAFEOUT1, max77693_safeout_ops, regulator_type.REGULATOR_VOLTAGE) ∧
    (table_lookup regulators MAX77693_ESAFEOUT2).map (fun d => (d.id, d.ops, d.type)) =
      some (MAX77693_ESAFEOUT2, max77693_safeout_ops, regulator_type.REGULATOR_VOLTAGE) ∧
    (table_lookup regulators MAX77693_CHARGER).map (fun d => (d.id, d.ops, d.type)) =
      some (MAX77693_CHARGER, max77693_charger_ops, regulator_type.REGULATOR_CURRENT) ∧
    table_indices (max77693_pmic_probe k iodev (some pdata) regulators).log =
      (pdata.regulator_data.take (m + 1)).map (fun rd => rd.id) ∧
    (registered_descs (max77693_pmic_probe k iodev (some pdata) regulators).log).map
        (Option.map regulator_desc.static) =
      (pdata.regulator_data.take (m + 1)).map (fun rd => table_lookup regulators rd.id) := by
  refine ⟨by decide, by decide, by decide, ?_⟩
  unfold max77693_pmic_probe
  obtain ⟨-, h2, h3⟩ := probe_loop_registers_table_entries k pdata.regulator_data 0
    { rdev := List.replicate pdata.num_regulators none, table := regulators,
      log := [probe_event.kzalloc_data, probe_event.kzalloc_rdev pdata.num_regulators,
              probe_event.platform_set_drvdata] }
    m hm
    (fun j hj => by rw [Nat.zero_add]; exact hok j hj)
    (fun hlt => by rw [Nat.zero_add]; exact hstop hlt)
    regulators_static
  have h20 : table_indices
      [probe_event.kzalloc_data, probe_event.kzalloc_rdev pdata.num_regulators,
       probe_event.platform_set_drvdata] = [] := by
    simp [table_indices]
  have h30 : registered_descs
      [probe_event.kzalloc_data, probe_event.kzalloc_rdev pdata.num_regulators,
       probe_event.platform_set_drvdata] = [] := by
    simp [registered_descs]
  simp only [h20, List.nil_append] at h2
  simp only [h30, List.map_nil, List.nil_append] at h3
  refine ⟨?_, ?_⟩
  · simp only [hd, hr, not_true_eq_false, if_false]
    split
    · rename_i st heq
      rw [heq] at h2
      exact h2
    · rename_i ret st heq
      rw [heq] at h2
      rw [(cleanup_no_lookup _ _ _).1]
      exact h2
  · simp only [hd, hr, not_true_eq_false, if_false]
    split
    · rename_i st heq
      rw [heq] at h3
      exact h3
    · rename_i ret st heq
      rw [heq] at h3
      rw [(cleanup_no_lookup _ _ _).2]
      exact h3

/-- Witness for C27: the three regulators in table order, the registration
number 1 failing with -16: the table is indexed at ESAFEOUT1 and ESAFEOUT2 and
their entries are the ones registered. -/
theorem regulators_indexed_by_id_witness :
    (kernel_failing_at 1 (-16)).kzalloc_data_ok = true ∧
    (kernel_failing_at 1 (-16)).kzalloc_rdev_ok = true ∧
    (1 : Nat) ≤ pdata_all.num_regulators ∧
    table_indices (max77693_pmic_probe (kernel_failing_at 1 (-16))
        { regmap := regmap_with 0 0 } (some pdata_all) regulators).log =
      [MAX77693_ESAFEOUT1, MAX77693_ESAFEOUT2] ∧
    (registered_descs (max77693_pmic_probe (kernel_failing_at 1 (-16))
        { regmap := regmap_with 0 0 } (some pdata_all) regulators).log).map
        (Option.map regulator_desc.static) =
      [table_lookup regulators MAX77693_ESAFEOUT1,
       table_lookup regulators MAX77693_ESAFEOUT2] :=
  have h := regulators_indexed_by_id (kernel_failing_at 1 (-16))
    { regmap := regmap_with 0 0 } pdata_all 1 rfl rfl (by decide)
    (fun j hj => by
      have hj0 : j = 0 := by omega
      subst hj0
      rfl)
    (fun _ => ⟨-16, rfl⟩)
  ⟨rfl, rfl, by decide, h.2.2.2.1, h.2.2.2.2⟩

/-- Witness for C23: ESAFEOUT1 and the range [4800000, 5000000], selector 0. -/
theorem set_voltage_safeout_selects_smallest_witness :
    (max77693_set_voltage_safeout esafeout1_rdev (data_with 0 0) 4800000 5000000).2.2 =
      some 0 ∧
    max77693_list_voltage_safeout esafeout1_rdev 0 = 4850000 ∧
    max77693_list_voltage_safeout esafeout1_rdev 0 ∈ max77693_safeoutvolt ∧
    (4800000 : Int) ≤ max77693_list_voltage_safeout esafeout1_rdev 0 ∧
    max77693_list_voltage_safeout esafeout1_rdev 0 ≤ 5000000 :=
  ⟨by decide, by decide,
   (set_voltage_safeout_selects_smallest esafeout1_rdev (data_with 0 0) 4800000 5000000 0
     (Or.inl rfl) (by decide)).1,
   (set_voltage_safeout_selects_smallest esafeout1_rdev (data_with 0 0) 4800000 5000000 0
     (Or.inl rfl) (by decide)).2.1,
   (set_voltage_safeout_selects_smallest esafeout1_rdev (data_with 0 0) 4800000 5000000 0
     (Or.inl rfl) (by decide)).2.2.1⟩

/-- Witness for C24 on CHARGER with all register bits set. -/
theorem enable_disable_observed_witness :
    ∃ reg mask pattern,
      max77693_get_enable_register charger_rdev = .ok (reg, mask, pattern) ∧
      ((data_content 0xff).iodev.regmap.update_result reg = 0 →
        (data_content 0xff).iodev.regmap.read_result reg = 0 →
        (max77693_reg_enable charger_rdev (data_content 0xff)).1 = 0 ∧
        (max77693_reg_enable charger_rdev (data_content 0xff)).2.iodev.regmap.content reg =
          (((data_content 0xff).iodev.regmap.content reg % 256) &&& (255 ^^^ (mask % 256))) |||
            ((pattern % 256) &&& (mask % 256)) ∧
        (max77693_reg_is_enabled charger_rdev
          (max77693_reg_enable charger_rdev (data_content 0xff)).2).1 = 1 ∧
        (max77693_reg_disable charger_rdev (data_content 0xff)).1 = 0 ∧
        (max77693_reg_disable charger_rdev (data_content 0xff)).2.iodev.regmap.content reg =
          (((data_content 0xff).iodev.regmap.content reg % 256) &&& (255 ^^^ (mask % 256))) |||
            ((0x00 % 256) &&& (mask % 256)) ∧
        (max77693_reg_is_enabled charger_rdev
          (max77693_reg_disable charger_rdev (data_content 0xff)).2).1 = 0) :=
  enable_disable_observed charger_rdev (data_content 0xff) (Or.inr (Or.inr rfl))

/-- Witness for C25: enabling ESAFEOUT1 as seen from ESAFEOUT2. -/
theorem safeout_fields_frame_witness :
    max77693_get_rid esafeout1_rdev ≠ max77693_get_rid esafeout2_rdev ∧
    (max77693_get_voltage esafeout2_rdev
        (max77693_reg_enable esafeout1_rdev (data_content 0xa5)).2).1 =
      (max77693_get_voltage esafeout2_rdev (data_content 0xa5)).1 ∧
    (max77693_reg_is_enabled esafeout2_rdev
        (max77693_reg_enable esafeout1_rdev (data_content 0xa5)).2).1 =
      (max77693_reg_is_enabled esafeout2_rdev (data_content 0xa5)).1 :=
  ⟨by decide,
   (safeout_fields_frame esafeout1_rdev esafeout2_rdev (data_content 0xa5) 3300000 3300000
     (Or.inl rfl) (Or.inr rfl)).2.1,
   ((safeout_fields_frame esafeout1_rdev esafeout2_rdev (data_content 0xa5) 3300000 3300000
     (Or.inl rfl) (Or.inr rfl)).2.2.2.2 (by decide)).1⟩

end Max77693

namespace CrystalCove

/-- C15: `crystal_cove_init` makes exactly one call of
`i2c_register_board_info`, for bus 7 and one entry, the device named
"crystal_cove" at address 0x6e (below 0x80) with `crystal_cove_data` as
platform data, and returns what that call returns. -/
theorem crystal_cove_init_registers (VV_GPIO_IRQBASE VV_NGPIO_SCORE VV_NGPIO_NCORE : Nat)
    (i2c_register_board_info : board_info_call → Int) :
    ∃ call,
      (crystal_cove_init VV_GPIO_IRQBASE VV_NGPIO_SCORE VV_NGPIO_NCORE
        i2c_register_board_info).2 = [call] ∧
      call.busnum = 7 ∧ call.len = 1 ∧ call.info.type = "crystal_cove" ∧
      call.info.addr = 0x6e ∧ call.info.addr < 0x80 ∧
      call.info.platform_data = crystal_cove_data ∧
      (crystal_cove_init VV_GPIO_IRQBASE VV_NGPIO_SCORE VV_NGPIO_NCORE
        i2c_register_board_info).1 = i2c_register_board_info call :=
  ⟨_, rfl, rfl, rfl, rfl, rfl, by simp [crystal_cove_device], rfl, rfl⟩

/-- C19: `crystal_cove_data` is the cell "crystal_cove_pwrsrc" with one IRQ
resource from PWRSRC_IRQ = 0 to 0, the cell "crystal_cove_adc" with one IRQ
resource from ADC_IRQ = 3 to 3, and an empty terminator; `num_resources` of
each cell is the length of its resource array and the two interrupt numbers
differ. -/
theorem crystal_cove_data_cells :
    crystal_cove_data =
      [{ name := some "crystal_cove_pwrsrc", id := 0, num_resources := 1,
         resources := [{ name := "PWRSRC", start := 0, end_ := 0,
                         flags := resource_flags.IORESOURCE_IRQ }] },
       { name := some "crystal_cove_adc", id := 0, num_resources := 1,
         resources := [{ name := "ADC", start := 3, end_ := 3,
                         flags := resource_flags.IORESOURCE_IRQ }] },
       { name := none, id := 0, num_resources := 0, resources := [] }] ∧
    PWRSRC_IRQ = 0 ∧ ADC_IRQ = 3 ∧ PWRSRC_IRQ ≠ ADC_IRQ ∧
    (∀ cell ∈ crystal_cove_data, cell.num_resources = cell.resources.length) ∧
    (∀ cell ∈ crystal_cove_data, ∀ r ∈ cell.resources,
      r.start = r.end_ ∧ r.flags = resource_flags.IORESOURCE_IRQ) := by
  refine ⟨rfl, rfl, rfl, by decide, ?_, ?_⟩
  · intro cell hcell
    simp only [crystal_cove_data, List.mem_cons, List.mem_nil_iff, or_false] at hcell
    rcases hcell with h | h | h <;> (subst h; rfl)
  · intro cell hcell r hr
    simp only [crystal_cove_data, List.mem_cons, List.mem_nil_iff, or_false] at hcell
    rcases hcell with h | h | h <;> rw [h] at hr <;>
      simp [pwrsrc_resources, adc_resources] at hr
    · rw [hr]; exact ⟨rfl, rfl⟩
    · rw [hr]; exact ⟨rfl, rfl⟩

end CrystalCove

namespace SpmemDump

/-- Each routine is the shared body at its variable and declared type. -/
theorem routine_eq_dump_var (v : sp_var) (env : sp_env) (st : dump_state) :
    v.routine env st = dump_var env v v.declared_type st := by
  cases v <;> rfl

/-- The scalar variables are declared with a 4-byte type. -/
theorem scalar_sizeof (env : sp_env) (v : sp_var) (hv : v ∈ sp_var.scalars) :
    v.declared_type.is_struct = false ∧ host_sizeof env v.declared_type = 4 := by
  have h : v.declared_type.is_struct = false := by
    simp only [sp_var.scalars, List.mem_filter] at hv
    simpa using hv.2
  exact ⟨h, by simp [host_sizeof, h]⟩

/-- C16: every dump routine compares the size of its host-side variable with
`HIVE_SIZE` of the symbol map before the raw copy: when they agree it loads
exactly `HIVE_SIZE` bytes from `HIVE_ADDR` and prints, when they differ it
stops without loading.  For each of the 19 scalar variables `HIVE_SIZE` is 4,
the assertion holds, and 4 bytes are loaded. -/
theorem dump_routines_check_size (env : sp_env) (st : dump_state) (hst : st.failed = none) :
    (∀ v : sp_var,
      (host_sizeof env v.declared_type = HIVE_SIZE v →
        v.routine env st =
          { st with log := st.log ++
              dump_event.sp_dmem_load (HIVE_ADDR v) (HIVE_SIZE v) ::
                (if v.declared_type.is_struct then
                  env.struct_prints v (sp_dmem_load env (HIVE_ADDR v) (HIVE_SIZE v))
                 else [dump_event.sh_css_print v.name
                        (word_of_bytes (sp_dmem_load env (HIVE_ADDR v) (HIVE_SIZE v)))]) }) ∧
      (host_sizeof env v.declared_type ≠ HIVE_SIZE v →
        v.routine env st = { st with failed := some v })) ∧
    sp_var.scalars =
      [sp_var.xmem_bin_addr, sp_var.sp_vf_downscale_bits, sp_var.sp_isp_started,
       sp_var.sp_sw_state, sp_var.host_sp_queues_initialized, sp_var.sp_sleep_mode,
       sp_var.isp_uv_internal_width_vecs, sp_var.isp_vf_output_width_vecs,
       sp_var.isp_vectors_per_line, sp_var.isp_vectors_per_input_line,
       sp_var.isp_sdis_horiproj_num, sp_var.isp_sdis_vertproj_num,
       sp_var.isp_sdis_horicoef_vectors, sp_var.isp_sdis_vertcoef_vectors,
       sp_var.sp_isp_input_stream_format, sp_var.sp_obarea_start_bq,
       sp_var.sp_obarea_length_bq, sp_var.sp_preview_thread_id,
       sp_var.sp_capture_thread_id] ∧
    (∀ v ∈ sp_var.scalars,
      HIVE_SIZE v = 4 ∧ host_sizeof env v.declared_type = HIVE_SIZE v ∧
      v.routine env st =
        { st with log := st.log ++
            [dump_event.sp_dmem_load (HIVE_ADDR v) 4,
             dump_event.sh_css_print v.name
               (word_of_bytes (sp_dmem_load env (HIVE_ADDR v) 4))] }) := by
  have hgen : ∀ v : sp_var,
      (host_sizeof env v.declared_type = HIVE_SIZE v →
        v.routine env st =
          { st with log := st.log ++
              dump_event.sp_dmem_load (HIVE_ADDR v) (HIVE_SIZE v) ::
                (if v.declared_type.is_struct then
                  env.struct_prints v (sp_dmem_load env (HIVE_ADDR v) (HIVE_SIZE v))
                 else [dump_event.sh_css_print v.name
                        (word_of_bytes (sp_dmem_load env (HIVE_ADDR v) (HIVE_SIZE v)))]) }) ∧
      (host_sizeof env v.declared_type ≠ HIVE_SIZE v →
        v.routine env st = { st with failed := some v }) := by
    intro v
    rw [routine_eq_dump_var]
    unfold dump_var
    rw [hst]
    refine ⟨fun h => ?_, fun h => ?_⟩
    · simp only [dump_events, sp_address_of, h, if_true]
    · simp only [if_neg h]
  refine ⟨hgen, by decide, ?_⟩
  intro v hv
  obtain ⟨hns, h4⟩ := scalar_sizeof env v hv
  have hsize : HIVE_SIZE v = 4 := by
    revert hv
    cases v <;> decide
  refine ⟨hsize, by rw [h4, hsize], ?_⟩
  rw [(hgen v).1 (by rw [h4, hsize]), hsize, hns]
  rfl


/-- Witness for C16 at `xmem_bin_addr`. -/
theorem dump_routines_check_size_witness :
    sp_var.xmem_bin_addr ∈ sp_var.scalars ∧
    HIVE_SIZE sp_var.xmem_bin_addr = 4 ∧
    host_sizeof (sample_env 0x5a) sp_var.xmem_bin_addr.declared_type =
      HIVE_SIZE sp_var.xmem_bin_addr ∧
    sp_var.xmem_bin_addr.routine (sample_env 0x5a) dump_state.start =
      { dump_state.start with log := dump_state.start.log ++
          [dump_event.sp_dmem_load (HIVE_ADDR sp_var.xmem_bin_addr) 4,
           dump_event.sh_css_print sp_var.xmem_bin_addr.name
             (word_of_bytes
               (sp_dmem_load (sample_env 0x5a) (HIVE_ADDR sp_var.xmem_bin_addr) 4))] } :=
  ⟨by decide,
   (dump_routines_check_size (sample_env 0x5a) dump_state.start rfl).2.2
     sp_var.xmem_bin_addr (by decide)⟩

/-- Running routines one after the other, all assertions holding, appends their
events in order. -/
theorem foldl_routines_log (env : sp_env)
    (hsize : ∀ v : sp_var, host_sizeof env v.declared_type = HIVE_SIZE v) :
    ∀ (vs : List sp_var) (st : dump_state), st.failed = none →
      (vs.foldl (fun s v => v.routine env s) st).failed = none ∧
      (vs.foldl (fun s v => v.routine env s) st).log =
        st.log ++ (vs.map (fun v => dump_events env v v.declared_type)).flatten := by
  intro vs
  induction vs with
  | nil => intro st hst; exact ⟨hst, by simp⟩
  | cons v rest ih =>
    intro st hst
    have hstep : v.routine env st =
        { st with log := st.log ++ dump_events env v v.declared_type } := by
      rw [routine_eq_dump_var]
      unfold dump_var
      rw [hst]
      simp only [hsize v, if_true]
    have hfailed : (v.routine env st).failed = none := by rw [hstep]; exact hst
    obtain ⟨h1, h2⟩ := ih (v.routine env st) hfailed
    refine ⟨h1, ?_⟩
    rw [List.foldl_cons, h2, hstep]
    simp [List.append_assoc]

/-- C17: `sh_css_dump_sp_dmem` runs the routines of the 24 variables, each once,
in the order in which they are defined; when the size assertions hold its
output is the concatenation of the 24 individual dumps in that order. -/
theorem sh_css_dump_sp_dmem_in_order (env : sp_env) (st : dump_state) :
    sh_css_dump_sp_dmem env st = sp_var.all.foldl (fun s v => v.routine env s) st ∧
    sp_var.all.length = 24 ∧ sp_var.all.Nodup ∧ (∀ v : sp_var, v ∈ sp_var.all) ∧
    ((∀ v : sp_var, host_sizeof env v.declared_type = HIVE_SIZE v) →
      (sh_css_dump_sp_dmem env dump_state.start).failed = none ∧
      (sh_css_dump_sp_dmem env dump_state.start).log =
        (sp_var.all.map (fun v => (v.routine env dump_state.start).log)).flatten) := by
  have hfold : ∀ s : dump_state,
      sh_css_dump_sp_dmem env s = sp_var.all.foldl (fun s v => v.routine env s) s :=
    fun _ => rfl
  refine ⟨hfold st, rfl, by decide, fun v => by cases v <;> decide, ?_⟩
  intro hsize
  obtain ⟨h1, h2⟩ := foldl_routines_log env hsize sp_var.all dump_state.start rfl
  rw [hfold]
  refine ⟨h1, ?_⟩
  rw [h2]
  have hone : ∀ v : sp_var,
      (v.routine env dump_state.start).log = dump_events env v v.declared_type := by
    intro v
    have := (foldl_routines_log env hsize [v] dump_state.start rfl).2
    simpa [dump_state.start] using this
  simp only [hone]
  simp [dump_state.start]

/-- Witness for C17 on a host whose struct sizes are those of the symbol map. -/
theorem sh_css_dump_sp_dmem_in_order_witness :
    (∀ v : sp_var, host_sizeof (sample_env 0) v.declared_type = HIVE_SIZE v) ∧
    (sh_css_dump_sp_dmem (sample_env 0) dump_state.start).failed = none ∧
    (sh_css_dump_sp_dmem (sample_env 0) dump_state.start).log =
      (sp_var.all.map
        (fun v => (v.routine (sample_env 0) dump_state.start).log)).flatten :=
  ⟨fun v => by cases v <;> rfl,
   (sh_css_dump_sp_dmem_in_order (sample_env 0) dump_state.start).2.2.2.2
     (fun v => by cases v <;> rfl)⟩

end SpmemDump
